import Mathlib

/-!
# bino: playback control of the Qt front end (`src/player_qt.cpp`)

A shallow embedding of `player_qt_internal`, `in_out_widget`, `controls_widget`
and `main_window`.

* C++ `float` values are rationals (no NaN). The product in front of `qRound` that fills
  the ghostbust spin box is rounded to a `float` by the machine, and that rounding can
  change the integer shown: it is `environment.float_mul`. Every other product and
  quotient is taken exactly.
* Every object reachable from the main window is a field of one record,
  `main_window`; a member function is a function on that record.
* Calls that leave `player_qt.cpp` (the player engine, the dispatch bus, message
  boxes, the timer, the settings store) are appended to a ghost field `trace`, in
  call order.
* What the absent collaborators compute is a parameter (`environment`).
* `send_cmd` and `notify` call each other through the bus; the nesting depth is
  bounded by a `fuel` argument and running out of it is a `fault`.
-/

namespace bino

/-- C++ `float`: the value as a rational number. -/
abbrev float := ℚ

/-! ## Types declared in headers outside `src/` (as used by `player_qt.cpp`) -/

/-- Type `video_frame::stereo_layout_t`: the enumerators `set_input` switches over. -/
inductive video_frame.stereo_layout_t
  | mono
  | separate
  | top_bottom
  | top_bottom_half
  | left_right
  | left_right_half
  | even_odd_rows
  deriving DecidableEq

/-- Type `parameters::stereo_mode_t`: the enumerators `set_output` switches over; `other`
stands for any value that only the `default:` label catches. -/
inductive parameters.stereo_mode_t
  | stereo
  | mono_left
  | mono_right
  | top_bottom
  | top_bottom_half
  | left_right
  | left_right_half
  | even_odd_rows
  | even_odd_columns
  | checkerboard
  | anaglyph_red_cyan_monochrome
  | anaglyph_red_cyan_full_color
  | anaglyph_red_cyan_half_color
  | anaglyph_red_cyan_dubois
  | other
  deriving DecidableEq

open video_frame parameters

/-- Type `parameters`: the fields `player_qt.cpp` reads or writes. -/
structure parameters where
  stereo_mode : stereo_mode_t
  stereo_mode_swap : Bool
  parallax : float
  ghostbust : float
  contrast : float
  brightness : float
  hue : float
  saturation : float
  crosstalk_r : float
  crosstalk_g : float
  crosstalk_b : float

/-- Type `player_init_data`: the fields `player_qt.cpp` reads or writes. -/
structure player_init_data where
  log_level : Nat
  urls : List String
  stereo_layout_override : Bool
  stereo_layout : stereo_layout_t
  stereo_layout_swap : Bool
  audio_stream : Int
  stereo_mode_override : Bool
  stereo_mode : stereo_mode_t
  stereo_mode_swap : Bool
  params : parameters

/-- Assignment to `parallax`. -/
def parameters.set_parallax (p : parameters) (v : float) : parameters :=
  { p with parallax := v }

/-- Assignment to `ghostbust`. -/
def parameters.set_ghostbust (p : parameters) (v : float) : parameters :=
  { p with ghostbust := v }

/-- Assignment to `urls`. -/
def player_init_data.set_urls (d : player_init_data) (urls : List String) : player_init_data :=
  { d with urls := urls }

/-- Assignment to `stereo_layout` and `stereo_layout_swap`, the two reference arguments of
a call that fills them. -/
def player_init_data.set_stereo_layout (d : player_init_data)
    (layout : stereo_layout_t × Bool) : player_init_data :=
  { d with stereo_layout := layout.1, stereo_layout_swap := layout.2 }

/-- Assignment to `stereo_layout_override`. -/
def player_init_data.set_stereo_layout_override (d : player_init_data) (b : Bool) :
    player_init_data :=
  { d with stereo_layout_override := b }

/-- Assignment to `audio_stream`. -/
def player_init_data.set_audio_stream (d : player_init_data) (i : Int) : player_init_data :=
  { d with audio_stream := i }

/-- Assignment to `stereo_mode` and `stereo_mode_swap`, the two reference arguments of a
call that fills them. -/
def player_init_data.set_stereo_mode (d : player_init_data)
    (mode : stereo_mode_t × Bool) : player_init_data :=
  { d with stereo_mode := mode.1, stereo_mode_swap := mode.2 }

/-- Assignment to `stereo_mode_override`. -/
def player_init_data.set_stereo_mode_override (d : player_init_data) (b : Bool) :
    player_init_data :=
  { d with stereo_mode_override := b }

/-- Assignment to `params`. -/
def player_init_data.set_params (d : player_init_data) (p : parameters) : player_init_data :=
  { d with params := p }

/-- Type `command::type`: the command kinds sent in `player_qt.cpp`. -/
inductive command.type_t
  | toggle_play
  | toggle_pause
  | toggle_stereo_mode_swap
  | toggle_fullscreen
  | center
  | seek
  | set_pos
  | set_parallax
  | set_ghostbust
  deriving DecidableEq

/-- Type `command`: a kind and an optional scalar payload. -/
structure command where
  type : command.type_t
  param : Option float

/-- Type `notification::type`: the notification kinds handled in `player_qt.cpp`. -/
inductive notification.type_t
  | play
  | pause
  | pos
  | stereo_mode_swap
  | parallax
  | ghostbust
  | contrast
  | brightness
  | hue
  | saturation
  deriving DecidableEq

/-- The `previous` / `current` members of a notification: a C union of `flag` and
`value`, kept here as two independent fields (each handler reads one of them). -/
structure notification.data where
  flag : Bool
  value : float

/-- Type `notification`. -/
structure notification where
  type : notification.type_t
  previous : notification.data
  current : notification.data

/-- Constructor `notification(type, bool previous, bool current)`. -/
def notification.of_flag (t : notification.type_t) (previous current : Bool) : notification :=
  ⟨t, ⟨previous, 0⟩, ⟨current, 0⟩⟩

/-- Constructor `notification(type, float previous, float current)`. -/
def notification.of_value (t : notification.type_t) (previous current : float) : notification :=
  ⟨t, ⟨false, previous⟩, ⟨false, current⟩⟩

/-! ## Qt widgets (library semantics: a setter fires its signal only on a change) -/

/-- Type `QComboBox` holding `count` items; the current index is always one of them
(items are only added in the constructors, before any selection is made). -/
structure QComboBox (count : Nat) where
  currentIndex : Fin count
  enabled : Bool

/-- Type `QSpinBox`. -/
structure QSpinBox where
  value : Int
  enabled : Bool

/-- Type `QDoubleSpinBox`. -/
structure QDoubleSpinBox where
  value : float
  enabled : Bool

/-- Type `QPushButton`. -/
structure QPushButton where
  checked : Bool
  enabled : Bool

/-- Type `QSlider`. -/
structure QSlider where
  value : Int
  sliderDown : Bool
  enabled : Bool

/-- Type `QLabel`. -/
structure QLabel where
  enabled : Bool

/-- Type `QTimer`. -/
structure QTimer where
  active : Bool

/-- Range bounding done by `QSpinBox::setValue`, `QDoubleSpinBox::setValue` and
`QAbstractSlider::setValue`. -/
def qBound {α : Type} [LinearOrder α] (lo v hi : α) : α :=
  max lo (min hi v)

/-- Function `qRound`: `int(d + 0.5)` for `d >= 0`, and
`int(d - int(d - 1) + 0.5) + int(d - 1)` otherwise, `int` truncating toward zero. -/
def qRound (d : float) : Int :=
  if 0 ≤ d then Int.floor (d + 1 / 2)
  else Int.floor (d - (Int.ceil (d - 1) : ℚ) + 1 / 2) + Int.ceil (d - 1)

/-- Type `QSettings`: the stored keys (full path, groups included) with their values. -/
abbrev QSettings := List (String × String)

/-- Function `QSettings::value(key)` of a stored key. -/
def QSettings.lookup (s : QSettings) (key : String) : Option String :=
  (s.find? (fun kv => kv.1 == key)).map Prod.snd

/-- Function `QSettings::value(key, defaultValue).toString()`. -/
def QSettings.value (s : QSettings) (key : String) (defaultValue : String) : String :=
  (QSettings.lookup s key).getD defaultValue

/-- Function `QSettings::setValue(key, value)`. -/
def QSettings.setValue (s : QSettings) (key : String) (value : String) : QSettings :=
  (key, value) :: s.filter (fun kv => !(kv.1 == key))

/-! ## The widgets of `player_qt.cpp` -/

/-- Type `in_out_widget`: 13 input layouts, 14 output modes. -/
structure in_out_widget where
  _input_combobox : QComboBox 13
  _audio_spinbox : QSpinBox
  _output_combobox : QComboBox 14
  _swap_eyes_button : QPushButton
  _fullscreen_button : QPushButton
  _center_button : QPushButton
  _parallax_label : QLabel
  _parallax_spinbox : QDoubleSpinBox
  _ghostbust_label : QLabel
  _ghostbust_spinbox : QSpinBox
  _lock : Bool

/-- Type `controls_widget`. -/
structure controls_widget where
  _lock : Bool
  _playing : Bool
  _seek_slider : QSlider
  _play_button : QPushButton
  _pause_button : QPushButton
  _stop_button : QPushButton
  _bbb_button : QPushButton
  _bb_button : QPushButton
  _b_button : QPushButton
  _f_button : QPushButton
  _ff_button : QPushButton
  _fff_button : QPushButton

/-! ## The player engine and the other absent collaborators -/

/-- What the engine reports about an opened input:
`get_media_input().video_frame_template()` and `get_parameters()`. -/
structure media_info where
  stereo_layout : stereo_layout_t
  stereo_layout_swap : Bool
  stereo_mode : stereo_mode_t
  stereo_mode_swap : Bool

/-- Outcome of `player::open`: it throws a `std::exception` or it returns. -/
inductive open_result
  | threw (what : String)
  | opened (info : media_info)

/-- Outcome of `player::run_step`: it throws a `std::exception` or it returns a flag. -/
inductive step_result
  | threw (what : String)
  | returned (r : Bool)

/-- Type `player_qt_internal`: `_playing`, and of the `player` base class whether an input
is open and what its accessors report. -/
structure player_qt_internal where
  _playing : Bool
  is_open : Bool
  media : media_info

/-- Functions that `player_qt.cpp` calls and that are defined elsewhere. -/
structure environment where
  /-- The function `video_frame::stereo_layout_to_string`. -/
  stereo_layout_to_string : stereo_layout_t → Bool → String
  /-- The function `video_frame::stereo_layout_from_string`; the pair is the two
  reference arguments before and after the call. -/
  stereo_layout_from_string : String → stereo_layout_t × Bool → stereo_layout_t × Bool
  /-- The function `parameters::stereo_mode_to_string`. -/
  stereo_mode_to_string : stereo_mode_t → Bool → String
  /-- The function `parameters::stereo_mode_from_string`. -/
  stereo_mode_from_string : String → stereo_mode_t × Bool → stereo_mode_t × Bool
  /-- The function `parameters::set_defaults`. -/
  set_defaults : parameters → parameters
  /-- The conversion `QVariant(int).toString()`. -/
  int_to_string : Int → String
  /-- The conversion `QVariant(QString).toInt()`. -/
  string_to_int : String → Int
  /-- The conversion `QVariant(float).toString()`. -/
  float_to_string : float → String
  /-- The conversion `QVariant(QString).toFloat()`. -/
  string_to_float : String → float
  /-- Hex SHA1 of `QFileInfo(name).fileName()`. -/
  file_hash : String → String
  /-- Rounding of `QDoubleSpinBox::setValue` to the two decimals of the box. -/
  round_decimals : float → float
  /-- The product `a * b` of two `float` values as the machine computes it: the exact
  product rounded to a `float`. -/
  float_mul : float → float → float
  /-- What `player::open` does with the given data. -/
  player_open : player_init_data → open_result

/-! ## The main window -/

/-- A call that leaves `player_qt.cpp`, or a direct widget re-sync. -/
inductive event
  | notify (note : notification)
  | player_receive_cmd (cmd : command)
  | player_open (init_data : player_init_data)
  | player_close
  | player_run_step
  | message_box (text : String)
  | adjust_size
  | set_focus
  | timer_start
  | timer_stop
  | settings_set_value (key : String) (value : String)
  | in_out_widget_update (init_data : player_init_data) (have_valid_input playing : Bool)
  | controls_widget_update (init_data : player_init_data) (have_valid_input playing : Bool)

/-- Ways in which a run has no defined result. -/
inductive fault
  | out_of_fuel
  | urls_empty

/-- Type `main_window` with the objects it owns, and the ghost `trace`. -/
structure main_window where
  _settings : QSettings
  _in_out_widget : in_out_widget
  _controls_widget : controls_widget
  _player : player_qt_internal
  _timer : QTimer
  _init_data : player_init_data
  _init_data_template : player_init_data
  _stop_request : Bool
  trace : List event

/-- Assignment to `_init_data`. -/
def main_window.set_init_data (w : main_window) (d : player_init_data) : main_window :=
  { w with _init_data := d }

/-- Appends one event to the trace. -/
def main_window.emit (w : main_window) (e : event) : main_window :=
  { w with trace := w.trace ++ [e] }

/-- A computation on the window that may fault. -/
abbrev action := main_window → Except fault main_window

/-- Replaces the in/out widget. -/
def main_window.set_in_out (w : main_window) (io : in_out_widget) : main_window :=
  { w with _in_out_widget := io }

/-- Replaces the controls widget. -/
def main_window.set_controls (w : main_window) (c : controls_widget) : main_window :=
  { w with _controls_widget := c }

/-! ## `in_out_widget`

`send_cmd` is `controller::send_cmd`, which goes through the bus (see
`controller.send_cmd` below). -/

/-- Function `in_out_widget::input`; the argument holds the two reference parameters on
entry. -/
def in_out_widget.input (io : in_out_widget) (stereo_layout : stereo_layout_t × Bool) :
    stereo_layout_t × Bool :=
  match io._input_combobox.currentIndex.val with
  | 0 => (.mono, false)
  | 1 => (.separate, false)
  | 2 => (.separate, false)
  | 3 => (.top_bottom, false)
  | 4 => (.top_bottom_half, false)
  | 5 => (.top_bottom, true)
  | 6 => (.top_bottom_half, true)
  | 7 => (.left_right, false)
  | 8 => (.left_right_half, false)
  | 9 => (.left_right, true)
  | 10 => (.left_right_half, true)
  | 11 => (.even_odd_rows, false)
  | 12 => (.even_odd_rows, true)
  | _ => stereo_layout

/-- Function `in_out_widget::audio_stream`. -/
def in_out_widget.audio_stream (io : in_out_widget) : Int :=
  io._audio_spinbox.value - 1

/-- Function `in_out_widget::output`; the argument holds the two reference parameters on
entry. -/
def in_out_widget.output (io : in_out_widget) (stereo_mode : stereo_mode_t × Bool) :
    stereo_mode_t × Bool :=
  let m : stereo_mode_t :=
    match io._output_combobox.currentIndex.val with
    | 0 => .mono_left
    | 1 => .mono_right
    | 2 => .top_bottom
    | 3 => .top_bottom_half
    | 4 => .left_right
    | 5 => .left_right_half
    | 6 => .even_odd_rows
    | 7 => .even_odd_columns
    | 8 => .checkerboard
    | 9 => .anaglyph_red_cyan_dubois
    | 10 => .anaglyph_red_cyan_monochrome
    | 11 => .anaglyph_red_cyan_full_color
    | 12 => .anaglyph_red_cyan_half_color
    | 13 => .stereo
    | _ => stereo_mode.1
  (m, io._swap_eyes_button.checked)

/-- Function `in_out_widget::swap_eyes_changed` (slot of `_swap_eyes_button.toggled`). -/
def in_out_widget.swap_eyes_changed (send_cmd : command → action) : action := fun w =>
  if !w._in_out_widget._lock then send_cmd ⟨.toggle_stereo_mode_swap, none⟩ w
  else .ok w

/-- Function `in_out_widget::fullscreen_pressed`. -/
def in_out_widget.fullscreen_pressed (send_cmd : command → action) : action := fun w =>
  send_cmd ⟨.toggle_fullscreen, none⟩ w

/-- Function `in_out_widget::center_pressed`. -/
def in_out_widget.center_pressed (send_cmd : command → action) : action := fun w =>
  send_cmd ⟨.center, none⟩ w

/-- Function `in_out_widget::parallax_changed` (slot of `_parallax_spinbox.valueChanged`). -/
def in_out_widget.parallax_changed (send_cmd : command → action) : action := fun w =>
  if !w._in_out_widget._lock then
    send_cmd ⟨.set_parallax, some w._in_out_widget._parallax_spinbox.value⟩ w
  else .ok w

/-- Function `in_out_widget::ghostbust_changed` (slot of `_ghostbust_spinbox.valueChanged`). -/
def in_out_widget.ghostbust_changed (send_cmd : command → action) : action := fun w =>
  if !w._in_out_widget._lock then
    send_cmd ⟨.set_ghostbust, some ((w._in_out_widget._ghostbust_spinbox.value : ℚ) / 100)⟩ w
  else .ok w

/-- Call `_swap_eyes_button->setChecked(b)`: `toggled` fires on a change. -/
def in_out_widget.swap_eyes_setChecked (send_cmd : command → action) (b : Bool) : action :=
  fun w =>
  if w._in_out_widget._swap_eyes_button.checked = b then .ok w
  else
    in_out_widget.swap_eyes_changed send_cmd
      (w.set_in_out { w._in_out_widget with
        _swap_eyes_button := { w._in_out_widget._swap_eyes_button with checked := b } })

/-- Call `_parallax_spinbox->setValue(v)`: rounds to the decimals of the box, bounds to
`[-1, 1]`; `valueChanged` fires on a change. -/
def in_out_widget.parallax_setValue (env : environment) (send_cmd : command → action)
    (v : float) : action := fun w =>
  let v1 := qBound (-1) (env.round_decimals v) 1
  if w._in_out_widget._parallax_spinbox.value = v1 then .ok w
  else
    in_out_widget.parallax_changed send_cmd
      (w.set_in_out { w._in_out_widget with
        _parallax_spinbox := { w._in_out_widget._parallax_spinbox with value := v1 } })

/-- Call `_ghostbust_spinbox->setValue(v)`: bounds to `[0, 100]`; `valueChanged` fires on a
change. -/
def in_out_widget.ghostbust_setValue (send_cmd : command → action) (v : Int) : action :=
  fun w =>
  let v1 := qBound 0 v 100
  if w._in_out_widget._ghostbust_spinbox.value = v1 then .ok w
  else
    in_out_widget.ghostbust_changed send_cmd
      (w.set_in_out { w._in_out_widget with
        _ghostbust_spinbox := { w._in_out_widget._ghostbust_spinbox with value := v1 } })

/-- Call `_audio_spinbox->setValue(v)`: bounds to `[1, 999]`; no slot is connected. -/
def in_out_widget.audio_setValue (v : Int) (io : in_out_widget) : in_out_widget :=
  { io with _audio_spinbox := { io._audio_spinbox with value := qBound 1 v 999 } }

/-- Function `in_out_widget::set_output`. -/
def in_out_widget.set_output (send_cmd : command → action) (stereo_mode : stereo_mode_t)
    (stereo_mode_swap : Bool) : action := fun w =>
  let i : Fin 14 :=
    match stereo_mode with
    | .other => 0
    | .mono_left => 0
    | .mono_right => 1
    | .top_bottom => 2
    | .top_bottom_half => 3
    | .left_right => 4
    | .left_right_half => 5
    | .even_odd_rows => 6
    | .even_odd_columns => 7
    | .checkerboard => 8
    | .anaglyph_red_cyan_dubois => 9
    | .anaglyph_red_cyan_monochrome => 10
    | .anaglyph_red_cyan_full_color => 11
    | .anaglyph_red_cyan_half_color => 12
    | .stereo => 13
  in_out_widget.swap_eyes_setChecked send_cmd stereo_mode_swap
    (w.set_in_out { w._in_out_widget with
      _output_combobox := { w._in_out_widget._output_combobox with currentIndex := i } })

/-- Function `in_out_widget::input_changed` (slot of `_input_combobox.currentIndexChanged`).
The locals are uninitialised before `input` and `output` fill them; every index has a case,
so the values written here for them are never read. -/
def in_out_widget.input_changed (env : environment) (send_cmd : command → action) : action :=
  fun w =>
  let stereo_layout := (in_out_widget.input w._in_out_widget (.mono, false)).1
  let mode := in_out_widget.output w._in_out_widget (.mono_left, false)
  if stereo_layout = .mono ∧ ¬ (mode.1 = .mono_left ∨ mode.1 = .mono_right) then
    let s := QSettings.value w._settings "Session/2d-stereo-mode" ""
    let mode1 := env.stereo_mode_from_string s mode
    in_out_widget.set_output send_cmd mode1.1 mode1.2 w
  else if stereo_layout ≠ .mono ∧ (mode.1 = .mono_left ∨ mode.1 = .mono_right) then
    let s := QSettings.value w._settings "Session/3d-stereo-mode" ""
    let mode1 := env.stereo_mode_from_string s mode
    in_out_widget.set_output send_cmd mode1.1 mode1.2 w
  else .ok w

/-- Function `in_out_widget::set_input`: `currentIndexChanged` fires on a change. -/
def in_out_widget.set_input (env : environment) (send_cmd : command → action)
    (stereo_layout : stereo_layout_t) (stereo_layout_swap : Bool) : action := fun w =>
  let i : Fin 13 :=
    match stereo_layout with
    | .mono => 0
    | .separate => if stereo_layout_swap then 2 else 1
    | .top_bottom => if stereo_layout_swap then 5 else 3
    | .top_bottom_half => if stereo_layout_swap then 6 else 4
    | .left_right => if stereo_layout_swap then 9 else 7
    | .left_right_half => if stereo_layout_swap then 10 else 8
    | .even_odd_rows => if stereo_layout_swap then 12 else 11
  if w._in_out_widget._input_combobox.currentIndex = i then .ok w
  else
    in_out_widget.input_changed env send_cmd
      (w.set_in_out { w._in_out_widget with
        _input_combobox := { w._in_out_widget._input_combobox with currentIndex := i } })

/-- The ten `setEnabled(false)` calls shared by the constructor and `update`. -/
def in_out_widget.disable_all (io : in_out_widget) : in_out_widget :=
  { io with
    _input_combobox := { io._input_combobox with enabled := false }
    _audio_spinbox := { io._audio_spinbox with enabled := false }
    _output_combobox := { io._output_combobox with enabled := false }
    _swap_eyes_button := { io._swap_eyes_button with enabled := false }
    _fullscreen_button := { io._fullscreen_button with enabled := false }
    _center_button := { io._center_button with enabled := false }
    _parallax_label := { io._parallax_label with enabled := false }
    _parallax_spinbox := { io._parallax_spinbox with enabled := false }
    _ghostbust_label := { io._ghostbust_label with enabled := false }
    _ghostbust_spinbox := { io._ghostbust_spinbox with enabled := false } }

/-- Replaces `_lock` of the in/out widget. -/
def in_out_widget.set_lock (b : Bool) : action := fun w =>
  .ok (w.set_in_out { w._in_out_widget with _lock := b })

/-- Function `in_out_widget::receive_notification`. -/
def in_out_widget.receive_notification (env : environment) (send_cmd : command → action)
    (note : notification) : action := fun w =>
  match note.type with
  | .play =>
    let io := w._in_out_widget
    .ok (w.set_in_out { io with
      _input_combobox := { io._input_combobox with enabled := !note.current.flag }
      _audio_spinbox := { io._audio_spinbox with enabled := !note.current.flag }
      _output_combobox := { io._output_combobox with enabled := !note.current.flag }
      _swap_eyes_button := { io._swap_eyes_button with enabled := note.current.flag }
      _fullscreen_button := { io._fullscreen_button with enabled := note.current.flag }
      _center_button := { io._center_button with enabled := note.current.flag }
      _parallax_label := { io._parallax_label with enabled := note.current.flag }
      _parallax_spinbox := { io._parallax_spinbox with enabled := note.current.flag }
      _ghostbust_label := { io._ghostbust_label with enabled := note.current.flag }
      _ghostbust_spinbox := { io._ghostbust_spinbox with enabled := note.current.flag } })
  | .stereo_mode_swap => do
    let w ← in_out_widget.set_lock true w
    let w ← in_out_widget.swap_eyes_setChecked send_cmd note.current.flag w
    in_out_widget.set_lock false w
  | .parallax => do
    let w ← in_out_widget.set_lock true w
    let w ← in_out_widget.parallax_setValue env send_cmd note.current.value w
    in_out_widget.set_lock false w
  | .ghostbust => do
    let w ← in_out_widget.set_lock true w
    let w ← in_out_widget.ghostbust_setValue send_cmd
      (qRound (env.float_mul note.current.value 100)) w
    in_out_widget.set_lock false w
  | _ => .ok w

/-- Function `in_out_widget::update`. -/
def in_out_widget.update (env : environment) (send_cmd : command → action)
    (init_data : player_init_data) (have_valid_input playing : Bool) : action := fun w => do
  let w := w.emit (.in_out_widget_update init_data have_valid_input playing)
  let w ← in_out_widget.set_lock true w
  let w ← in_out_widget.set_input env send_cmd init_data.stereo_layout
    init_data.stereo_layout_swap w
  let w ← in_out_widget.set_output send_cmd init_data.stereo_mode init_data.stereo_mode_swap w
  let w := w.set_in_out (in_out_widget.audio_setValue (init_data.audio_stream + 1)
    w._in_out_widget)
  let w ← in_out_widget.parallax_setValue env send_cmd init_data.params.parallax w
  let w ← in_out_widget.ghostbust_setValue send_cmd
    (qRound (env.float_mul init_data.params.ghostbust 100)) w
  let w ← in_out_widget.set_lock false w
  if have_valid_input then
    in_out_widget.receive_notification env send_cmd (notification.of_flag .play (!playing) playing) w
  else
    .ok (w.set_in_out (in_out_widget.disable_all w._in_out_widget))

/-! ## `controls_widget` -/

/-- Function `controls_widget::play_pressed`. -/
def controls_widget.play_pressed (send_cmd : command → action) : action := fun w =>
  if w._controls_widget._playing then send_cmd ⟨.toggle_pause, none⟩ w
  else send_cmd ⟨.toggle_play, none⟩ w

/-- Function `controls_widget::pause_pressed`. -/
def controls_widget.pause_pressed (send_cmd : command → action) : action := fun w =>
  send_cmd ⟨.toggle_pause, none⟩ w

/-- Function `controls_widget::stop_pressed`. -/
def controls_widget.stop_pressed (send_cmd : command → action) : action := fun w =>
  send_cmd ⟨.toggle_play, none⟩ w

/-- Function `controls_widget::bbb_pressed`. -/
def controls_widget.bbb_pressed (send_cmd : command → action) : action := fun w =>
  send_cmd ⟨.seek, some (-600)⟩ w

/-- Function `controls_widget::bb_pressed`. -/
def controls_widget.bb_pressed (send_cmd : command → action) : action := fun w =>
  send_cmd ⟨.seek, some (-60)⟩ w

/-- Function `controls_widget::b_pressed`. -/
def controls_widget.b_pressed (send_cmd : command → action) : action := fun w =>
  send_cmd ⟨.seek, some (-10)⟩ w

/-- Function `controls_widget::f_pressed`. -/
def controls_widget.f_pressed (send_cmd : command → action) : action := fun w =>
  send_cmd ⟨.seek, some 10⟩ w

/-- Function `controls_widget::ff_pressed`. -/
def controls_widget.ff_pressed (send_cmd : command → action) : action := fun w =>
  send_cmd ⟨.seek, some 60⟩ w

/-- Function `controls_widget::fff_pressed`. -/
def controls_widget.fff_pressed (send_cmd : command → action) : action := fun w =>
  send_cmd ⟨.seek, some 600⟩ w

/-- Function `controls_widget::seek_slider_changed` (slot of `_seek_slider.valueChanged`). -/
def controls_widget.seek_slider_changed (send_cmd : command → action) : action := fun w =>
  if !w._controls_widget._lock then
    send_cmd ⟨.set_pos, some ((w._controls_widget._seek_slider.value : ℚ) / 2000)⟩ w
  else .ok w

/-- Call `_seek_slider->setValue(v)`: bounds to `[0, 2000]`; `valueChanged` fires on a
change. -/
def controls_widget.seek_slider_setValue (send_cmd : command → action) (v : Int) : action :=
  fun w =>
  let v1 := qBound 0 v 2000
  if w._controls_widget._seek_slider.value = v1 then .ok w
  else
    controls_widget.seek_slider_changed send_cmd
      (w.set_controls { w._controls_widget with
        _seek_slider := { w._controls_widget._seek_slider with value := v1 } })

/-- Replaces `_lock` of the controls widget. -/
def controls_widget.set_lock (b : Bool) : action := fun w =>
  .ok (w.set_controls { w._controls_widget with _lock := b })

/-- Function `controls_widget::receive_notification`. -/
def controls_widget.receive_notification (send_cmd : command → action)
    (note : notification) : action := fun w =>
  match note.type with
  | .play =>
    let c := w._controls_widget
    let w := w.set_controls { c with
      _playing := note.current.flag
      _play_button := { c._play_button with enabled := !note.current.flag }
      _pause_button := { c._pause_button with enabled := note.current.flag }
      _stop_button := { c._stop_button with enabled := note.current.flag }
      _bbb_button := { c._bbb_button with enabled := note.current.flag }
      _bb_button := { c._bb_button with enabled := note.current.flag }
      _b_button := { c._b_button with enabled := note.current.flag }
      _f_button := { c._f_button with enabled := note.current.flag }
      _ff_button := { c._ff_button with enabled := note.current.flag }
      _fff_button := { c._fff_button with enabled := note.current.flag }
      _seek_slider := { c._seek_slider with enabled := note.current.flag } }
    if !note.current.flag then controls_widget.seek_slider_setValue send_cmd 0 w
    else .ok w
  | .pause =>
    let c := w._controls_widget
    .ok (w.set_controls { c with
      _play_button := { c._play_button with enabled := note.current.flag }
      _pause_button := { c._pause_button with enabled := !note.current.flag } })
  | .pos => do
    let w ← controls_widget.set_lock true w
    let w ←
      if !w._controls_widget._seek_slider.sliderDown then
        controls_widget.seek_slider_setValue send_cmd (qRound (note.current.value * 2000)) w
      else .ok w
    controls_widget.set_lock false w
  | _ => .ok w

/-- Function `controls_widget::update`. -/
def controls_widget.update (send_cmd : command → action) (init_data : player_init_data)
    (have_valid_input playing : Bool) : action := fun w =>
  let w := w.emit (.controls_widget_update init_data have_valid_input playing)
  if have_valid_input then
    controls_widget.receive_notification send_cmd (notification.of_flag .play (!playing) playing) w
  else
    let c := w._controls_widget
    let w := w.set_controls { c with
      _playing := false
      _play_button := { c._play_button with enabled := false }
      _pause_button := { c._pause_button with enabled := false }
      _stop_button := { c._stop_button with enabled := false }
      _bbb_button := { c._bbb_button with enabled := false }
      _bb_button := { c._bb_button with enabled := false }
      _b_button := { c._b_button with enabled := false }
      _f_button := { c._f_button with enabled := false }
      _ff_button := { c._ff_button with enabled := false }
      _fff_button := { c._fff_button with enabled := false }
      _seek_slider := { c._seek_slider with enabled := false } }
    controls_widget.seek_slider_setValue send_cmd 0 w

/-! ## `player_qt_internal`

`notify` is `controller::notify`, which goes through the bus (see `controller.notify`
below). -/

/-- Function `player_qt_internal::receive_cmd`; the call of `player::receive_cmd` is recorded
in the trace. -/
def player_qt_internal.receive_cmd (notify : notification → action) (cmd : command) : action :=
  fun w =>
  if cmd.type = .toggle_play ∧ ¬ w._player._playing then
    notify (notification.of_flag .play false true) w
  else if w._player._playing then
    .ok (w.emit (.player_receive_cmd cmd))
  else .ok w

/-- Function `player_qt_internal::receive_notification`. -/
def player_qt_internal.receive_notification (note : notification) : action := fun w =>
  if note.type = .play then
    .ok { w with _player := { w._player with _playing := note.current.flag } }
  else .ok w

/-- Function `player_qt_internal::playloop_step`: `run_step` of the engine, whose outcome is
`step`. A `threw` outcome is the exception leaving this function. -/
def player_qt_internal.playloop_step (step : step_result) (w : main_window) :
    step_result × main_window :=
  (step, w.emit .player_run_step)

/-- Function `player_qt_internal::force_stop`. -/
def player_qt_internal.force_stop (notify : notification → action) : action := fun w =>
  notify (notification.of_flag .play false false) w

/-- Modelled from the spec: the engine call `player::close` (the player engine is not in
`src/`). The call is recorded in the trace and no session is open afterwards. -/
def player.close (w : main_window) : main_window :=
  { w.emit .player_close with _player := { w._player with is_open := false } }

/-! ## `main_window` -/

/-- Call `_settings->setValue(key, value)`, recorded in the trace. -/
def main_window.settings_setValue (key value : String) (w : main_window) : main_window :=
  { w.emit (.settings_set_value key value) with
    _settings := QSettings.setValue w._settings key value }

/-- Call `_timer->start(0)`, recorded in the trace. -/
def main_window.timer_start (w : main_window) : main_window :=
  { w.emit .timer_start with _timer := { w._timer with active := true } }

/-- Call `_timer->stop()`, recorded in the trace. -/
def main_window.timer_stop (w : main_window) : main_window :=
  { w.emit .timer_stop with _timer := { w._timer with active := false } }

/-- Function `main_window::current_file_hash`; `_init_data.urls[0]` of an empty vector is a
fault. -/
def main_window.current_file_hash (env : environment) (w : main_window) :
    Except fault String :=
  match w._init_data.urls with
  | [] => .error .urls_empty
  | name :: _ => .ok (env.file_hash name)

/-- Function `main_window::open_player`: the returned flag and the window afterwards. The
engine call `player::open` is recorded in the trace with the data it is given; whether it
throws, and what the engine reports about the input if it does not, is `env.player_open`. -/
def main_window.open_player (env : environment) (w : main_window) : Bool × main_window :=
  let w := w.emit (.player_open w._init_data)
  match env.player_open w._init_data with
  | .threw what =>
    (false, { w with _player := { w._player with is_open := false } }.emit (.message_box what))
  | .opened info =>
    (true, { w with _player := { w._player with is_open := true, media := info } }.emit
      .adjust_size)

/-- Function `main_window::receive_notification`. -/
def main_window.receive_notification (env : environment) (send_cmd : command → action)
    (note : notification) : action := fun w =>
  if note.type = .play then
    if note.current.flag then do
      let w := player.close w
      let w := { w with _init_data := { w._init_data with stereo_layout_override := true } }
      let layout := in_out_widget.input w._in_out_widget
        (w._init_data.stereo_layout, w._init_data.stereo_layout_swap)
      let w := { w with _init_data := { w._init_data with
        stereo_layout := layout.1, stereo_layout_swap := layout.2 } }
      let w := { w with _init_data := { w._init_data with
        audio_stream := in_out_widget.audio_stream w._in_out_widget } }
      let w := { w with _init_data := { w._init_data with stereo_mode_override := true } }
      let mode := in_out_widget.output w._in_out_widget
        (w._init_data.stereo_mode, w._init_data.stereo_mode_swap)
      let w := { w with _init_data := { w._init_data with
        stereo_mode := mode.1, stereo_mode_swap := mode.2 } }
      let r := main_window.open_player env w
      let w := if !r.1 then { r.2 with _stop_request := true } else r.2
      let hash ← main_window.current_file_hash env w
      let w := main_window.settings_setValue ("Video/" ++ hash ++ "/stereo-layout")
        (env.stereo_layout_to_string w._init_data.stereo_layout w._init_data.stereo_layout_swap) w
      let w := main_window.settings_setValue ("Video/" ++ hash ++ "/audio-stream")
        (env.int_to_string w._init_data.audio_stream) w
      let w := main_window.settings_setValue
        (if w._init_data.stereo_layout = .mono then "Session/2d-stereo-mode"
          else "Session/3d-stereo-mode")
        (env.stereo_mode_to_string w._init_data.stereo_mode w._init_data.stereo_mode_swap) w
      let w ← in_out_widget.update env send_cmd w._init_data true true w
      let w ← controls_widget.update send_cmd w._init_data true true w
      let w := w.emit .set_focus
      .ok (main_window.timer_start w)
    else
      .ok (player.close (main_window.timer_stop w))
  else if note.type = .contrast then
    .ok { w with _init_data := { w._init_data with
      params := { w._init_data.params with contrast := note.current.value } } }
  else if note.type = .brightness then
    .ok { w with _init_data := { w._init_data with
      params := { w._init_data.params with brightness := note.current.value } } }
  else if note.type = .hue then
    .ok { w with _init_data := { w._init_data with
      params := { w._init_data.params with hue := note.current.value } } }
  else if note.type = .saturation then
    .ok { w with _init_data := { w._init_data with
      params := { w._init_data.params with saturation := note.current.value } } }
  else if note.type = .stereo_mode_swap then
    .ok w
  else if note.type = .parallax then do
    let w := { w with _init_data := { w._init_data with
      params := { w._init_data.params with parallax := note.current.value } } }
    let hash ← main_window.current_file_hash env w
    .ok (main_window.settings_setValue ("Video/" ++ hash ++ "/parallax")
      (env.float_to_string w._init_data.params.parallax) w)
  else if note.type = .ghostbust then do
    let w := { w with _init_data := { w._init_data with
      params := { w._init_data.params with ghostbust := note.current.value } } }
    let hash ← main_window.current_file_hash env w
    .ok (main_window.settings_setValue ("Video/" ++ hash ++ "/ghostbust")
      (env.float_to_string w._init_data.params.ghostbust) w)
  else .ok w

/-! ## The dispatch bus -/

/-- Modelled from the spec: `controller::notify` and the delivery of the dispatch bus
(`dispatch.h`, not in `src/`). The call is recorded, then the notification is delivered
synchronously to every registered controller in registration order, which is the
construction order of `main_window::main_window`: the window itself, the in/out widget,
the controls widget, the internal player. A command sent by a slot during the delivery
reaches `player_qt_internal::receive_cmd` at once; `fuel` bounds this nesting. -/
def controller.notify : Nat → environment → notification → action
  | 0, _, _ => fun _ => .error .out_of_fuel
  | fuel + 1, env, note => fun w => do
    let send_cmd : command → action :=
      fun cmd => player_qt_internal.receive_cmd (controller.notify fuel env) cmd
    let w := w.emit (.notify note)
    let w ← main_window.receive_notification env send_cmd note w
    let w ← in_out_widget.receive_notification env send_cmd note w
    let w ← controls_widget.receive_notification send_cmd note w
    player_qt_internal.receive_notification note w

/-- Modelled from the spec: `controller::send_cmd` (`dispatch.h`, not in `src/`)
forwards the command to the single authoritative receiver, the internal player. -/
def controller.send_cmd (fuel : Nat) (env : environment) (cmd : command) : action :=
  player_qt_internal.receive_cmd (controller.notify fuel env) cmd

/-! ## Entry points of the main window that use the bus -/

/-- Function `main_window::playloop_step` (slot of `_timer.timeout`); `step` is what the engine
does if it is asked to step. -/
def main_window.playloop_step (fuel : Nat) (env : environment) (step : step_result) : action :=
  fun w =>
  if w._stop_request then do
    let w := main_window.timer_stop w
    let w ← player_qt_internal.force_stop (controller.notify fuel env) w
    .ok { w with _stop_request := false }
  else
    let s := player_qt_internal.playloop_step step w
    let r : Bool × main_window :=
      match s.1 with
      | .returned b => (b, s.2)
      | .threw what => (false, s.2.emit (.message_box what))
    if !r.1 then .ok (main_window.timer_stop r.2)
    else .ok r.2

/-- The assignments to `_init_data` in the `if (open_player())` block of
`main_window::open`, from "Get stereo layout for this video" to "Fill in the rest with
defaults"; `hash` is the result of `current_file_hash()`. -/
def main_window.open_apply_settings (env : environment) (hash : String) (w : main_window) :
    main_window :=
  let layout_fallback := env.stereo_layout_to_string w._player.media.stereo_layout
    w._player.media.stereo_layout_swap
  let layout_name := QSettings.value w._settings ("Video/" ++ hash ++ "/stereo-layout")
    layout_fallback
  let w := w.set_init_data (w._init_data.set_stereo_layout
    (env.stereo_layout_from_string layout_name
      (w._init_data.stereo_layout, w._init_data.stereo_layout_swap)))
  let w := w.set_init_data (w._init_data.set_stereo_layout_override true)
  let w := w.set_init_data (w._init_data.set_audio_stream
    (env.string_to_int (QSettings.value w._settings ("Video/" ++ hash ++ "/audio-stream")
      (env.int_to_string w._init_data.audio_stream))))
  let w := w.set_init_data (w._init_data.set_params (w._init_data.params.set_parallax
    (env.string_to_float (QSettings.value w._settings ("Video/" ++ hash ++ "/parallax")
      (env.float_to_string w._init_data.params.parallax)))))
  let w := w.set_init_data (w._init_data.set_params (w._init_data.params.set_ghostbust
    (env.string_to_float (QSettings.value w._settings ("Video/" ++ hash ++ "/ghostbust")
      (env.float_to_string w._init_data.params.ghostbust)))))
  let mode_fallback := env.stereo_mode_to_string w._player.media.stereo_mode
    w._player.media.stereo_mode_swap
  let mode_name := QSettings.value w._settings
    (if w._init_data.stereo_layout = .mono then "Session/2d-stereo-mode"
      else "Session/3d-stereo-mode")
    mode_fallback
  let w := w.set_init_data (w._init_data.set_stereo_mode
    (env.stereo_mode_from_string mode_name
      (w._init_data.stereo_mode, w._init_data.stereo_mode_swap)))
  let w := w.set_init_data (w._init_data.set_stereo_mode_override true)
  w.set_init_data (w._init_data.set_params (env.set_defaults w._init_data.params))

/-- Function `main_window::open`. -/
def main_window.open (fuel : Nat) (env : environment) (filenames : List String) : action :=
  fun w => do
  let w ← player_qt_internal.force_stop (controller.notify fuel env) w
  let w := player.close w
  let w := w.set_init_data w._init_data_template
  let w := w.set_init_data (w._init_data.set_urls [])
  let w := w.set_init_data (w._init_data.set_urls (w._init_data.urls ++ filenames))
  let r := main_window.open_player env w
  let w := r.2
  if r.1 then do
    let hash ← main_window.current_file_hash env w
    let w := main_window.open_apply_settings env hash w
    let send_cmd : command → action := controller.send_cmd fuel env
    let w ← in_out_widget.update env send_cmd w._init_data true false w
    controls_widget.update send_cmd w._init_data true false w
  else .ok w

/-! ## Preferences -/

/-- Assignment to `crosstalk_r`. -/
def parameters.set_crosstalk_r (p : parameters) (v : float) : parameters :=
  { p with crosstalk_r := v }

/-- Assignment to `crosstalk_g`. -/
def parameters.set_crosstalk_g (p : parameters) (v : float) : parameters :=
  { p with crosstalk_g := v }

/-- Assignment to `crosstalk_b`. -/
def parameters.set_crosstalk_b (p : parameters) (v : float) : parameters :=
  { p with crosstalk_b := v }

/-- What the user does with the modal dialog of `main_window::preferences_crosstalk`: the
result of `dialog->exec()` and, if the dialog is accepted, the values that the red, green
and blue spin boxes hold at that moment. Each box has the range 0 to 100 and starts at the
current crosstalk value times 100. -/
inductive crosstalk_dialog_result where
  | rejected
  | accepted (red green blue : Int)

/-- Function `main_window::preferences_crosstalk` (slot of the menu entry), given what the
user does with the dialog. -/
def main_window.preferences_crosstalk (result : crosstalk_dialog_result) (w : main_window) :
    main_window :=
  match result with
  | .rejected => w
  | .accepted red green blue =>
    let w := w.set_init_data (w._init_data.set_params
      (w._init_data.params.set_crosstalk_r ((red : ℚ) / 100)))
    let w := w.set_init_data (w._init_data.set_params
      (w._init_data.params.set_crosstalk_g ((green : ℚ) / 100)))
    w.set_init_data (w._init_data.set_params
      (w._init_data.params.set_crosstalk_b ((blue : ℚ) / 100)))

/-- Function `main_window::closeEvent`: the three writes to the group `Session`. The final
`event->accept()` has no effect on the state kept here. -/
def main_window.closeEvent (env : environment) (w : main_window) : main_window :=
  let w := main_window.settings_setValue "Session/crosstalk_r"
    (env.float_to_string w._init_data.params.crosstalk_r) w
  let w := main_window.settings_setValue "Session/crosstalk_g"
    (env.float_to_string w._init_data.params.crosstalk_g) w
  main_window.settings_setValue "Session/crosstalk_b"
    (env.float_to_string w._init_data.params.crosstalk_b) w

/-! ## Constructors -/

/-- Constructor `in_out_widget::in_out_widget`: the first item added to a combo box is its
current item, the audio box has the value 1, the parallax and ghostbust boxes the value
0, the button is unchecked and `_lock` is false. A new widget is enabled; the constructor
ends with the ten `setEnabled(false)` calls. The slots are connected after the values
were set, so none of them runs here. -/
def in_out_widget.construct : in_out_widget :=
  in_out_widget.disable_all
    { _input_combobox := ⟨0, true⟩
      _audio_spinbox := ⟨1, true⟩
      _output_combobox := ⟨0, true⟩
      _swap_eyes_button := ⟨false, true⟩
      _fullscreen_button := ⟨false, true⟩
      _center_button := ⟨false, true⟩
      _parallax_label := ⟨true⟩
      _parallax_spinbox := ⟨0, true⟩
      _ghostbust_label := ⟨true⟩
      _ghostbust_spinbox := ⟨0, true⟩
      _lock := false }

/-- Constructor `controls_widget::controls_widget`: the slider is at 0 and not held, no
button is checked, everything is disabled, `_lock` and `_playing` are false. -/
def controls_widget.construct : controls_widget :=
  { _lock := false
    _playing := false
    _seek_slider := ⟨0, false, false⟩
    _play_button := ⟨false, false⟩
    _pause_button := ⟨false, false⟩
    _stop_button := ⟨false, false⟩
    _bbb_button := ⟨false, false⟩
    _bb_button := ⟨false, false⟩
    _b_button := ⟨false, false⟩
    _f_button := ⟨false, false⟩
    _ff_button := ⟨false, false⟩
    _fff_button := ⟨false, false⟩ }

/-- The members of a new `main_window` before the body of the constructor runs, with the
objects the body creates: `_init_data` and `_init_data_template` are both the argument,
the internal player is not playing and has nothing open (what its accessors would report
is not read before an input is open), the timer is idle. -/
def main_window.members (settings : QSettings) (init_data : player_init_data) : main_window :=
  { _settings := settings
    _in_out_widget := in_out_widget.construct
    _controls_widget := controls_widget.construct
    _player := ⟨false, false, ⟨.mono, false, .mono_left, false⟩⟩
    _timer := ⟨false⟩
    _init_data := init_data
    _init_data_template := init_data
    _stop_request := false
    trace := [] }

/-- The block "Load preferences" of `main_window::main_window`. -/
def main_window.load_preferences (env : environment) (w : main_window) : main_window :=
  let w :=
    if ¬ (0 ≤ w._init_data.params.crosstalk_r ∧ w._init_data.params.crosstalk_r ≤ 1) then
      w.set_init_data (w._init_data.set_params (w._init_data.params.set_crosstalk_r
        (env.string_to_float (QSettings.value w._settings "Session/crosstalk_r" "0"))))
    else w
  let w :=
    if ¬ (0 ≤ w._init_data.params.crosstalk_g ∧ w._init_data.params.crosstalk_g ≤ 1) then
      w.set_init_data (w._init_data.set_params (w._init_data.params.set_crosstalk_g
        (env.string_to_float (QSettings.value w._settings "Session/crosstalk_g" "0"))))
    else w
  let w :=
    if ¬ (0 ≤ w._init_data.params.crosstalk_b ∧ w._init_data.params.crosstalk_b ≤ 1) then
      w.set_init_data (w._init_data.set_params (w._init_data.params.set_crosstalk_b
        (env.string_to_float (QSettings.value w._settings "Session/crosstalk_b" "0"))))
    else w
  w.set_init_data (w._init_data.set_params (env.set_defaults w._init_data.params))

/-- Constructor `main_window::main_window`: the preferences are loaded, the widgets are
updated for a window without valid input, and the files of `init_data`, if any, are
opened. -/
def main_window.construct (fuel : Nat) (env : environment) (settings : QSettings)
    (init_data : player_init_data) : Except fault main_window := do
  let w := main_window.load_preferences env (main_window.members settings init_data)
  let send_cmd : command → action := controller.send_cmd fuel env
  let w ← in_out_widget.update env send_cmd w._init_data false false w
  let w ← controls_widget.update send_cmd w._init_data false false w
  if 0 < init_data.urls.length then main_window.open fuel env init_data.urls w
  else .ok w

/-! ## Derived notions used by the statements below -/

/-- Two steps that, started with the in/out widget locked, succeed with the same result,
change nothing but the in/out widget and leave it locked. -/
def locked_step (f g : action) : Prop :=
  ∀ w : main_window, w._in_out_widget._lock = true →
    ∃ w', f w = .ok w' ∧ g w = .ok w' ∧ w' = w.set_in_out w'._in_out_widget ∧
      w'._in_out_widget._lock = true

/-- The in/out widget after `update`, computed with a `send_cmd` that does nothing. -/
def in_out_widget.after_update (env : environment) (d : player_init_data)
    (hv p : Bool) (w : main_window) : in_out_widget :=
  match in_out_widget.update env (fun _ w => .ok w) d hv p w with
  | .ok w' => w'._in_out_widget
  | .error _ => w._in_out_widget

/-- The controls widget after `update`, computed with a `send_cmd` that does nothing. -/
def controls_widget.after_update (d : player_init_data) (hv p : Bool) (w : main_window) :
    controls_widget :=
  match controls_widget.update (fun _ w => .ok w) d hv p w with
  | .ok w' => w'._controls_widget
  | .error _ => w._controls_widget

/-- What `open_player` adds to the trace after the `player::open` call. -/
def open_player_events (r : open_result) : List event :=
  match r with
  | .threw what => [.message_box what]
  | .opened _ => [.adjust_size]

/-- The data `main_window::receive_notification` hands to the engine on play: the stored
data with both overrides set and the input layout, audio stream and output mode read
from the in/out widget. -/
def main_window.play_data (w : main_window) : player_init_data :=
  { w._init_data with
    stereo_layout_override := true
    stereo_layout := (in_out_widget.input w._in_out_widget
      (w._init_data.stereo_layout, w._init_data.stereo_layout_swap)).1
    stereo_layout_swap := (in_out_widget.input w._in_out_widget
      (w._init_data.stereo_layout, w._init_data.stereo_layout_swap)).2
    audio_stream := in_out_widget.audio_stream w._in_out_widget
    stereo_mode_override := true
    stereo_mode := (in_out_widget.output w._in_out_widget
      (w._init_data.stereo_mode, w._init_data.stereo_mode_swap)).1
    stereo_mode_swap := (in_out_widget.output w._in_out_widget
      (w._init_data.stereo_mode, w._init_data.stereo_mode_swap)).2 }

/-- The three `setValue` calls `main_window::receive_notification` makes on play. -/
def play_settings_events (env : environment) (d : player_init_data) (name : String) :
    List event :=
  [.settings_set_value ("Video/" ++ env.file_hash name ++ "/stereo-layout")
      (env.stereo_layout_to_string d.stereo_layout d.stereo_layout_swap),
    .settings_set_value ("Video/" ++ env.file_hash name ++ "/audio-stream")
      (env.int_to_string d.audio_stream),
    .settings_set_value
      (if d.stereo_layout = .mono then "Session/2d-stereo-mode" else "Session/3d-stereo-mode")
      (env.stereo_mode_to_string d.stereo_mode d.stereo_mode_swap)]

/-- The data `main_window::open` hands to the engine: the template with the new list of
file names. -/
def main_window.open_data (w : main_window) (filenames : List String) : player_init_data :=
  w._init_data_template.set_urls filenames

/-- The data `main_window::open` stores after the engine has opened the input, as a
function of the settings store, the data handed to the engine, what the engine reports
and the hash of the file name: the assignments of `main_window::open`, in its order. -/
def main_window.opened_data (env : environment) (settings : QSettings)
    (d : player_init_data) (info : media_info) (hash : String) : player_init_data :=
  let d := d.set_stereo_layout
    (env.stereo_layout_from_string
      (QSettings.value settings ("Video/" ++ hash ++ "/stereo-layout")
        (env.stereo_layout_to_string info.stereo_layout info.stereo_layout_swap))
      (d.stereo_layout, d.stereo_layout_swap))
  let d := d.set_stereo_layout_override true
  let d := d.set_audio_stream
    (env.string_to_int (QSettings.value settings ("Video/" ++ hash ++ "/audio-stream")
      (env.int_to_string d.audio_stream)))
  let d := d.set_params (d.params.set_parallax
    (env.string_to_float (QSettings.value settings ("Video/" ++ hash ++ "/parallax")
      (env.float_to_string d.params.parallax))))
  let d := d.set_params (d.params.set_ghostbust
    (env.string_to_float (QSettings.value settings ("Video/" ++ hash ++ "/ghostbust")
      (env.float_to_string d.params.ghostbust))))
  let d := d.set_stereo_mode
    (env.stereo_mode_from_string
      (QSettings.value settings
        (if d.stereo_layout = .mono then "Session/2d-stereo-mode" else "Session/3d-stereo-mode")
        (env.stereo_mode_to_string info.stereo_mode info.stereo_mode_swap))
      (d.stereo_mode, d.stereo_mode_swap))
  let d := d.set_stereo_mode_override true
  d.set_params (env.set_defaults d.params)

/-- The window when `main_window::open` calls `open_player`: the engine was closed
once more and `_init_data` is the template with the new file names. -/
def main_window.open_prepare (w : main_window) (filenames : List String) : main_window :=
  (player.close w).set_init_data (main_window.open_data w filenames)

/-- An event is a `controller::notify` call. -/
def event.is_notify : event → Bool
  | .notify _ => true
  | _ => false

/-- An event is a call of `player::receive_cmd`. -/
def event.is_player_receive_cmd : event → Bool
  | .player_receive_cmd _ => true
  | _ => false

/-- An event is a direct widget re-sync. -/
def event.is_update : event → Bool
  | .in_out_widget_update _ _ _ => true
  | .controls_widget_update _ _ _ => true
  | _ => false

/-! ## Concrete inputs -/

/-- All layout/swap pairs. -/
def all_stereo_layouts : List (stereo_layout_t × Bool) :=
  [(.mono, false), (.separate, false), (.separate, true), (.top_bottom, false),
    (.top_bottom, true), (.top_bottom_half, false), (.top_bottom_half, true),
    (.left_right, false), (.left_right, true), (.left_right_half, false),
    (.left_right_half, true), (.even_odd_rows, false), (.even_odd_rows, true)]

/-- All listed mode/swap pairs. -/
def all_stereo_modes : List (stereo_mode_t × Bool) :=
  ([.stereo, .mono_left, .mono_right, .top_bottom, .top_bottom_half, .left_right,
    .left_right_half, .even_odd_rows, .even_odd_columns, .checkerboard,
    .anaglyph_red_cyan_monochrome, .anaglyph_red_cyan_full_color,
    .anaglyph_red_cyan_half_color, .anaglyph_red_cyan_dubois] : List stereo_mode_t).flatMap
    (fun m => [(m, false), (m, true)])

/-- A sample layout encoding. -/
def sample_layout_to_string (l : stereo_layout_t) (swap : Bool) : String :=
  (match l with
    | .mono => "mono"
    | .separate => "separate"
    | .top_bottom => "top-bottom"
    | .top_bottom_half => "top-bottom-half"
    | .left_right => "left-right"
    | .left_right_half => "left-right-half"
    | .even_odd_rows => "even-odd-rows") ++ (if swap then ",swap" else "")

/-- A sample mode encoding. -/
def sample_mode_to_string (m : stereo_mode_t) (swap : Bool) : String :=
  (match m with
    | .stereo => "stereo"
    | .mono_left => "mono-left"
    | .mono_right => "mono-right"
    | .top_bottom => "top-bottom"
    | .top_bottom_half => "top-bottom-half"
    | .left_right => "left-right"
    | .left_right_half => "left-right-half"
    | .even_odd_rows => "even-odd-rows"
    | .even_odd_columns => "even-odd-columns"
    | .checkerboard => "checkerboard"
    | .anaglyph_red_cyan_monochrome => "red-cyan-monochrome"
    | .anaglyph_red_cyan_full_color => "red-cyan-full-color"
    | .anaglyph_red_cyan_half_color => "red-cyan-half-color"
    | .anaglyph_red_cyan_dubois => "red-cyan-dubois"
    | .other => "other") ++ (if swap then ",swap" else "")

/-- A sample environment around a given engine behaviour: the decoders invert the sample
encoders and leave their arguments alone on any other string; `set_defaults` changes
nothing; numbers are written in decimal, fractions as numerator/denominator; the float
product is the exact product, which it is wherever the exact product is a `float`. -/
def sample_environment (player_open : player_init_data → open_result) : environment where
  stereo_layout_to_string := sample_layout_to_string
  stereo_layout_from_string := fun s old =>
    (all_stereo_layouts.find? (fun p => sample_layout_to_string p.1 p.2 == s)).getD old
  stereo_mode_to_string := sample_mode_to_string
  stereo_mode_from_string := fun s old =>
    (all_stereo_modes.find? (fun p => sample_mode_to_string p.1 p.2 == s)).getD old
  set_defaults := fun p => p
  int_to_string := fun i => toString i
  string_to_int := fun s => s.toInt?.getD 0
  float_to_string := fun q => toString q.num ++ "/" ++ toString q.den
  string_to_float := fun s =>
    match s.splitOn "/" with
    | [a, b] => (a.toInt?.getD 0 : ℚ) / (b.toNat?.getD 1 : ℚ)
    | _ => 0
  file_hash := fun name => "sha1:" ++ name
  round_decimals := fun v => (Int.floor (v * 100 + 1 / 2) : ℚ) / 100
  float_mul := fun a b => a * b
  player_open := player_open

/-- An engine that cannot open anything. -/
def failing_engine : player_init_data → open_result :=
  fun _ => .threw "cannot open"

/-- An engine that opens everything as 2D video. -/
def mono_engine : player_init_data → open_result :=
  fun _ => .opened ⟨.mono, false, .mono_left, false⟩

/-- Sample parameters. -/
def sample_parameters : parameters :=
  ⟨.mono_left, false, 0, 0, 0, 0, 0, 0, 0, 0, 0⟩

/-- Sample initial data with the given list of URLs. -/
def sample_init_data (urls : List String) : player_init_data :=
  ⟨0, urls, false, .mono, false, 0, false, .mono_left, false, sample_parameters⟩

/-- The in/out widget with the given enabled state of its playback controls. -/
def sample_in_out_widget (playing : Bool) : in_out_widget :=
  ⟨⟨0, !playing⟩, ⟨1, !playing⟩, ⟨0, !playing⟩, ⟨false, playing⟩, ⟨false, playing⟩,
    ⟨false, playing⟩, ⟨playing⟩, ⟨0, playing⟩, ⟨playing⟩, ⟨0, playing⟩, false⟩

/-- The controls widget while playing or stopped, with the slider at `pos`. -/
def sample_controls_widget (playing : Bool) (pos : Int) : controls_widget :=
  ⟨false, playing, ⟨pos, false, playing⟩, ⟨false, !playing⟩, ⟨false, playing⟩,
    ⟨false, playing⟩, ⟨false, playing⟩, ⟨false, playing⟩, ⟨false, playing⟩,
    ⟨false, playing⟩, ⟨false, playing⟩, ⟨false, playing⟩⟩

/-- A window with `a.mp4` loaded and stopped: nothing is playing, the timer is idle, the
trace is empty. -/
def stopped_window : main_window where
  _settings := []
  _in_out_widget := sample_in_out_widget false
  _controls_widget := sample_controls_widget false 0
  _player := ⟨false, false, ⟨.mono, false, .mono_left, false⟩⟩
  _timer := ⟨false⟩
  _init_data := sample_init_data ["a.mp4"]
  _init_data_template := sample_init_data []
  _stop_request := false
  trace := []

/-- A window that is playing `a.mp4`: the engine is open, the timer runs, the slider is
half way, the trace is empty. -/
def playing_window : main_window where
  _settings := []
  _in_out_widget := sample_in_out_widget true
  _controls_widget := sample_controls_widget true 1000
  _player := ⟨true, true, ⟨.mono, false, .mono_left, false⟩⟩
  _timer := ⟨true⟩
  _init_data := sample_init_data ["a.mp4"]
  _init_data_template := sample_init_data []
  _stop_request := false
  trace := []


/-! ## Derived notions for the persisted preferences and the delivery of notifications -/

/-- Whether the event is a write to the settings store. -/
def event.is_settings_set_value : event → Bool
  | .settings_set_value _ _ => true
  | _ => false

/-- The session key that `main_window` uses for the output mode of an input with the given
stereo layout. -/
def session_mode_key (layout : stereo_layout_t) : String :=
  if layout = .mono then "Session/2d-stereo-mode" else "Session/3d-stereo-mode"

/-- The session key that `main_window` does not use for an input with the given stereo
layout. -/
def other_session_mode_key (layout : stereo_layout_t) : String :=
  if layout = .mono then "Session/3d-stereo-mode" else "Session/2d-stereo-mode"

/-- The delivery of one notification to the four controllers of `player_qt.cpp` in
registration order, each of them given `send_cmd` as its way to send a command. -/
def controller.deliver (env : environment) (send_cmd : command → action)
    (note : notification) : action := fun w => do
  let w ← main_window.receive_notification env send_cmd note w
  let w ← in_out_widget.receive_notification env send_cmd note w
  let w ← controls_widget.receive_notification send_cmd note w
  player_qt_internal.receive_notification note w

/-- The delivery of a sequence of notifications, one after the other. -/
def controller.deliver_all (env : environment) (send_cmd : command → action) :
    List notification → action
  | [] => fun w => .ok w
  | note :: notes => fun w => do
    let w ← controller.deliver env send_cmd note w
    controller.deliver_all env send_cmd notes w

/-- The controls widget after `controls_widget::receive_notification` has handled a `pos`
notification with the given current value: the slider is moved unless the user holds it,
and `_lock` is false. -/
def controls_widget.after_pos (value : float) (c : controls_widget) : controls_widget :=
  { c with
    _lock := false
    _seek_slider :=
      if c._seek_slider.sliderDown then c._seek_slider
      else { c._seek_slider with value := qBound 0 (qRound (value * 2000)) 2000 } }

/-- A way to send a command that always fails: an action that succeeds with it has sent
no command. -/
def no_send_cmd : command → action :=
  fun _ _ => .error .out_of_fuel

/-! ## Concrete inputs with persisted preferences -/

/-- A float codec on a few decimals: these are written as Qt writes them, every other value
as a string that is no number, which `toFloat` reads as 0. -/
def decimal_to_string (q : float) : String :=
  if q = 0 then "0"
  else if q = 1 / 10 then "0.1"
  else if q = 37 / 100 then "0.37"
  else if q = 1 / 2 then "0.5"
  else if q = 1 then "1"
  else "?"

/-- The decoder of `decimal_to_string`. -/
def decimal_of_string (s : String) : float :=
  if s = "0.1" then 1 / 10
  else if s = "0.37" then 37 / 100
  else if s = "0.5" then 1 / 2
  else if s = "1" then 1
  else 0

/-- An int codec on a few indices, the decoder reads every other string as 0 as `toInt`
does for a string that is no number. -/
def index_to_string (i : Int) : String :=
  if i = 0 then "0" else if i = 1 then "1" else if i = 2 then "2" else "?"

/-- The decoder of `index_to_string`. -/
def index_of_string (s : String) : Int :=
  if s = "1" then 1 else if s = "2" then 2 else 0

/-- The sample environment with the number codecs replaced by the ones above. -/
def decimal_environment (player_open : player_init_data → open_result) : environment :=
  { sample_environment player_open with
    int_to_string := index_to_string
    string_to_int := index_of_string
    float_to_string := decimal_to_string
    string_to_float := decimal_of_string }

/-- Settings with a complete per-file record of `b.mp4` and both session output modes. -/
def record_settings : QSettings :=
  [("Video/sha1:b.mp4/stereo-layout", "left-right"),
   ("Video/sha1:b.mp4/audio-stream", "1"),
   ("Video/sha1:b.mp4/parallax", "0.37"),
   ("Video/sha1:b.mp4/ghostbust", "0.5"),
   ("Session/2d-stereo-mode", "mono-right"),
   ("Session/3d-stereo-mode", "red-cyan-dubois")]

/-- The stopped window with the settings `record_settings`. -/
def record_window : main_window :=
  { stopped_window with _settings := record_settings }

/-- The stopped window started with a parallax of one half and a ghostbusting of one tenth
on the command line: both are in the template. -/
def parallax_window : main_window :=
  { stopped_window with
    _init_data_template := (sample_init_data []).set_params
      ((sample_parameters.set_parallax (1 / 2)).set_ghostbust (1 / 10)) }

/-! ## What the setters and handlers of the widgets leave behind -/

/-- The item of the input combo box that `in_out_widget::set_input` selects. -/
def in_out_widget.input_index (stereo_layout : stereo_layout_t) (stereo_layout_swap : Bool) :
    Fin 13 :=
  match stereo_layout with
  | .mono => 0
  | .separate => if stereo_layout_swap then 2 else 1
  | .top_bottom => if stereo_layout_swap then 5 else 3
  | .top_bottom_half => if stereo_layout_swap then 6 else 4
  | .left_right => if stereo_layout_swap then 9 else 7
  | .left_right_half => if stereo_layout_swap then 10 else 8
  | .even_odd_rows => if stereo_layout_swap then 12 else 11

/-- The item of the output combo box that `in_out_widget::set_output` selects. -/
def in_out_widget.output_index (stereo_mode : stereo_mode_t) : Fin 14 :=
  match stereo_mode with
  | .other => 0
  | .mono_left => 0
  | .mono_right => 1
  | .top_bottom => 2
  | .top_bottom_half => 3
  | .left_right => 4
  | .left_right_half => 5
  | .even_odd_rows => 6
  | .even_odd_columns => 7
  | .checkerboard => 8
  | .anaglyph_red_cyan_dubois => 9
  | .anaglyph_red_cyan_monochrome => 10
  | .anaglyph_red_cyan_full_color => 11
  | .anaglyph_red_cyan_half_color => 12
  | .stereo => 13

/-- The in/out widget with the swap button checked or not. -/
def in_out_widget.with_swap (b : Bool) (io : in_out_widget) : in_out_widget :=
  { io with _swap_eyes_button := { io._swap_eyes_button with checked := b } }

/-- The in/out widget with the given item of the output combo box selected. -/
def in_out_widget.with_output_index (i : Fin 14) (io : in_out_widget) : in_out_widget :=
  { io with _output_combobox := { io._output_combobox with currentIndex := i } }

/-- The in/out widget with the given item of the input combo box selected. -/
def in_out_widget.with_input_index (i : Fin 13) (io : in_out_widget) : in_out_widget :=
  { io with _input_combobox := { io._input_combobox with currentIndex := i } }

/-- The in/out widget as `set_output` leaves it. -/
def in_out_widget.with_output (stereo_mode : stereo_mode_t) (stereo_mode_swap : Bool)
    (io : in_out_widget) : in_out_widget :=
  (io.with_output_index (in_out_widget.output_index stereo_mode)).with_swap stereo_mode_swap

/-- The in/out widget as the slot `input_changed` leaves it. -/
def in_out_widget.after_input_changed (env : environment) (settings : QSettings)
    (io : in_out_widget) : in_out_widget :=
  let stereo_layout := (in_out_widget.input io (.mono, false)).1
  let mode := in_out_widget.output io (.mono_left, false)
  if stereo_layout = .mono ∧ ¬ (mode.1 = .mono_left ∨ mode.1 = .mono_right) then
    let mode1 := env.stereo_mode_from_string
      (QSettings.value settings "Session/2d-stereo-mode" "") mode
    io.with_output mode1.1 mode1.2
  else if stereo_layout ≠ .mono ∧ (mode.1 = .mono_left ∨ mode.1 = .mono_right) then
    let mode1 := env.stereo_mode_from_string
      (QSettings.value settings "Session/3d-stereo-mode" "") mode
    io.with_output mode1.1 mode1.2
  else io

/-- The in/out widget as `set_input` leaves it. -/
def in_out_widget.with_input (env : environment) (settings : QSettings)
    (stereo_layout : stereo_layout_t) (stereo_layout_swap : Bool) (io : in_out_widget) :
    in_out_widget :=
  if io._input_combobox.currentIndex =
      in_out_widget.input_index stereo_layout stereo_layout_swap then io
  else
    in_out_widget.after_input_changed env settings
      (io.with_input_index (in_out_widget.input_index stereo_layout stereo_layout_swap))

/-- The in/out widget as `_parallax_spinbox->setValue(v)` leaves it. -/
def in_out_widget.with_parallax (env : environment) (v : float) (io : in_out_widget) :
    in_out_widget :=
  { io with _parallax_spinbox :=
    { io._parallax_spinbox with value := qBound (-1) (env.round_decimals v) 1 } }

/-- The in/out widget as `_ghostbust_spinbox->setValue(v)` leaves it. -/
def in_out_widget.with_ghostbust (v : Int) (io : in_out_widget) : in_out_widget :=
  { io with _ghostbust_spinbox := { io._ghostbust_spinbox with value := qBound 0 v 100 } }

/-- The in/out widget with `_lock` replaced. -/
def in_out_widget.with_lock (b : Bool) (io : in_out_widget) : in_out_widget :=
  { io with _lock := b }

/-- The in/out widget with the enabled states that a `play` notification sets. -/
def in_out_widget.with_playing (flag : Bool) (io : in_out_widget) : in_out_widget :=
  { io with
    _input_combobox := { io._input_combobox with enabled := !flag }
    _audio_spinbox := { io._audio_spinbox with enabled := !flag }
    _output_combobox := { io._output_combobox with enabled := !flag }
    _swap_eyes_button := { io._swap_eyes_button with enabled := flag }
    _fullscreen_button := { io._fullscreen_button with enabled := flag }
    _center_button := { io._center_button with enabled := flag }
    _parallax_label := { io._parallax_label with enabled := flag }
    _parallax_spinbox := { io._parallax_spinbox with enabled := flag }
    _ghostbust_label := { io._ghostbust_label with enabled := flag }
    _ghostbust_spinbox := { io._ghostbust_spinbox with enabled := flag } }

/-- The in/out widget as `in_out_widget::receive_notification` leaves it. -/
def in_out_widget.after_notification (env : environment) (note : notification)
    (io : in_out_widget) : in_out_widget :=
  match note.type with
  | .play => io.with_playing note.current.flag
  | .stereo_mode_swap => (io.with_swap note.current.flag).with_lock false
  | .parallax => (io.with_parallax env note.current.value).with_lock false
  | .ghostbust =>
    (io.with_ghostbust (qRound (env.float_mul note.current.value 100))).with_lock false
  | _ => io

/-- The values and the lock of the in/out widget as the first part of
`in_out_widget::update` leaves them, before the enabled states are set. -/
def in_out_widget.with_values (env : environment) (settings : QSettings)
    (d : player_init_data) (io : in_out_widget) : in_out_widget :=
  ((((in_out_widget.audio_setValue (d.audio_stream + 1)
    (((io.with_lock true).with_input env settings d.stereo_layout d.stereo_layout_swap).with_output
      d.stereo_mode d.stereo_mode_swap)).with_parallax env d.params.parallax).with_ghostbust
        (qRound (env.float_mul d.params.ghostbust 100)))).with_lock false

/-- The in/out widget as `in_out_widget::update` leaves it. -/
def in_out_widget.updated (env : environment) (settings : QSettings) (d : player_init_data)
    (have_valid_input playing : Bool) (io : in_out_widget) : in_out_widget :=
  if have_valid_input then (io.with_values env settings d).with_playing playing
  else in_out_widget.disable_all (io.with_values env settings d)

/-- The controls widget as `controls_widget::receive_notification` leaves it. -/
def controls_widget.after_notification (note : notification) (c : controls_widget) :
    controls_widget :=
  match note.type with
  | .play =>
    { c with
      _playing := note.current.flag
      _play_button := { c._play_button with enabled := !note.current.flag }
      _pause_button := { c._pause_button with enabled := note.current.flag }
      _stop_button := { c._stop_button with enabled := note.current.flag }
      _bbb_button := { c._bbb_button with enabled := note.current.flag }
      _bb_button := { c._bb_button with enabled := note.current.flag }
      _b_button := { c._b_button with enabled := note.current.flag }
      _f_button := { c._f_button with enabled := note.current.flag }
      _ff_button := { c._ff_button with enabled := note.current.flag }
      _fff_button := { c._fff_button with enabled := note.current.flag }
      _seek_slider :=
        { c._seek_slider with
          enabled := note.current.flag
          value := if note.current.flag then c._seek_slider.value else 0 } }
  | .pause =>
    { c with
      _play_button := { c._play_button with enabled := note.current.flag }
      _pause_button := { c._pause_button with enabled := !note.current.flag } }
  | .pos => controls_widget.after_pos note.current.value c
  | _ => c

/-- The selection controls of the in/out widget all have the enabled state `b`. -/
def in_out_widget.selection_enabled (b : Bool) (io : in_out_widget) : Prop :=
  io._input_combobox.enabled = b ∧ io._audio_spinbox.enabled = b ∧
    io._output_combobox.enabled = b

/-- The playback controls of the in/out widget all have the enabled state `b`. -/
def in_out_widget.playback_enabled (b : Bool) (io : in_out_widget) : Prop :=
  io._swap_eyes_button.enabled = b ∧ io._fullscreen_button.enabled = b ∧
    io._center_button.enabled = b ∧ io._parallax_label.enabled = b ∧
    io._parallax_spinbox.enabled = b ∧ io._ghostbust_label.enabled = b ∧
    io._ghostbust_spinbox.enabled = b

/-- Each of the two groups of the in/out widget shares one enabled state and the groups
are not enabled together. -/
def in_out_widget.enabled_invariant (io : in_out_widget) : Prop :=
  ∃ s p : Bool, io.selection_enabled s ∧ io.playback_enabled p ∧ ¬ (s = true ∧ p = true)

/-- Preferences of a 3D file as `main_window::open` hands them to the widgets: side by
side input, anaglyph output with swapped eyes, the sixth audio stream, a parallax of 0.37
and a ghostbusting of one half. -/
def mirror_init_data : player_init_data :=
  { log_level := 0
    urls := ["b.mp4"]
    stereo_layout_override := true
    stereo_layout := .left_right
    stereo_layout_swap := false
    audio_stream := 5
    stereo_mode_override := true
    stereo_mode := .anaglyph_red_cyan_dubois
    stereo_mode_swap := true
    params := (sample_parameters.set_parallax (37 / 100)).set_ghostbust (1 / 2) }

/-! ## Frame lemmas for the in/out widget -/

@[simp]
theorem Except.ok_bind {ε α β : Type} (a : α) (f : α → Except ε β) :
    (Except.ok a : Except ε α) >>= f = f a := rfl

@[simp]
theorem Except.error_bind {ε α β : Type} (e : ε) (f : α → Except ε β) :
    (Except.error e : Except ε α) >>= f = Except.error e := rfl

theorem locked_step.comp {f1 g1 f2 g2 : action} (h1 : locked_step f1 g1)
    (h2 : locked_step f2 g2) :
    locked_step (fun w => f1 w >>= f2) (fun w => g1 w >>= g2) := by
  intro w h
  obtain ⟨w1, e1, e1', r1, l1⟩ := h1 w h
  obtain ⟨w2, e2, e2', r2, l2⟩ := h2 w1 l1
  refine ⟨w2, by simp [e1, e2], by simp [e1', e2'], ?_, l2⟩
  rw [r2]
  conv_rhs => rw [r1]
  conv_lhs => rw [r1]
  rfl

theorem locked_step.pre {f g : action} (hf : locked_step f g) (w : main_window)
    (io : in_out_widget) (hio : io._lock = true) :
    ∃ w', f (w.set_in_out io) = .ok w' ∧ g (w.set_in_out io) = .ok w' ∧
      w' = w.set_in_out w'._in_out_widget ∧ w'._in_out_widget._lock = true := by
  obtain ⟨w1, e1, e1', r1, l1⟩ := hf (w.set_in_out io) hio
  refine ⟨w1, e1, e1', ?_, l1⟩
  conv_lhs => rw [r1]
  rfl

theorem in_out_widget.swap_eyes_changed_locked (s1 s2 : command → action) :
    locked_step (in_out_widget.swap_eyes_changed s1) (in_out_widget.swap_eyes_changed s2) := by
  intro w h
  exact ⟨w, by simp [in_out_widget.swap_eyes_changed, h],
    by simp [in_out_widget.swap_eyes_changed, h], rfl, h⟩

theorem in_out_widget.parallax_changed_locked (s1 s2 : command → action) :
    locked_step (in_out_widget.parallax_changed s1) (in_out_widget.parallax_changed s2) := by
  intro w h
  exact ⟨w, by simp [in_out_widget.parallax_changed, h],
    by simp [in_out_widget.parallax_changed, h], rfl, h⟩

theorem in_out_widget.ghostbust_changed_locked (s1 s2 : command → action) :
    locked_step (in_out_widget.ghostbust_changed s1) (in_out_widget.ghostbust_changed s2) := by
  intro w h
  exact ⟨w, by simp [in_out_widget.ghostbust_changed, h],
    by simp [in_out_widget.ghostbust_changed, h], rfl, h⟩

theorem in_out_widget.swap_eyes_setChecked_locked (s1 s2 : command → action) (b : Bool) :
    locked_step (in_out_widget.swap_eyes_setChecked s1 b)
      (in_out_widget.swap_eyes_setChecked s2 b) := by
  intro w h
  unfold in_out_widget.swap_eyes_setChecked
  split_ifs
  · exact ⟨w, rfl, rfl, rfl, h⟩
  · exact locked_step.pre (in_out_widget.swap_eyes_changed_locked s1 s2) w _ h

theorem in_out_widget.parallax_setValue_locked (env : environment) (s1 s2 : command → action)
    (v : float) :
    locked_step (in_out_widget.parallax_setValue env s1 v)
      (in_out_widget.parallax_setValue env s2 v) := by
  intro w h
  unfold in_out_widget.parallax_setValue
  simp only
  split_ifs
  · exact ⟨w, rfl, rfl, rfl, h⟩
  · exact locked_step.pre (in_out_widget.parallax_changed_locked s1 s2) w _ h

theorem in_out_widget.ghostbust_setValue_locked (s1 s2 : command → action) (v : Int) :
    locked_step (in_out_widget.ghostbust_setValue s1 v)
      (in_out_widget.ghostbust_setValue s2 v) := by
  intro w h
  unfold in_out_widget.ghostbust_setValue
  simp only
  split_ifs
  · exact ⟨w, rfl, rfl, rfl, h⟩
  · exact locked_step.pre (in_out_widget.ghostbust_changed_locked s1 s2) w _ h

theorem in_out_widget.set_output_locked (s1 s2 : command → action)
    (m : parameters.stereo_mode_t) (b : Bool) :
    locked_step (in_out_widget.set_output s1 m b) (in_out_widget.set_output s2 m b) := by
  intro w h
  unfold in_out_widget.set_output
  exact locked_step.pre (in_out_widget.swap_eyes_setChecked_locked s1 s2 b) w _ h

theorem in_out_widget.input_changed_locked (env : environment) (s1 s2 : command → action) :
    locked_step (in_out_widget.input_changed env s1) (in_out_widget.input_changed env s2) := by
  intro w h
  unfold in_out_widget.input_changed
  simp only
  split_ifs
  · exact in_out_widget.set_output_locked s1 s2 _ _ w h
  · exact in_out_widget.set_output_locked s1 s2 _ _ w h
  · exact ⟨w, rfl, rfl, rfl, h⟩

theorem in_out_widget.set_input_locked (env : environment) (s1 s2 : command → action)
    (l : video_frame.stereo_layout_t) (b : Bool) :
    locked_step (in_out_widget.set_input env s1 l b) (in_out_widget.set_input env s2 l b) := by
  intro w h
  unfold in_out_widget.set_input
  simp only
  split_ifs <;>
    first
    | exact ⟨w, rfl, rfl, rfl, h⟩
    | exact locked_step.pre (in_out_widget.input_changed_locked env s1 s2) w _ h

theorem in_out_widget.audio_setValue_locked (v : Int) :
    locked_step
      (fun w => .ok (w.set_in_out (in_out_widget.audio_setValue v w._in_out_widget)))
      (fun w => .ok (w.set_in_out (in_out_widget.audio_setValue v w._in_out_widget))) :=
  fun _ h => ⟨_, rfl, rfl, rfl, h⟩

/-- Function `in_out_widget::update` unfolded into the locked part and what follows it. -/
theorem in_out_widget.update_unfold (env : environment) (send_cmd : command → action)
    (d : player_init_data) (hv p : Bool) (w : main_window) :
    in_out_widget.update env send_cmd d hv p w =
      ((in_out_widget.set_input env send_cmd d.stereo_layout d.stereo_layout_swap
        ((w.emit (.in_out_widget_update d hv p)).set_in_out
          { (w.emit (.in_out_widget_update d hv p))._in_out_widget with _lock := true }) >>= fun w =>
        in_out_widget.set_output send_cmd d.stereo_mode d.stereo_mode_swap w >>= fun w =>
        (Except.ok (w.set_in_out (in_out_widget.audio_setValue (d.audio_stream + 1)
          w._in_out_widget)) : Except fault main_window) >>= fun w =>
        in_out_widget.parallax_setValue env send_cmd d.params.parallax w >>=
        in_out_widget.ghostbust_setValue send_cmd
          (qRound (env.float_mul d.params.ghostbust 100))) >>= fun w =>
        in_out_widget.set_lock false w >>= fun w =>
        if hv then
          in_out_widget.receive_notification env send_cmd (notification.of_flag .play (!p) p) w
        else .ok (w.set_in_out (in_out_widget.disable_all w._in_out_widget))) := by
  simp only [in_out_widget.update, in_out_widget.set_lock, bind_assoc, Except.ok_bind]

/-- Function `in_out_widget::update` sends no command: whatever `send_cmd` is, the call succeeds,
is recorded in the trace, and changes nothing but the in/out widget. -/
theorem in_out_widget.update_eq (env : environment) (send_cmd : command → action)
    (d : player_init_data) (hv p : Bool) (w : main_window) :
    in_out_widget.update env send_cmd d hv p w =
      .ok ((w.emit (.in_out_widget_update d hv p)).set_in_out
        (in_out_widget.after_update env d hv p w)) := by
  have hchain := locked_step.comp
    (in_out_widget.set_input_locked env send_cmd (fun _ w => .ok w) d.stereo_layout
      d.stereo_layout_swap)
    (locked_step.comp
      (in_out_widget.set_output_locked send_cmd (fun _ w => .ok w) d.stereo_mode
        d.stereo_mode_swap)
      (locked_step.comp (in_out_widget.audio_setValue_locked (d.audio_stream + 1))
        (locked_step.comp
          (in_out_widget.parallax_setValue_locked env send_cmd (fun _ w => .ok w)
            d.params.parallax)
          (in_out_widget.ghostbust_setValue_locked send_cmd (fun _ w => .ok w)
            (qRound (env.float_mul d.params.ghostbust 100))))))
  obtain ⟨w1, e1, e1', r1, l1⟩ := hchain
    ((w.emit (.in_out_widget_update d hv p)).set_in_out
      { (w.emit (.in_out_widget_update d hv p))._in_out_widget with _lock := true }) rfl
  simp only at e1 e1'
  unfold in_out_widget.after_update
  rw [in_out_widget.update_unfold, in_out_widget.update_unfold, e1, e1', r1]
  cases hv <;> rfl

/-- After `update` the in/out widget is unlocked. -/
theorem in_out_widget.after_update_lock (env : environment) (d : player_init_data)
    (hv p : Bool) (w : main_window) :
    (in_out_widget.after_update env d hv p w)._lock = false := by
  have hchain := locked_step.comp
    (in_out_widget.set_input_locked env (fun _ w => .ok w) (fun _ w => .ok w) d.stereo_layout
      d.stereo_layout_swap)
    (locked_step.comp
      (in_out_widget.set_output_locked (fun _ w => .ok w) (fun _ w => .ok w) d.stereo_mode
        d.stereo_mode_swap)
      (locked_step.comp (in_out_widget.audio_setValue_locked (d.audio_stream + 1))
        (locked_step.comp
          (in_out_widget.parallax_setValue_locked env (fun _ w => .ok w) (fun _ w => .ok w)
            d.params.parallax)
          (in_out_widget.ghostbust_setValue_locked (fun _ w => .ok w) (fun _ w => .ok w)
            (qRound (env.float_mul d.params.ghostbust 100))))))
  obtain ⟨w1, e1, _, r1, l1⟩ := hchain
    ((w.emit (.in_out_widget_update d hv p)).set_in_out
      { (w.emit (.in_out_widget_update d hv p))._in_out_widget with _lock := true }) rfl
  simp only at e1
  unfold in_out_widget.after_update
  rw [in_out_widget.update_unfold, e1, r1]
  cases hv <;> rfl


/-! ## Projections of the primitive steps -/

@[simp]
theorem emit_settings (w : main_window) (e : event) :
    (w.emit e)._settings = w._settings := rfl

@[simp]
theorem emit_in_out_widget (w : main_window) (e : event) :
    (w.emit e)._in_out_widget = w._in_out_widget := rfl

@[simp]
theorem emit_controls_widget (w : main_window) (e : event) :
    (w.emit e)._controls_widget = w._controls_widget := rfl

@[simp]
theorem emit_player (w : main_window) (e : event) :
    (w.emit e)._player = w._player := rfl

@[simp]
theorem emit_timer (w : main_window) (e : event) :
    (w.emit e)._timer = w._timer := rfl

@[simp]
theorem emit_init_data (w : main_window) (e : event) :
    (w.emit e)._init_data = w._init_data := rfl

@[simp]
theorem emit_init_data_template (w : main_window) (e : event) :
    (w.emit e)._init_data_template = w._init_data_template := rfl

@[simp]
theorem emit_stop_request (w : main_window) (e : event) :
    (w.emit e)._stop_request = w._stop_request := rfl

@[simp]
theorem emit_trace (w : main_window) (e : event) :
    (w.emit e).trace = w.trace ++ [e] := rfl

@[simp]
theorem set_in_out_settings (w : main_window) (io : in_out_widget) :
    (w.set_in_out io)._settings = w._settings := rfl

@[simp]
theorem set_in_out_in_out_widget (w : main_window) (io : in_out_widget) :
    (w.set_in_out io)._in_out_widget = io := rfl

@[simp]
theorem set_in_out_controls_widget (w : main_window) (io : in_out_widget) :
    (w.set_in_out io)._controls_widget = w._controls_widget := rfl

@[simp]
theorem set_in_out_player (w : main_window) (io : in_out_widget) :
    (w.set_in_out io)._player = w._player := rfl

@[simp]
theorem set_in_out_timer (w : main_window) (io : in_out_widget) :
    (w.set_in_out io)._timer = w._timer := rfl

@[simp]
theorem set_in_out_init_data (w : main_window) (io : in_out_widget) :
    (w.set_in_out io)._init_data = w._init_data := rfl

@[simp]
theorem set_in_out_init_data_template (w : main_window) (io : in_out_widget) :
    (w.set_in_out io)._init_data_template = w._init_data_template := rfl

@[simp]
theorem set_in_out_stop_request (w : main_window) (io : in_out_widget) :
    (w.set_in_out io)._stop_request = w._stop_request := rfl

@[simp]
theorem set_in_out_trace (w : main_window) (io : in_out_widget) :
    (w.set_in_out io).trace = w.trace := rfl

@[simp]
theorem set_controls_settings (w : main_window) (c : controls_widget) :
    (w.set_controls c)._settings = w._settings := rfl

@[simp]
theorem set_controls_in_out_widget (w : main_window) (c : controls_widget) :
    (w.set_controls c)._in_out_widget = w._in_out_widget := rfl

@[simp]
theorem set_controls_controls_widget (w : main_window) (c : controls_widget) :
    (w.set_controls c)._controls_widget = c := rfl

@[simp]
theorem set_controls_player (w : main_window) (c : controls_widget) :
    (w.set_controls c)._player = w._player := rfl

@[simp]
theorem set_controls_timer (w : main_window) (c : controls_widget) :
    (w.set_controls c)._timer = w._timer := rfl

@[simp]
theorem set_controls_init_data (w : main_window) (c : controls_widget) :
    (w.set_controls c)._init_data = w._init_data := rfl

@[simp]
theorem set_controls_init_data_template (w : main_window) (c : controls_widget) :
    (w.set_controls c)._init_data_template = w._init_data_template := rfl

@[simp]
theorem set_controls_stop_request (w : main_window) (c : controls_widget) :
    (w.set_controls c)._stop_request = w._stop_request := rfl

@[simp]
theorem set_controls_trace (w : main_window) (c : controls_widget) :
    (w.set_controls c).trace = w.trace := rfl

@[simp]
theorem close_settings (w : main_window) :
    (player.close w)._settings = w._settings := rfl

@[simp]
theorem close_in_out_widget (w : main_window) :
    (player.close w)._in_out_widget = w._in_out_widget := rfl

@[simp]
theorem close_controls_widget (w : main_window) :
    (player.close w)._controls_widget = w._controls_widget := rfl

@[simp]
theorem close_player (w : main_window) :
    (player.close w)._player = { w._player with is_open := false } := rfl

@[simp]
theorem close_timer (w : main_window) :
    (player.close w)._timer = w._timer := rfl

@[simp]
theorem close_init_data (w : main_window) :
    (player.close w)._init_data = w._init_data := rfl

@[simp]
theorem close_init_data_template (w : main_window) :
    (player.close w)._init_data_template = w._init_data_template := rfl

@[simp]
theorem close_stop_request (w : main_window) :
    (player.close w)._stop_request = w._stop_request := rfl

@[simp]
theorem close_trace (w : main_window) :
    (player.close w).trace = w.trace ++ [.player_close] := rfl

@[simp]
theorem settings_setValue_settings (key value : String) (w : main_window) :
    (main_window.settings_setValue key value w)._settings = QSettings.setValue w._settings key value := rfl

@[simp]
theorem settings_setValue_in_out_widget (key value : String) (w : main_window) :
    (main_window.settings_setValue key value w)._in_out_widget = w._in_out_widget := rfl

@[simp]
theorem settings_setValue_controls_widget (key value : String) (w : main_window) :
    (main_window.settings_setValue key value w)._controls_widget = w._controls_widget := rfl

@[simp]
theorem settings_setValue_player (key value : String) (w : main_window) :
    (main_window.settings_setValue key value w)._player = w._player := rfl

@[simp]
theorem settings_setValue_timer (key value : String) (w : main_window) :
    (main_window.settings_setValue key value w)._timer = w._timer := rfl

@[simp]
theorem settings_setValue_init_data (key value : String) (w : main_window) :
    (main_window.settings_setValue key value w)._init_data = w._init_data := rfl

@[simp]
theorem settings_setValue_init_data_template (key value : String) (w : main_window) :
    (main_window.settings_setValue key value w)._init_data_template = w._init_data_template := rfl

@[simp]
theorem settings_setValue_stop_request (key value : String) (w : main_window) :
    (main_window.settings_setValue key value w)._stop_request = w._stop_request := rfl

@[simp]
theorem settings_setValue_trace (key value : String) (w : main_window) :
    (main_window.settings_setValue key value w).trace = w.trace ++ [.settings_set_value key value] := rfl

@[simp]
theorem timer_start_settings (w : main_window) :
    (main_window.timer_start w)._settings = w._settings := rfl

@[simp]
theorem timer_start_in_out_widget (w : main_window) :
    (main_window.timer_start w)._in_out_widget = w._in_out_widget := rfl

@[simp]
theorem timer_start_controls_widget (w : main_window) :
    (main_window.timer_start w)._controls_widget = w._controls_widget := rfl

@[simp]
theorem timer_start_player (w : main_window) :
    (main_window.timer_start w)._player = w._player := rfl

@[simp]
theorem timer_start_timer (w : main_window) :
    (main_window.timer_start w)._timer = { w._timer with active := true } := rfl

@[simp]
theorem timer_start_init_data (w : main_window) :
    (main_window.timer_start w)._init_data = w._init_data := rfl

@[simp]
theorem timer_start_init_data_template (w : main_window) :
    (main_window.timer_start w)._init_data_template = w._init_data_template := rfl

@[simp]
theorem timer_start_stop_request (w : main_window) :
    (main_window.timer_start w)._stop_request = w._stop_request := rfl

@[simp]
theorem timer_start_trace (w : main_window) :
    (main_window.timer_start w).trace = w.trace ++ [.timer_start] := rfl

@[simp]
theorem timer_stop_settings (w : main_window) :
    (main_window.timer_stop w)._settings = w._settings := rfl

@[simp]
theorem timer_stop_in_out_widget (w : main_window) :
    (main_window.timer_stop w)._in_out_widget = w._in_out_widget := rfl

@[simp]
theorem timer_stop_controls_widget (w : main_window) :
    (main_window.timer_stop w)._controls_widget = w._controls_widget := rfl

@[simp]
theorem timer_stop_player (w : main_window) :
    (main_window.timer_stop w)._player = w._player := rfl

@[simp]
theorem timer_stop_timer (w : main_window) :
    (main_window.timer_stop w)._timer = { w._timer with active := false } := rfl

@[simp]
theorem timer_stop_init_data (w : main_window) :
    (main_window.timer_stop w)._init_data = w._init_data := rfl

@[simp]
theorem timer_stop_init_data_template (w : main_window) :
    (main_window.timer_stop w)._init_data_template = w._init_data_template := rfl

@[simp]
theorem timer_stop_stop_request (w : main_window) :
    (main_window.timer_stop w)._stop_request = w._stop_request := rfl

@[simp]
theorem timer_stop_trace (w : main_window) :
    (main_window.timer_stop w).trace = w.trace ++ [.timer_stop] := rfl

@[simp]
theorem open_player_fst (env : environment) (w : main_window) :
    (main_window.open_player env w).1 =
      (match env.player_open w._init_data with
        | .threw _ => false
        | .opened _ => true) := by
  simp only [main_window.open_player, emit_init_data]
  cases env.player_open w._init_data <;> rfl

@[simp]
theorem open_player_settings (env : environment) (w : main_window) :
    (main_window.open_player env w).2._settings = w._settings := by
  simp only [main_window.open_player, emit_init_data]
  cases env.player_open w._init_data <;> rfl

@[simp]
theorem open_player_in_out_widget (env : environment) (w : main_window) :
    (main_window.open_player env w).2._in_out_widget = w._in_out_widget := by
  simp only [main_window.open_player, emit_init_data]
  cases env.player_open w._init_data <;> rfl

@[simp]
theorem open_player_controls_widget (env : environment) (w : main_window) :
    (main_window.open_player env w).2._controls_widget = w._controls_widget := by
  simp only [main_window.open_player, emit_init_data]
  cases env.player_open w._init_data <;> rfl

@[simp]
theorem open_player_playing (env : environment) (w : main_window) :
    (main_window.open_player env w).2._player._playing = w._player._playing := by
  simp only [main_window.open_player, emit_init_data]
  cases env.player_open w._init_data <;> rfl

@[simp]
theorem open_player_timer (env : environment) (w : main_window) :
    (main_window.open_player env w).2._timer = w._timer := by
  simp only [main_window.open_player, emit_init_data]
  cases env.player_open w._init_data <;> rfl

@[simp]
theorem open_player_init_data (env : environment) (w : main_window) :
    (main_window.open_player env w).2._init_data = w._init_data := by
  simp only [main_window.open_player, emit_init_data]
  cases env.player_open w._init_data <;> rfl

@[simp]
theorem open_player_init_data_template (env : environment) (w : main_window) :
    (main_window.open_player env w).2._init_data_template = w._init_data_template := by
  simp only [main_window.open_player, emit_init_data]
  cases env.player_open w._init_data <;> rfl

@[simp]
theorem open_player_stop_request (env : environment) (w : main_window) :
    (main_window.open_player env w).2._stop_request = w._stop_request := by
  simp only [main_window.open_player, emit_init_data]
  cases env.player_open w._init_data <;> rfl

@[simp]
theorem open_player_trace (env : environment) (w : main_window) :
    (main_window.open_player env w).2.trace =
      w.trace ++ [.player_open w._init_data] ++
        open_player_events (env.player_open w._init_data) := by
  simp only [main_window.open_player, emit_init_data, open_player_events]
  cases env.player_open w._init_data <;> rfl

@[simp]
theorem current_file_hash_cons (env : environment) (w : main_window) (name : String)
    (names : List String) (h : w._init_data.urls = name :: names) :
    main_window.current_file_hash env w = .ok (env.file_hash name) := by
  unfold main_window.current_file_hash
  rw [h]

theorem open_player_is_open (env : environment) (w : main_window) :
    (main_window.open_player env w).2._player.is_open =
      (match env.player_open w._init_data with
        | .threw _ => false
        | .opened _ => true) := by
  simp only [main_window.open_player, emit_init_data]
  cases env.player_open w._init_data <;> rfl

theorem open_player_media (env : environment) (w : main_window) (info : media_info)
    (h : env.player_open w._init_data = .opened info) :
    (main_window.open_player env w).2._player.media = info := by
  simp only [main_window.open_player, emit_init_data, h]
  rfl

@[simp]
theorem set_init_data_settings (w : main_window) (d : player_init_data) :
    (w.set_init_data d)._settings = w._settings := rfl

@[simp]
theorem set_init_data_in_out_widget (w : main_window) (d : player_init_data) :
    (w.set_init_data d)._in_out_widget = w._in_out_widget := rfl

@[simp]
theorem set_init_data_controls_widget (w : main_window) (d : player_init_data) :
    (w.set_init_data d)._controls_widget = w._controls_widget := rfl

@[simp]
theorem set_init_data_player (w : main_window) (d : player_init_data) :
    (w.set_init_data d)._player = w._player := rfl

@[simp]
theorem set_init_data_timer (w : main_window) (d : player_init_data) :
    (w.set_init_data d)._timer = w._timer := rfl

@[simp]
theorem set_init_data_init_data (w : main_window) (d : player_init_data) :
    (w.set_init_data d)._init_data = d := rfl

@[simp]
theorem set_init_data_init_data_template (w : main_window) (d : player_init_data) :
    (w.set_init_data d)._init_data_template = w._init_data_template := rfl

@[simp]
theorem set_init_data_stop_request (w : main_window) (d : player_init_data) :
    (w.set_init_data d)._stop_request = w._stop_request := rfl

@[simp]
theorem set_init_data_trace (w : main_window) (d : player_init_data) :
    (w.set_init_data d).trace = w.trace := rfl


@[simp]
theorem set_init_data_set_init_data (w : main_window) (a b : player_init_data) :
    (w.set_init_data a).set_init_data b = w.set_init_data b := rfl

@[simp]
theorem set_urls_urls (d : player_init_data) (urls : List String) :
    (d.set_urls urls).urls = urls := rfl

@[simp]
theorem set_urls_set_urls (d : player_init_data) (a b : List String) :
    (d.set_urls a).set_urls b = d.set_urls b := rfl

/-! ## The controls widget and the delivery of a `play` notification -/

/-- Function `controls_widget::update` for a valid input that is playing: only the controls widget
changes and no command is sent. -/
theorem controls_widget.update_playing_eq (send_cmd : command → action) (d : player_init_data)
    (w : main_window) :
    controls_widget.update send_cmd d true true w =
      .ok ((w.emit (.controls_widget_update d true true)).set_controls
        (controls_widget.after_update d true true w)) := by
  simp only [controls_widget.after_update, controls_widget.update,
    controls_widget.receive_notification, notification.of_flag]
  rfl

theorem controls_widget.after_update_playing (d : player_init_data) (hv p : Bool)
    (w : main_window) : (controls_widget.after_update d hv p w)._playing = (hv && p) := by
  simp only [controls_widget.after_update, controls_widget.update,
    controls_widget.receive_notification, notification.of_flag,
    controls_widget.seek_slider_setValue, controls_widget.seek_slider_changed]
  cases hv <;> cases p <;> simp <;> split_ifs <;> rfl

/-- Function `controls_widget::update` for a valid input that is not playing, while the internal
player is not playing either: only the controls widget changes (a `set_pos` command sent
by the slider is dropped by `player_qt_internal::receive_cmd`). -/
theorem controls_widget.update_stopped_eq (notify : notification → action)
    (d : player_init_data) (w : main_window) (hp : w._player._playing = false) :
    controls_widget.update (player_qt_internal.receive_cmd notify) d true false w =
      .ok ((w.emit (.controls_widget_update d true false)).set_controls
        (controls_widget.after_update d true false w)) := by
  simp only [controls_widget.after_update, controls_widget.update,
    controls_widget.receive_notification, notification.of_flag,
    controls_widget.seek_slider_setValue, controls_widget.seek_slider_changed,
    player_qt_internal.receive_cmd]
  simp only [main_window.emit, main_window.set_controls, hp]
  simp
  split_ifs <;> rfl

/-- Delivery of a `play` notification whose current flag is false (the one `force_stop`
sends): the timer is stopped and the engine closed at once, nobody is playing afterwards,
and the only other call that leaves the file is the `set_pos` command of a slider that is
reset while the internal player still counts as playing. -/
theorem controller.notify_stop (fuel : Nat) (env : environment) (pf : Bool) (w : main_window) :
    ∃ w', controller.notify (fuel + 1) env (notification.of_flag .play pf false) w = .ok w' ∧
      w'._timer.active = false ∧ w'._player._playing = false ∧
      w'._controls_widget._playing = false ∧ w'._player.is_open = false ∧
      w'._player.media = w._player.media ∧
      w'._stop_request = w._stop_request ∧ w'._init_data = w._init_data ∧
      w'._init_data_template = w._init_data_template ∧ w'._settings = w._settings ∧
      ∃ rest, w'.trace = w.trace ++ [.notify (notification.of_flag .play pf false),
        .timer_stop, .player_close] ++ rest ∧
        (rest = [] ∨ rest = [.player_receive_cmd ⟨.set_pos, some 0⟩]) := by
  simp only [controller.notify, main_window.receive_notification, notification.of_flag,
    in_out_widget.receive_notification, controls_widget.receive_notification,
    player_qt_internal.receive_notification, controls_widget.seek_slider_setValue,
    controls_widget.seek_slider_changed, player_qt_internal.receive_cmd,
    main_window.emit, main_window.set_in_out, main_window.set_controls, player.close,
    main_window.timer_stop, bind, Except.bind, qBound]
  simp
  split_ifs <;> simp


/-! ## `main_window::receive_notification` on a `play` notification -/

theorem main_window.receive_notification_play_true (env : environment)
    (send_cmd : command → action) (note : notification) (w : main_window)
    (name : String) (names : List String)
    (ht : note.type = .play) (hf : note.current.flag = true)
    (hu : w._init_data.urls = name :: names) :
    ∃ w', main_window.receive_notification env send_cmd note w = .ok w' ∧
      w'._init_data = main_window.play_data w ∧
      w'._timer.active = true ∧
      w'._controls_widget._playing = true ∧
      w'._player._playing = w._player._playing ∧
      w'._init_data_template = w._init_data_template ∧
      w'._stop_request =
        (match env.player_open (main_window.play_data w) with
          | .threw _ => true
          | .opened _ => w._stop_request) ∧
      w'.trace = w.trace ++ [.player_close, .player_open (main_window.play_data w)] ++
        open_player_events (env.player_open (main_window.play_data w)) ++
        play_settings_events env (main_window.play_data w) name ++
        [.in_out_widget_update (main_window.play_data w) true true,
          .controls_widget_update (main_window.play_data w) true true,
          .set_focus, .timer_start] := by
  have hd : ({ player.close w with _init_data := main_window.play_data w } : main_window)._init_data
      = main_window.play_data w := rfl
  have h1 : main_window.receive_notification env send_cmd note w =
      (let w1 : main_window := { player.close w with _init_data := main_window.play_data w }
       let r := main_window.open_player env w1
       let w2 := if !r.1 then { r.2 with _stop_request := true } else r.2
       main_window.current_file_hash env w2 >>= fun hash =>
       let w3 := main_window.settings_setValue ("Video/" ++ hash ++ "/stereo-layout")
         (env.stereo_layout_to_string w2._init_data.stereo_layout w2._init_data.stereo_layout_swap) w2
       let w4 := main_window.settings_setValue ("Video/" ++ hash ++ "/audio-stream")
         (env.int_to_string w3._init_data.audio_stream) w3
       let w5 := main_window.settings_setValue
         (if w4._init_data.stereo_layout = .mono then "Session/2d-stereo-mode"
           else "Session/3d-stereo-mode")
         (env.stereo_mode_to_string w4._init_data.stereo_mode w4._init_data.stereo_mode_swap) w4
       in_out_widget.update env send_cmd w5._init_data true true w5 >>= fun w6 =>
       controls_widget.update send_cmd w6._init_data true true w6 >>= fun w7 =>
       .ok (main_window.timer_start (w7.emit .set_focus))) := by
    simp only [main_window.receive_notification, ht, hf, if_true]
    rfl
  rw [h1]
  clear h1
  generalize hw1 : ({ player.close w with _init_data := main_window.play_data w } : main_window)
    = w1 at hd
  have hw1t : w1.trace = w.trace ++ [.player_close] := by rw [← hw1]; rfl
  have hw1p : w1._player._playing = w._player._playing := by rw [← hw1]; rfl
  have hw1s : w1._stop_request = w._stop_request := by rw [← hw1]; rfl
  have hw1m : w1._init_data_template = w._init_data_template := by rw [← hw1]; rfl
  clear hw1
  simp only
  generalize hw2 : (if (!(main_window.open_player env w1).1) = true then
      { (main_window.open_player env w1).2 with _stop_request := true }
    else (main_window.open_player env w1).2) = w2
  have hw2d : w2._init_data = main_window.play_data w := by
    rw [← hw2, ← hd]; split_ifs <;> simp
  have hw2t : w2.trace = w.trace ++ [.player_close, .player_open (main_window.play_data w)] ++
      open_player_events (env.player_open (main_window.play_data w)) := by
    rw [← hw2, ← hd]; split_ifs <;> simp [hw1t]
  have hw2p : w2._player._playing = w._player._playing := by
    rw [← hw2]; split_ifs <;> simp [hw1p]
  have hw2m : w2._init_data_template = w._init_data_template := by
    rw [← hw2]; split_ifs <;> simp [hw1m]
  have hw2s : w2._stop_request = (match env.player_open (main_window.play_data w) with
      | .threw _ => true
      | .opened _ => w._stop_request) := by
    rw [← hw2, ← hd]
    simp only [open_player_fst]
    cases env.player_open w1._init_data <;> simp [hw1s]
  clear hw2
  have hu2 : w2._init_data.urls = name :: names := by rw [hw2d]; exact hu
  simp only [current_file_hash_cons env w2 name names hu2, Except.ok_bind,
    in_out_widget.update_eq, controls_widget.update_playing_eq]
  refine ⟨_, rfl, ?_, ?_, ?_, ?_, ?_, ?_, ?_⟩
  · simp [hw2d]
  · simp
  · simp [controls_widget.after_update_playing]
  · simp [hw2p]
  · simp [hw2m]
  · simp [hw2s]
  · simp [hw2t, hw2d, play_settings_events]


/-- Delivery of a `play` notification whose current flag is true, with a source loaded:
the main window re-opens the engine and starts the timer, no command is sent, and
everybody counts as playing afterwards. -/
theorem controller.notify_play (fuel : Nat) (env : environment) (pf : Bool) (w : main_window)
    (name : String) (names : List String) (hu : w._init_data.urls = name :: names) :
    ∃ w', controller.notify (fuel + 1) env (notification.of_flag .play pf true) w = .ok w' ∧
      w'._init_data = main_window.play_data w ∧
      w'._timer.active = true ∧
      w'._controls_widget._playing = true ∧
      w'._player._playing = true ∧
      w'._init_data_template = w._init_data_template ∧
      w'._stop_request =
        (match env.player_open (main_window.play_data w) with
          | .threw _ => true
          | .opened _ => w._stop_request) ∧
      w'.trace = w.trace ++ [.notify (notification.of_flag .play pf true)] ++
        [.player_close, .player_open (main_window.play_data w)] ++
        open_player_events (env.player_open (main_window.play_data w)) ++
        play_settings_events env (main_window.play_data w) name ++
        [.in_out_widget_update (main_window.play_data w) true true,
          .controls_widget_update (main_window.play_data w) true true,
          .set_focus, .timer_start] := by
  obtain ⟨w1, e1, h1, h2, h3, h4, h5, h6, h7⟩ :=
    main_window.receive_notification_play_true env
      (fun cmd => player_qt_internal.receive_cmd (controller.notify fuel env) cmd)
      (notification.of_flag .play pf true)
      (w.emit (.notify (notification.of_flag .play pf true))) name names rfl rfl hu
  have hpd : main_window.play_data (w.emit (.notify (notification.of_flag .play pf true)))
      = main_window.play_data w := rfl
  rw [hpd] at h1 h6 h7
  simp only [controller.notify]
  rw [e1]
  simp only [Except.ok_bind, in_out_widget.receive_notification,
    controls_widget.receive_notification, player_qt_internal.receive_notification,
    notification.of_flag, Bool.not_true, Bool.false_eq_true, if_false, if_true]
  refine ⟨_, rfl, ?_, ?_, ?_, ?_, ?_, ?_, ?_⟩
  · simpa using h1
  · simpa using h2
  · simp
  · simp
  · simpa using h5
  · simpa using h6
  · simpa [notification.of_flag] using h7


/-! ## `main_window::open` -/

/-- The block of assignments in `main_window::open` stores `opened_data`. -/
theorem main_window.open_apply_settings_eq (env : environment) (hash : String)
    (w : main_window) :
    main_window.open_apply_settings env hash w =
      w.set_init_data (main_window.opened_data env w._settings w._init_data w._player.media
        hash) := by
  delta main_window.open_apply_settings main_window.opened_data
  simp only [set_init_data_set_init_data, set_init_data_init_data, set_init_data_settings,
    set_init_data_player]

/-- Function `main_window::open` split at the delivery of the notification `force_stop` sends. -/
theorem main_window.open_unfold (fuel : Nat) (env : environment) (filenames : List String)
    (w : main_window) :
    main_window.open fuel env filenames w =
      (controller.notify fuel env (notification.of_flag .play false false) w >>= fun w1 =>
        if (main_window.open_player env (w1.open_prepare filenames)).1 then
          main_window.current_file_hash env
            (main_window.open_player env (w1.open_prepare filenames)).2 >>= fun hash =>
          in_out_widget.update env (controller.send_cmd fuel env)
            (main_window.opened_data env
              (main_window.open_player env (w1.open_prepare filenames)).2._settings
              (main_window.open_player env (w1.open_prepare filenames)).2._init_data
              (main_window.open_player env (w1.open_prepare filenames)).2._player.media
              hash) true false
            ((main_window.open_player env (w1.open_prepare filenames)).2.set_init_data
              (main_window.opened_data env
                (main_window.open_player env (w1.open_prepare filenames)).2._settings
                (main_window.open_player env (w1.open_prepare filenames)).2._init_data
                (main_window.open_player env (w1.open_prepare filenames)).2._player.media
                hash))
            >>= fun w4 =>
          controls_widget.update (controller.send_cmd fuel env) w4._init_data true false w4
        else .ok (main_window.open_player env (w1.open_prepare filenames)).2) := by
  simp only [main_window.open, player_qt_internal.force_stop,
    main_window.open_apply_settings_eq, set_init_data_init_data, set_init_data_set_init_data,
    set_urls_urls, set_urls_set_urls, List.nil_append, close_init_data_template,
    main_window.open_prepare, main_window.open_data]

theorem controller.send_cmd_eq (fuel : Nat) (env : environment) :
    controller.send_cmd fuel env = player_qt_internal.receive_cmd (controller.notify fuel env) :=
  rfl

/-- Function `main_window::open` when the engine cannot open the files. -/
theorem main_window.open_threw (fuel : Nat) (env : environment) (filenames : List String)
    (w : main_window) (what : String)
    (h : env.player_open (main_window.open_data w filenames) = .threw what) :
    ∃ w' rest, main_window.open (fuel + 1) env filenames w = .ok w' ∧
      w'._init_data = main_window.open_data w filenames ∧
      w'._init_data_template = w._init_data_template ∧
      w'._settings = w._settings ∧
      w'._stop_request = w._stop_request ∧
      w'._player._playing = false ∧
      w'._controls_widget._playing = false ∧
      w'._timer.active = false ∧
      w'._player.is_open = false ∧
      w'.trace = w.trace ++ [.notify (notification.of_flag .play false false),
        .timer_stop, .player_close] ++ rest ++
        [.player_close, .player_open (main_window.open_data w filenames),
          .message_box what] ∧
      (rest = [] ∨ rest = [.player_receive_cmd ⟨.set_pos, some 0⟩]) := by
  obtain ⟨w1, e1, ht, hp, hc, ho, hm, hs, hd, htm, hset, rest, htr, hrest⟩ :=
    controller.notify_stop fuel env false w
  have hod : main_window.open_data w1 filenames = main_window.open_data w filenames := by
    simp [main_window.open_data, htm]
  have h1 : env.player_open (w1.open_prepare filenames)._init_data = .threw what := by
    simpa [main_window.open_prepare, hod] using h
  rw [main_window.open_unfold, e1]
  simp only [Except.ok_bind, open_player_fst, h1, Bool.false_eq_true, if_false]
  refine ⟨_, rest, rfl, ?_, ?_, ?_, ?_, ?_, ?_, ?_, ?_, ?_, hrest⟩
  · simp [main_window.open_prepare, hod]
  · simp [main_window.open_prepare, htm]
  · simp [main_window.open_prepare, hset]
  · simp [main_window.open_prepare, hs]
  · simp [main_window.open_prepare, hp]
  · simp [main_window.open_prepare, hc]
  · simp [main_window.open_prepare, ht]
  · simp [open_player_is_open, h1]
  · simp [main_window.open_prepare, htr, hod, h, open_player_events]

/-- Function `main_window::open` when the engine opens the files. -/
theorem main_window.open_opened (fuel : Nat) (env : environment) (name : String)
    (names : List String) (w : main_window) (info : media_info)
    (h : env.player_open (main_window.open_data w (name :: names)) = .opened info) :
    ∃ w' rest, main_window.open (fuel + 1) env (name :: names) w = .ok w' ∧
      w'._init_data = main_window.opened_data env w._settings
        (main_window.open_data w (name :: names)) info (env.file_hash name) ∧
      w'._init_data_template = w._init_data_template ∧
      w'._settings = w._settings ∧
      w'._stop_request = w._stop_request ∧
      w'._player._playing = false ∧
      w'._controls_widget._playing = false ∧
      w'._timer.active = false ∧
      w'._player.is_open = true ∧
      w'._in_out_widget._lock = false ∧
      w'.trace = w.trace ++ [.notify (notification.of_flag .play false false),
        .timer_stop, .player_close] ++ rest ++
        [.player_close, .player_open (main_window.open_data w (name :: names)),
          .adjust_size,
          .in_out_widget_update w'._init_data true false,
          .controls_widget_update w'._init_data true false] ∧
      (rest = [] ∨ rest = [.player_receive_cmd ⟨.set_pos, some 0⟩]) := by
  obtain ⟨w1, e1, ht, hp, hc, ho, hm, hs, hd, htm, hset, rest, htr, hrest⟩ :=
    controller.notify_stop fuel env false w
  have hod : main_window.open_data w1 (name :: names) =
      main_window.open_data w (name :: names) := by
    simp [main_window.open_data, htm]
  have h1 : env.player_open (w1.open_prepare (name :: names))._init_data = .opened info := by
    simpa [main_window.open_prepare, hod] using h
  have hu : (main_window.open_player env (w1.open_prepare (name :: names))).2._init_data.urls
      = name :: names := by
    simp [main_window.open_prepare, main_window.open_data]
  rw [main_window.open_unfold, e1]
  simp only [Except.ok_bind, open_player_fst, h1, if_true,
    current_file_hash_cons env _ name names hu, in_out_widget.update_eq,
    controller.send_cmd_eq]
  rw [controls_widget.update_stopped_eq]
  · refine ⟨_, rest, rfl, ?_, ?_, ?_, ?_, ?_, ?_, ?_, ?_, ?_, ?_, hrest⟩
    · have hmed := open_player_media env _ info h1
      simp only [main_window.open_prepare, hod] at hmed
      simp [main_window.open_prepare, hod, hset, hmed]
    · simp [main_window.open_prepare, htm]
    · simp [main_window.open_prepare, hset]
    · simp [main_window.open_prepare, hs]
    · simp [main_window.open_prepare, hp]
    · simp [controls_widget.after_update_playing]
    · simp [main_window.open_prepare, ht]
    · simp [open_player_is_open, h1]
    · simp [in_out_widget.after_update_lock]
    · simp [main_window.open_prepare, htr, hod, h, open_player_events]
  · simp [main_window.open_prepare, hp]


/-! ## The claims -/

theorem open_player_events_plain (r : open_result) :
    ∀ e ∈ open_player_events r, e.is_notify = false ∧ e.is_player_receive_cmd = false ∧
      e.is_update = false ∧ e ≠ .player_run_step ∧ e ≠ .player_close ∧
      (∀ d, e ≠ .player_open d) := by
  intro e he
  cases r <;> simp [open_player_events] at he <;> subst he <;> simp [event.is_notify,
    event.is_player_receive_cmd, event.is_update]

theorem play_settings_events_plain (env : environment) (d : player_init_data) (name : String) :
    ∀ e ∈ play_settings_events env d name, e.is_notify = false ∧
      e.is_player_receive_cmd = false ∧ e.is_update = false ∧ e ≠ .player_close ∧
      (∀ d, e ≠ .player_open d) := by
  intro e he
  simp only [play_settings_events, List.mem_cons, List.mem_singleton, List.not_mem_nil,
    or_false] at he
  rcases he with he | he | he <;> subst he <;> simp [event.is_notify,
    event.is_player_receive_cmd, event.is_update]

/-- C1: `player_qt_internal::receive_cmd` of a `toggle_play` command while `_playing` is
false is exactly one `notify` call, for the notification `play` with previous flag false
and current flag true, whatever the bus then does with it; and through the bus, with a
source loaded, the trace gains that notification followed by events none of which is a
further notification or a call of `player::receive_cmd`. -/
theorem player_qt_internal.receive_cmd_toggle_play_stopped (env : environment) (cmd : command)
    (w : main_window) (hc : cmd.type = .toggle_play) (hp : w._player._playing = false) :
    (∀ notify : notification → action,
      player_qt_internal.receive_cmd notify cmd w =
        notify (notification.of_flag .play false true) w) ∧
    (∀ fuel : Nat, w._init_data.urls ≠ [] →
      ∃ w' rest, controller.send_cmd (fuel + 1) env cmd w = .ok w' ∧
        w'.trace = w.trace ++ .notify (notification.of_flag .play false true) :: rest ∧
        ∀ e ∈ rest, e.is_notify = false ∧ e.is_player_receive_cmd = false) := by
  have ha : ∀ notify : notification → action,
      player_qt_internal.receive_cmd notify cmd w =
        notify (notification.of_flag .play false true) w := by
    intro notify
    simp [player_qt_internal.receive_cmd, hc, hp]
  refine ⟨ha, ?_⟩
  intro fuel hu
  obtain ⟨name, names, hu'⟩ := List.exists_cons_of_ne_nil hu
  obtain ⟨w', e1, -, -, -, -, -, -, htr⟩ := controller.notify_play fuel env false w name names hu'
  refine ⟨w', [.player_close, .player_open (main_window.play_data w)] ++
    open_player_events (env.player_open (main_window.play_data w)) ++
    play_settings_events env (main_window.play_data w) name ++
    [.in_out_widget_update (main_window.play_data w) true true,
      .controls_widget_update (main_window.play_data w) true true,
      .set_focus, .timer_start], ?_, ?_, ?_⟩
  · rw [controller.send_cmd_eq, ha, e1]
  · rw [htr]
    simp only [List.append_assoc, List.singleton_append, List.cons_append, List.nil_append]
  · intro e he
    simp only [List.mem_append, List.mem_cons, List.mem_singleton, List.not_mem_nil,
      or_false] at he
    rcases he with (((he | he) | he) | he) | he | he | he | he
    all_goals
      first
      | (subst he; simp [event.is_notify, event.is_player_receive_cmd])
      | exact ⟨(open_player_events_plain _ e he).1, (open_player_events_plain _ e he).2.1⟩
      | exact ⟨(play_settings_events_plain _ _ _ e he).1,
          (play_settings_events_plain _ _ _ e he).2.1⟩

/-- Witness for C1: a stopped window with `a.mp4` loaded receives `toggle_play`. -/
theorem player_qt_internal.receive_cmd_toggle_play_stopped_witness :
    (⟨.toggle_play, none⟩ : command).type = .toggle_play ∧
    stopped_window._player._playing = false ∧
    stopped_window._init_data.urls ≠ [] ∧
    ∃ w' rest, controller.send_cmd 1 (sample_environment mono_engine) ⟨.toggle_play, none⟩
        stopped_window = .ok w' ∧
      w'.trace = stopped_window.trace ++ .notify (notification.of_flag .play false true) :: rest ∧
      ∀ e ∈ rest, e.is_notify = false ∧ e.is_player_receive_cmd = false :=
  ⟨rfl, rfl, by simp [stopped_window, sample_init_data],
    (player_qt_internal.receive_cmd_toggle_play_stopped (sample_environment mono_engine)
      ⟨.toggle_play, none⟩ stopped_window rfl rfl).2 0
      (by simp [stopped_window, sample_init_data])⟩

/-- C2: while `_playing` is false a command other than `toggle_play` changes nothing at
all (no notification, no forwarding, `_playing` still false, the trace as before); while
`_playing` is true every command is handed unchanged to `player::receive_cmd` exactly
once and nothing else happens. Both hold whatever the bus does on `notify`. -/
theorem player_qt_internal.receive_cmd_otherwise (notify : notification → action)
    (cmd : command) (w : main_window) :
    (cmd.type ≠ .toggle_play → w._player._playing = false →
      player_qt_internal.receive_cmd notify cmd w = .ok w) ∧
    (w._player._playing = true →
      player_qt_internal.receive_cmd notify cmd w = .ok (w.emit (.player_receive_cmd cmd)) ∧
      (w.emit (.player_receive_cmd cmd)).trace = w.trace ++ [.player_receive_cmd cmd]) := by
  refine ⟨?_, ?_⟩
  · intro hc hp
    simp [player_qt_internal.receive_cmd, hc, hp]
  · intro hp
    simp [player_qt_internal.receive_cmd, hp]

/-- Witness for C2: a seek command received by a stopped and by a playing window. -/
theorem player_qt_internal.receive_cmd_otherwise_witness :
    ((⟨.seek, some 10⟩ : command).type ≠ .toggle_play ∧
      stopped_window._player._playing = false ∧
      player_qt_internal.receive_cmd (controller.notify 1 (sample_environment mono_engine))
        ⟨.seek, some 10⟩ stopped_window = .ok stopped_window) ∧
    (playing_window._player._playing = true ∧
      player_qt_internal.receive_cmd (controller.notify 1 (sample_environment mono_engine))
        ⟨.toggle_play, none⟩ playing_window =
          .ok (playing_window.emit (.player_receive_cmd ⟨.toggle_play, none⟩))) :=
  ⟨⟨by decide, rfl,
      (player_qt_internal.receive_cmd_otherwise
        (controller.notify 1 (sample_environment mono_engine)) ⟨.seek, some 10⟩
        stopped_window).1 (by decide) rfl⟩,
    ⟨rfl,
      ((player_qt_internal.receive_cmd_otherwise
        (controller.notify 1 (sample_environment mono_engine)) ⟨.toggle_play, none⟩
        playing_window).2 rfl).1⟩⟩

/-- C3: `main_window::receive_notification` on a `play` notification. With the current
flag true (and a source loaded, so that `current_file_hash` is defined) the engine is
closed first, then opened with the stored data in which both overrides are set and the
layout, audio stream and mode are those read from the in/out widget, and the last thing
done is to start the timer; nothing in between closes or opens the engine. With the
current flag false the timer is stopped and then the engine closed, and nothing else. -/
theorem main_window.receive_notification_play (env : environment)
    (send_cmd : command → action) (note : notification) (w : main_window)
    (ht : note.type = .play) :
    (note.current.flag = true → w._init_data.urls ≠ [] →
      ∃ w' mid, main_window.receive_notification env send_cmd note w = .ok w' ∧
        w'._init_data = { w._init_data with
          stereo_layout_override := true
          stereo_layout := (in_out_widget.input w._in_out_widget
            (w._init_data.stereo_layout, w._init_data.stereo_layout_swap)).1
          stereo_layout_swap := (in_out_widget.input w._in_out_widget
            (w._init_data.stereo_layout, w._init_data.stereo_layout_swap)).2
          audio_stream := in_out_widget.audio_stream w._in_out_widget
          stereo_mode_override := true
          stereo_mode := (in_out_widget.output w._in_out_widget
            (w._init_data.stereo_mode, w._init_data.stereo_mode_swap)).1
          stereo_mode_swap := (in_out_widget.output w._in_out_widget
            (w._init_data.stereo_mode, w._init_data.stereo_mode_swap)).2 } ∧
        w'.trace = w.trace ++ [.player_close, .player_open w'._init_data] ++ mid ++
          [.timer_start] ∧
        (∀ e ∈ mid, e ≠ .player_close ∧ ∀ d, e ≠ .player_open d) ∧
        w'._timer.active = true) ∧
    (note.current.flag = false →
      ∃ w', main_window.receive_notification env send_cmd note w = .ok w' ∧
        w'.trace = w.trace ++ [.timer_stop, .player_close] ∧
        w'._timer.active = false ∧ w'._player.is_open = false ∧
        w'._init_data = w._init_data ∧ w'._settings = w._settings) := by
  refine ⟨?_, ?_⟩
  · intro hf hu
    obtain ⟨name, names, hu'⟩ := List.exists_cons_of_ne_nil hu
    obtain ⟨w', e1, hd, htm, -, -, -, -, htr⟩ :=
      main_window.receive_notification_play_true env send_cmd note w name names ht hf hu'
    refine ⟨w', open_player_events (env.player_open (main_window.play_data w)) ++
      play_settings_events env (main_window.play_data w) name ++
      [.in_out_widget_update (main_window.play_data w) true true,
        .controls_widget_update (main_window.play_data w) true true, .set_focus],
      e1, hd, ?_, ?_, htm⟩
    · rw [htr, hd]
      simp only [List.append_assoc, List.singleton_append, List.cons_append, List.nil_append]
    · intro e he
      simp only [List.mem_append, List.mem_cons, List.mem_singleton, List.not_mem_nil,
        or_false] at he
      rcases he with (he | he) | he | he | he
      all_goals
        first
        | (subst he; simp)
        | exact ⟨(open_player_events_plain _ e he).2.2.2.2.1,
            (open_player_events_plain _ e he).2.2.2.2.2⟩
        | exact ⟨(play_settings_events_plain _ _ _ e he).2.2.2.1,
            (play_settings_events_plain _ _ _ e he).2.2.2.2⟩
  · intro hf
    refine ⟨player.close (main_window.timer_stop w), ?_, ?_, rfl, rfl, rfl, rfl⟩
    · simp [main_window.receive_notification, ht, hf]
    · simp

/-- Witness for C3: a stopped window with `a.mp4` loaded handles `play` going true, and a
playing window handles `play` going false. -/
theorem main_window.receive_notification_play_witness :
    (notification.of_flag .play false true).type = .play ∧
    (notification.of_flag .play false true).current.flag = true ∧
    stopped_window._init_data.urls ≠ [] ∧
    (∃ w' mid, main_window.receive_notification (sample_environment mono_engine)
        (controller.send_cmd 1 (sample_environment mono_engine))
        (notification.of_flag .play false true) stopped_window = .ok w' ∧
      w'._init_data = { stopped_window._init_data with
        stereo_layout_override := true
        stereo_layout := (in_out_widget.input stopped_window._in_out_widget
          (stopped_window._init_data.stereo_layout,
            stopped_window._init_data.stereo_layout_swap)).1
        stereo_layout_swap := (in_out_widget.input stopped_window._in_out_widget
          (stopped_window._init_data.stereo_layout,
            stopped_window._init_data.stereo_layout_swap)).2
        audio_stream := in_out_widget.audio_stream stopped_window._in_out_widget
        stereo_mode_override := true
        stereo_mode := (in_out_widget.output stopped_window._in_out_widget
          (stopped_window._init_data.stereo_mode,
            stopped_window._init_data.stereo_mode_swap)).1
        stereo_mode_swap := (in_out_widget.output stopped_window._in_out_widget
          (stopped_window._init_data.stereo_mode,
            stopped_window._init_data.stereo_mode_swap)).2 } ∧
      w'.trace = stopped_window.trace ++ [.player_close, .player_open w'._init_data] ++ mid ++
        [.timer_start] ∧
      (∀ e ∈ mid, e ≠ .player_close ∧ ∀ d, e ≠ .player_open d) ∧
      w'._timer.active = true) ∧
    (notification.of_flag .play true false).current.flag = false ∧
    (∃ w', main_window.receive_notification (sample_environment mono_engine)
        (controller.send_cmd 1 (sample_environment mono_engine))
        (notification.of_flag .play true false) playing_window = .ok w' ∧
      w'.trace = playing_window.trace ++ [.timer_stop, .player_close] ∧
      w'._timer.active = false ∧ w'._player.is_open = false ∧
      w'._init_data = playing_window._init_data ∧ w'._settings = playing_window._settings) :=
  ⟨rfl, rfl, by simp [stopped_window, sample_init_data],
    (main_window.receive_notification_play (sample_environment mono_engine)
      (controller.send_cmd 1 (sample_environment mono_engine))
      (notification.of_flag .play false true) stopped_window rfl).1 rfl
      (by simp [stopped_window, sample_init_data]),
    rfl,
    (main_window.receive_notification_play (sample_environment mono_engine)
      (controller.send_cmd 1 (sample_environment mono_engine))
      (notification.of_flag .play true false) playing_window rfl).2 rfl⟩

/-- C4 (the code at the failing input): `force_stop` called on a window that is playing
sends a `play` notification whose previous flag is false, although `_playing` was true
immediately before. -/
theorem player_qt_internal.force_stop_previous_flag_while_playing :
    playing_window._player._playing = true ∧
    ∃ w', player_qt_internal.force_stop (controller.notify 1 (sample_environment mono_engine))
        playing_window = .ok w' ∧
      w'.trace.head? = some (.notify ⟨.play, ⟨false, 0⟩, ⟨false, 0⟩⟩) := by
  refine ⟨rfl, ?_⟩
  obtain ⟨w', e1, -, -, -, -, -, -, -, -, -, rest, htr, -⟩ :=
    controller.notify_stop 0 (sample_environment mono_engine) false playing_window
  refine ⟨w', e1, ?_⟩
  rw [htr]
  rfl

/-- C5 (counterexample): opening `b.mp4` in a stopped window puts a `notify` call, the
`play` notification of `force_stop`, into the trace. -/
theorem main_window.open_emits_notification :
    ∃ w', main_window.open 1 (sample_environment mono_engine) ["b.mp4"] stopped_window = .ok w' ∧
      event.notify (notification.of_flag .play false false) ∈ w'.trace := by
  obtain ⟨w', rest, e1, -, -, -, -, -, -, -, -, -, htr, -⟩ :=
    main_window.open_opened 0 (sample_environment mono_engine) "b.mp4" [] stopped_window
      ⟨.mono, false, .mono_left, false⟩ rfl
  refine ⟨w', e1, ?_⟩
  rw [htr]
  simp

/-- C5 (amended): `main_window::open` of a non-empty list of file names makes exactly one
`notify` call, the `play` notification with both flags false that `force_stop` sends at
its start; after it no further notification is emitted, and the only direct widget
re-syncs are the `in_out_widget::update` and `controls_widget::update` calls with the new
data, made when `open_player` succeeded (none when it failed). -/
theorem main_window.open_notifies_once (fuel : Nat) (env : environment) (name : String)
    (names : List String) (w : main_window) :
    ∃ w' rest, main_window.open (fuel + 1) env (name :: names) w = .ok w' ∧
      w'.trace = w.trace ++ .notify (notification.of_flag .play false false) :: rest ∧
      (∀ e ∈ rest, e.is_notify = false) ∧
      rest.filter event.is_update =
        (match env.player_open (main_window.open_data w (name :: names)) with
          | .threw _ => []
          | .opened _ => [.in_out_widget_update w'._init_data true false,
              .controls_widget_update w'._init_data true false]) := by
  rcases h : env.player_open (main_window.open_data w (name :: names)) with what | info
  · obtain ⟨w', rest, e1, -, -, -, -, -, -, -, -, htr, hrest⟩ :=
      main_window.open_threw fuel env (name :: names) w what h
    refine ⟨w', [.timer_stop, .player_close] ++ rest ++
      [.player_close, .player_open (main_window.open_data w (name :: names)),
        .message_box what], e1, ?_, ?_, ?_⟩
    · rw [htr]; simp
    · rcases hrest with hr | hr <;> subst hr <;> simp [event.is_notify]
    · rcases hrest with hr | hr <;> subst hr <;> simp [event.is_update]
  · obtain ⟨w', rest, e1, -, -, -, -, -, -, -, -, -, htr, hrest⟩ :=
      main_window.open_opened fuel env name names w info h
    refine ⟨w', [.timer_stop, .player_close] ++ rest ++
      [.player_close, .player_open (main_window.open_data w (name :: names)), .adjust_size,
        .in_out_widget_update w'._init_data true false,
        .controls_widget_update w'._init_data true false], e1, ?_, ?_, ?_⟩
    · rw [htr]; simp
    · rcases hrest with hr | hr <;> subst hr <;> simp [event.is_notify]
    · rcases hrest with hr | hr <;> subst hr <;> simp [event.is_update]

/-- C6 (counterexample): `force_stop` on a playing window, whose timer runs and whose
engine is open, returns with the timer stopped and the engine closed, and without having
set `_stop_request`. -/
theorem player_qt_internal.force_stop_is_immediate :
    playing_window._timer.active = true ∧ playing_window._player.is_open = true ∧
    ∃ w', player_qt_internal.force_stop (controller.notify 1 (sample_environment mono_engine))
        playing_window = .ok w' ∧
      w'._timer.active = false ∧ w'._player.is_open = false ∧ w'._stop_request = false := by
  refine ⟨rfl, rfl, ?_⟩
  obtain ⟨w', e1, ht, -, -, ho, -, hs, -, -, -, -, -, -⟩ :=
    controller.notify_stop 0 (sample_environment mono_engine) false playing_window
  exact ⟨w', e1, ht, ho, hs⟩

/-- C6 (amended): `force_stop` takes effect at once. Its `play` notification with current
flag false is delivered synchronously, so that when `force_stop` returns the step timer
has been stopped and the engine closed by `main_window::receive_notification`, and
neither the internal player nor the controls widget counts as playing; `force_stop`
records no stop request (`_stop_request` is as before). -/
theorem player_qt_internal.force_stop_stops_at_once (fuel : Nat) (env : environment)
    (w : main_window) :
    ∃ w' rest, player_qt_internal.force_stop (controller.notify (fuel + 1) env) w = .ok w' ∧
      w'._timer.active = false ∧ w'._player.is_open = false ∧
      w'._player._playing = false ∧ w'._controls_widget._playing = false ∧
      w'._stop_request = w._stop_request ∧
      w'.trace = w.trace ++ [.notify (notification.of_flag .play false false),
        .timer_stop, .player_close] ++ rest ∧
      (rest = [] ∨ rest = [.player_receive_cmd ⟨.set_pos, some 0⟩]) := by
  obtain ⟨w', e1, ht, hp, hc, ho, -, hs, -, -, -, rest, htr, hrest⟩ :=
    controller.notify_stop fuel env false w
  exact ⟨w', rest, e1, ht, ho, hp, hc, hs, htr, hrest⟩

/-- C7: `main_window::playloop_step` with `_stop_request` false asks the engine for
exactly one step; it always returns normally; the timer is stopped exactly when the step
returned false or threw, and is left as it was when the step returned true; a thrown
exception is shown in a message box; the engine is not closed and `_stop_request` stays
false. -/
theorem main_window.playloop_step_running (fuel : Nat) (env : environment)
    (step : step_result) (w : main_window) (h : w._stop_request = false) :
    ∃ w', main_window.playloop_step fuel env step w = .ok w' ∧
      w'.trace = w.trace ++ .player_run_step ::
        (match step with
          | .returned true => []
          | .returned false => [.timer_stop]
          | .threw what => [.message_box what, .timer_stop]) ∧
      w'._timer =
        (match step with
          | .returned true => w._timer
          | .returned false => ⟨false⟩
          | .threw _ => ⟨false⟩) ∧
      w'._player = w._player ∧ w'._stop_request = false ∧
      w'._init_data = w._init_data ∧ w'._settings = w._settings := by
  rcases step with what | r
  · exact ⟨_, by simp [main_window.playloop_step, h, player_qt_internal.playloop_step]; rfl,
      by simp, by simp, by simp, by simp [h], by simp, by simp⟩
  · cases r
    · exact ⟨_, by simp [main_window.playloop_step, h, player_qt_internal.playloop_step]; rfl,
        by simp, by simp, by simp, by simp [h], by simp, by simp⟩
    · exact ⟨_, by simp [main_window.playloop_step, h, player_qt_internal.playloop_step]; rfl,
        by simp, by simp, by simp, by simp [h], by simp, by simp⟩

/-- Witness for C7: a playing window whose engine step throws. -/
theorem main_window.playloop_step_running_witness :
    playing_window._stop_request = false ∧
    ∃ w', main_window.playloop_step 1 (sample_environment mono_engine) (.threw "decode error")
        playing_window = .ok w' ∧
      w'.trace = playing_window.trace ++ .player_run_step ::
        (match step_result.threw "decode error" with
          | .returned true => []
          | .returned false => [.timer_stop]
          | .threw what => [.message_box what, .timer_stop]) ∧
      w'._timer =
        (match step_result.threw "decode error" with
          | .returned true => playing_window._timer
          | .returned false => ⟨false⟩
          | .threw _ => ⟨false⟩) ∧
      w'._player = playing_window._player ∧ w'._stop_request = false ∧
      w'._init_data = playing_window._init_data ∧ w'._settings = playing_window._settings :=
  ⟨rfl, main_window.playloop_step_running 1 (sample_environment mono_engine)
    (.threw "decode error") playing_window rfl⟩

/-- C8: `main_window::playloop_step` with `_stop_request` true does not ask the engine
for a step: it stops the timer, calls `force_stop` once (one `play` notification with
current flag false, on whose delivery the main window stops the timer again and closes
the engine), and clears `_stop_request`. -/
theorem main_window.playloop_step_stop_request (fuel : Nat) (env : environment)
    (step : step_result) (w : main_window) (h : w._stop_request = true) :
    ∃ w' rest, main_window.playloop_step (fuel + 1) env step w = .ok w' ∧
      w'._stop_request = false ∧ w'._timer.active = false ∧
      w'.trace = w.trace ++ [.timer_stop, .notify (notification.of_flag .play false false),
        .timer_stop, .player_close] ++ rest ∧
      (rest = [] ∨ rest = [.player_receive_cmd ⟨.set_pos, some 0⟩]) ∧
      event.player_run_step ∉ w'.trace.drop w.trace.length := by
  obtain ⟨w1, e1, ht, -, -, -, -, -, -, -, -, rest, htr, hrest⟩ :=
    controller.notify_stop fuel env false (main_window.timer_stop w)
  refine ⟨{ w1 with _stop_request := false }, rest, ?_, rfl, ht, ?_, hrest, ?_⟩
  · simp only [main_window.playloop_step, h, if_true, player_qt_internal.force_stop, e1,
      Except.ok_bind]
  · simp [htr]
  · simp only [htr, timer_stop_trace, List.append_assoc, List.drop_left]
    rcases hrest with hr | hr <;> subst hr <;> simp

/-- Witness for C8: a window whose play-time open failed (the timer runs, `_stop_request`
is set) gets its next timer tick. -/
theorem main_window.playloop_step_stop_request_witness :
    ({ playing_window with _stop_request := true } : main_window)._stop_request = true ∧
    ∃ w' rest, main_window.playloop_step 1 (sample_environment failing_engine)
        (.returned true) { playing_window with _stop_request := true } = .ok w' ∧
      w'._stop_request = false ∧ w'._timer.active = false ∧
      w'.trace = ({ playing_window with _stop_request := true } : main_window).trace ++
        [.timer_stop, .notify (notification.of_flag .play false false),
          .timer_stop, .player_close] ++ rest ∧
      (rest = [] ∨ rest = [.player_receive_cmd ⟨.set_pos, some 0⟩]) ∧
      event.player_run_step ∉
        w'.trace.drop ({ playing_window with _stop_request := true } : main_window).trace.length :=
  ⟨rfl, main_window.playloop_step_stop_request 0 (sample_environment failing_engine)
    (.returned true) { playing_window with _stop_request := true } rfl⟩

/-- C9: `main_window::open` of a non-empty list of file names releases the old session
before it acquires the new one: the trace gains the notification of `force_stop` (on
whose delivery the timer is stopped and the engine closed), then the `close` call of
`open` itself, and only then the `player::open` call, which is the only one; and whether
that call succeeds or throws, afterwards neither the internal player nor the controls
widget counts as playing and the timer is stopped. -/
theorem main_window.open_releases_first (fuel : Nat) (env : environment) (name : String)
    (names : List String) (w : main_window) :
    ∃ w' rest post, main_window.open (fuel + 1) env (name :: names) w = .ok w' ∧
      w'.trace = w.trace ++ [.notify (notification.of_flag .play false false),
        .timer_stop, .player_close] ++ rest ++
        [.player_close, .player_open (main_window.open_data w (name :: names))] ++ post ∧
      (rest = [] ∨ rest = [.player_receive_cmd ⟨.set_pos, some 0⟩]) ∧
      (∀ e ∈ post, ∀ d, e ≠ .player_open d) ∧
      w'._player._playing = false ∧ w'._controls_widget._playing = false ∧
      w'._timer.active = false := by
  rcases h : env.player_open (main_window.open_data w (name :: names)) with what | info
  · obtain ⟨w', rest, e1, -, -, -, -, hp, hc, ht, -, htr, hrest⟩ :=
      main_window.open_threw fuel env (name :: names) w what h
    refine ⟨w', rest, [.message_box what], e1, ?_, hrest, ?_, hp, hc, ht⟩
    · rw [htr]; simp
    · simp
  · obtain ⟨w', rest, e1, -, -, -, -, hp, hc, ht, -, -, htr, hrest⟩ :=
      main_window.open_opened fuel env name names w info h
    refine ⟨w', rest, [.adjust_size, .in_out_widget_update w'._init_data true false,
      .controls_widget_update w'._init_data true false], e1, ?_, hrest, ?_, hp, hc, ht⟩
    · rw [htr]; simp
    · simp

/-- C10 (counterexample): a window holding `a.mp4` fails to open `b.mp4`; afterwards its
stored source list is the failed one, not the one it held before. -/
theorem main_window.open_failure_keeps_failed_urls :
    stopped_window._init_data.urls = ["a.mp4"] ∧
    ∃ w', main_window.open 1 (sample_environment failing_engine) ["b.mp4"] stopped_window
        = .ok w' ∧
      w'._init_data.urls = ["b.mp4"] ∧ w'._init_data ≠ stopped_window._init_data := by
  refine ⟨rfl, ?_⟩
  obtain ⟨w', rest, e1, hd, -, -, -, -, -, -, -, -, -⟩ :=
    main_window.open_threw 0 (sample_environment failing_engine) ["b.mp4"] stopped_window
      "cannot open" rfl
  refine ⟨w', e1, ?_, ?_⟩
  · rw [hd]; rfl
  · rw [hd]
    intro hcon
    have := congrArg player_init_data.urls hcon
    simp [main_window.open_data, stopped_window, sample_init_data] at this

/-- C10 (amended): if `open_player` fails inside `main_window::open`, the stored
`_init_data` afterwards is the template with its source list replaced by the file names
that failed to open (so the failed list is retained and the data held before the call is
not restored); nothing else of a session is kept: the settings store and the template
are as before and no widget is re-synced. -/
theorem main_window.open_failure_data (fuel : Nat) (env : environment)
    (filenames : List String) (w : main_window) (what : String)
    (h : env.player_open { w._init_data_template with urls := filenames } = .threw what) :
    ∃ w' new, main_window.open (fuel + 1) env filenames w = .ok w' ∧
      w'._init_data = { w._init_data_template with urls := filenames } ∧
      w'._init_data_template = w._init_data_template ∧
      w'._settings = w._settings ∧
      w'.trace = w.trace ++ new ∧ (∀ e ∈ new, e.is_update = false) := by
  obtain ⟨w', rest, e1, hd, htm, hset, -, -, -, -, -, htr, hrest⟩ :=
    main_window.open_threw fuel env filenames w what h
  refine ⟨w', [.notify (notification.of_flag .play false false), .timer_stop,
    .player_close] ++ rest ++ [.player_close,
      .player_open (main_window.open_data w filenames), .message_box what],
    e1, hd, htm, hset, ?_, ?_⟩
  · rw [htr]; simp
  · rcases hrest with hr | hr <;> subst hr <;> simp [event.is_update]

/-- Witness for C10 (amended): a window holding `a.mp4` fails to open `b.mp4`. -/
theorem main_window.open_failure_data_witness :
    (sample_environment failing_engine).player_open
        { stopped_window._init_data_template with urls := ["b.mp4"] } = .threw "cannot open" ∧
    ∃ w' new, main_window.open 1 (sample_environment failing_engine) ["b.mp4"] stopped_window
        = .ok w' ∧
      w'._init_data = { stopped_window._init_data_template with urls := ["b.mp4"] } ∧
      w'._init_data_template = stopped_window._init_data_template ∧
      w'._settings = stopped_window._settings ∧
      w'.trace = stopped_window.trace ++ new ∧ (∀ e ∈ new, e.is_update = false) :=
  ⟨rfl, main_window.open_failure_data 0 (sample_environment failing_engine) ["b.mp4"]
    stopped_window "cannot open" rfl⟩


/-! ## The settings store -/

theorem QSettings.lookup_setValue_same (s : QSettings) (key value : String) :
    QSettings.lookup (QSettings.setValue s key value) key = some value := by
  simp [QSettings.lookup, QSettings.setValue]

theorem QSettings.lookup_setValue_other (s : QSettings) (key value other : String)
    (h : other ≠ key) :
    QSettings.lookup (QSettings.setValue s key value) other = QSettings.lookup s other := by
  have hk : (key == other) = false := by
    simpa using fun e : key = other => h e.symm
  simp only [QSettings.lookup, QSettings.setValue, List.find?_cons, hk]
  congr 1
  induction s with
  | nil => rfl
  | cons kv s ih =>
    by_cases e : kv.1 = key
    · have e1 : (kv.1 == other) = false := by
        simpa [e] using fun e2 : key = other => h e2.symm
      rw [List.filter_cons_of_neg (by simp [e]), List.find?_cons, e1, ih]
    · have e3 : List.filter (fun kv : String × String => !(kv.1 == key)) (kv :: s) =
          kv :: List.filter (fun kv : String × String => !(kv.1 == key)) s := by
        simp [List.filter_cons, e]
      rw [e3, List.find?_cons, List.find?_cons, ih]

theorem QSettings.value_of_lookup (s : QSettings) (key value defaultValue : String)
    (h : QSettings.lookup s key = some value) :
    QSettings.value s key defaultValue = value := by
  simp [QSettings.value, h]

theorem QSettings.value_of_lookup_none (s : QSettings) (key defaultValue : String)
    (h : QSettings.lookup s key = none) :
    QSettings.value s key defaultValue = defaultValue := by
  simp [QSettings.value, h]

/-! ## Keys -/

theorem String.append_left_cancel (a b c : String) (h : a ++ b = a ++ c) : b = c := by
  have := congrArg String.data h
  simp only [String.data_append] at this
  exact String.ext (List.append_cancel_left this)

theorem video_key_ne_session (hash item rest : String) :
    "Video/" ++ hash ++ item ≠ "Session/" ++ rest := by
  intro h
  have := congrArg String.data h
  simp [String.data_append] at this

theorem video_key_inj (hash a b : String)
    (h : "Video/" ++ hash ++ a = "Video/" ++ hash ++ b) : a = b :=
  String.append_left_cancel _ _ _ h

theorem session_mode_key_eq (l : stereo_layout_t) :
    session_mode_key l = "Session/" ++ (if l = .mono then "2d-stereo-mode" else "3d-stereo-mode") := by
  unfold session_mode_key; split_ifs <;> rfl

theorem other_session_mode_key_eq (l : stereo_layout_t) :
    other_session_mode_key l =
      "Session/" ++ (if l = .mono then "3d-stereo-mode" else "2d-stereo-mode") := by
  unfold other_session_mode_key; split_ifs <;> rfl

theorem other_session_mode_key_ne (l : stereo_layout_t) :
    other_session_mode_key l ≠ session_mode_key l := by
  unfold other_session_mode_key session_mode_key; split_ifs <;> decide

/-! ## The sample codecs -/

theorem decimal_to_string_zero : decimal_to_string 0 = "0" := by
  simp [decimal_to_string]

theorem decimal_to_string_tenth : decimal_to_string (1 / 10) = "0.1" := by
  unfold decimal_to_string; norm_num

theorem decimal_to_string_half : decimal_to_string (1 / 2) = "0.5" := by
  unfold decimal_to_string; norm_num

theorem decimal_of_string_zero : decimal_of_string "0" = 0 := by
  unfold decimal_of_string
  rw [if_neg (by decide), if_neg (by decide), if_neg (by decide), if_neg (by decide)]

theorem decimal_of_string_tenth : decimal_of_string "0.1" = 1 / 10 := by
  unfold decimal_of_string
  rw [if_pos rfl]

theorem decimal_of_string_parallax : decimal_of_string "0.37" = 37 / 100 := by
  unfold decimal_of_string
  rw [if_neg (by decide), if_pos rfl]

theorem decimal_of_string_half : decimal_of_string "0.5" = 1 / 2 := by
  unfold decimal_of_string
  rw [if_neg (by decide), if_neg (by decide), if_pos rfl]

/-! ## What `main_window::open` stores after a successful open -/

theorem main_window.opened_data_layout (env : environment) (settings : QSettings)
    (d : player_init_data) (info : media_info) (hash : String) :
    ((main_window.opened_data env settings d info hash).stereo_layout,
      (main_window.opened_data env settings d info hash).stereo_layout_swap) =
      env.stereo_layout_from_string
        (QSettings.value settings ("Video/" ++ hash ++ "/stereo-layout")
          (env.stereo_layout_to_string info.stereo_layout info.stereo_layout_swap))
        (d.stereo_layout, d.stereo_layout_swap) := rfl

theorem main_window.opened_data_audio_stream (env : environment) (settings : QSettings)
    (d : player_init_data) (info : media_info) (hash : String) :
    (main_window.opened_data env settings d info hash).audio_stream =
      env.string_to_int (QSettings.value settings ("Video/" ++ hash ++ "/audio-stream")
        (env.int_to_string d.audio_stream)) := rfl

theorem main_window.opened_data_params (env : environment) (settings : QSettings)
    (d : player_init_data) (info : media_info) (hash : String) :
    (main_window.opened_data env settings d info hash).params =
      env.set_defaults ((d.params.set_parallax
        (env.string_to_float (QSettings.value settings ("Video/" ++ hash ++ "/parallax")
          (env.float_to_string d.params.parallax)))).set_ghostbust
        (env.string_to_float (QSettings.value settings ("Video/" ++ hash ++ "/ghostbust")
          (env.float_to_string d.params.ghostbust)))) := rfl

theorem main_window.opened_data_mode (env : environment) (settings : QSettings)
    (d : player_init_data) (info : media_info) (hash : String) :
    ((main_window.opened_data env settings d info hash).stereo_mode,
      (main_window.opened_data env settings d info hash).stereo_mode_swap) =
      env.stereo_mode_from_string
        (QSettings.value settings
          (session_mode_key (main_window.opened_data env settings d info hash).stereo_layout)
          (env.stereo_mode_to_string info.stereo_mode info.stereo_mode_swap))
        (d.stereo_mode, d.stereo_mode_swap) := rfl

theorem main_window.opened_data_overrides (env : environment) (settings : QSettings)
    (d : player_init_data) (info : media_info) (hash : String) :
    (main_window.opened_data env settings d info hash).stereo_layout_override = true ∧
    (main_window.opened_data env settings d info hash).stereo_mode_override = true :=
  ⟨rfl, rfl⟩

theorem main_window.opened_data_urls (env : environment) (settings : QSettings)
    (d : player_init_data) (info : media_info) (hash : String) :
    (main_window.opened_data env settings d info hash).urls = d.urls := rfl

theorem main_window.open_data_params (w : main_window) (filenames : List String) :
    (main_window.open_data w filenames).params = w._init_data_template.params := rfl

theorem main_window.open_data_layout (w : main_window) (filenames : List String) :
    ((main_window.open_data w filenames).stereo_layout,
      (main_window.open_data w filenames).stereo_layout_swap) =
    (w._init_data_template.stereo_layout, w._init_data_template.stereo_layout_swap) := rfl

theorem main_window.open_data_mode (w : main_window) (filenames : List String) :
    ((main_window.open_data w filenames).stereo_mode,
      (main_window.open_data w filenames).stereo_mode_swap) =
    (w._init_data_template.stereo_mode, w._init_data_template.stereo_mode_swap) := rfl

theorem main_window.open_data_audio_stream (w : main_window) (filenames : List String) :
    (main_window.open_data w filenames).audio_stream = w._init_data_template.audio_stream :=
  rfl

/-! ## C11: the per-file record is applied -/

/-- C11: `main_window::open` of a file that the engine opens and whose `Video/<hash>` group
holds `stereo-layout`, `audio-stream`, `parallax` and `ghostbust` returns, and afterwards
the input layout and swap of `_init_data` are the stored layout string decoded, the audio
stream, parallax and ghostbust are the stored strings converted to numbers, both
overrides are true, and the last two things done are the updates of the in/out widget and
of the controls widget from that `_init_data` with `have_valid_input` true and `playing`
false. The final `set_defaults`, which is not part of the sources at hand, is assumed to
keep a parallax and a ghostbust that have the stored values. -/
theorem main_window.open_applies_record (fuel : Nat) (env : environment) (name : String)
    (names : List String) (w : main_window) (info : media_info)
    (layout audio parallax ghostbust : String)
    (h : env.player_open (main_window.open_data w (name :: names)) = .opened info)
    (hl : QSettings.lookup w._settings ("Video/" ++ env.file_hash name ++ "/stereo-layout")
      = some layout)
    (ha : QSettings.lookup w._settings ("Video/" ++ env.file_hash name ++ "/audio-stream")
      = some audio)
    (hp : QSettings.lookup w._settings ("Video/" ++ env.file_hash name ++ "/parallax")
      = some parallax)
    (hg : QSettings.lookup w._settings ("Video/" ++ env.file_hash name ++ "/ghostbust")
      = some ghostbust)
    (hdef : ∀ p : parameters, p.parallax = env.string_to_float parallax →
      p.ghostbust = env.string_to_float ghostbust →
      (env.set_defaults p).parallax = p.parallax ∧
      (env.set_defaults p).ghostbust = p.ghostbust) :
    ∃ w' before, main_window.open (fuel + 1) env (name :: names) w = .ok w' ∧
      (w'._init_data.stereo_layout, w'._init_data.stereo_layout_swap) =
        env.stereo_layout_from_string layout
          (w._init_data_template.stereo_layout, w._init_data_template.stereo_layout_swap) ∧
      w'._init_data.audio_stream = env.string_to_int audio ∧
      w'._init_data.params.parallax = env.string_to_float parallax ∧
      w'._init_data.params.ghostbust = env.string_to_float ghostbust ∧
      w'._init_data.stereo_layout_override = true ∧
      w'._init_data.stereo_mode_override = true ∧
      w'.trace = before ++ [.in_out_widget_update w'._init_data true false,
        .controls_widget_update w'._init_data true false] := by
  obtain ⟨w', rest, e1, hd, -, -, -, -, -, -, -, -, htr, -⟩ :=
    main_window.open_opened fuel env name names w info h
  have hpar := hdef ((((main_window.open_data w (name :: names)).params.set_parallax
      (env.string_to_float parallax))).set_ghostbust (env.string_to_float ghostbust)) rfl rfl
  refine ⟨w', w.trace ++ [.notify (notification.of_flag .play false false),
      .timer_stop, .player_close] ++ rest ++
      [.player_close, .player_open (main_window.open_data w (name :: names)),
        .adjust_size], e1, ?_, ?_, ?_, ?_, ?_, ?_, ?_⟩
  · rw [hd, main_window.opened_data_layout, QSettings.value_of_lookup _ _ _ _ hl,
      main_window.open_data_layout]
  · rw [hd, main_window.opened_data_audio_stream, QSettings.value_of_lookup _ _ _ _ ha]
  · rw [hd, main_window.opened_data_params, QSettings.value_of_lookup _ _ _ _ hp,
      QSettings.value_of_lookup _ _ _ _ hg, hpar.1]
    rfl
  · rw [hd, main_window.opened_data_params, QSettings.value_of_lookup _ _ _ _ hp,
      QSettings.value_of_lookup _ _ _ _ hg, hpar.2]
    rfl
  · rw [hd]; rfl
  · rw [hd]; rfl
  · rw [htr]; simp

/-- Witness for C11: `b.mp4` is opened in a window whose settings hold its record. -/
theorem main_window.open_applies_record_witness :
    ∃ w' before, main_window.open 1 (decimal_environment mono_engine) ["b.mp4"] record_window
        = .ok w' ∧
      (w'._init_data.stereo_layout, w'._init_data.stereo_layout_swap) =
        (decimal_environment mono_engine).stereo_layout_from_string "left-right"
          (record_window._init_data_template.stereo_layout,
            record_window._init_data_template.stereo_layout_swap) ∧
      w'._init_data.audio_stream = (decimal_environment mono_engine).string_to_int "1" ∧
      w'._init_data.params.parallax =
        (decimal_environment mono_engine).string_to_float "0.37" ∧
      w'._init_data.params.ghostbust =
        (decimal_environment mono_engine).string_to_float "0.5" ∧
      w'._init_data.stereo_layout_override = true ∧
      w'._init_data.stereo_mode_override = true ∧
      w'.trace = before ++ [.in_out_widget_update w'._init_data true false,
        .controls_widget_update w'._init_data true false] :=
  main_window.open_applies_record 0 (decimal_environment mono_engine) "b.mp4" []
    record_window ⟨.mono, false, .mono_left, false⟩ "left-right" "1" "0.37" "0.5"
    rfl (by decide) (by decide) (by decide) (by decide) (fun _ _ _ => ⟨rfl, rfl⟩)

/-! ## C12: a file without a per-file record -/

/-- C12 (counterexample): the template holds a parallax of one half and a ghostbusting of
one tenth and the settings store is empty, so `b.mp4` has no record; after
`main_window::open` the parallax is one half and the ghostbusting one tenth, not 0. -/
theorem main_window.open_without_record_keeps_template :
    parallax_window._settings = [] ∧
    ∃ w', main_window.open 1 (decimal_environment mono_engine) ["b.mp4"] parallax_window
        = .ok w' ∧
      w'._init_data.params.parallax = 1 / 2 ∧ w'._init_data.params.ghostbust = 1 / 10 := by
  obtain ⟨w', rest, e1, hd, -⟩ := main_window.open_opened 0 (decimal_environment mono_engine)
    "b.mp4" [] parallax_window ⟨.mono, false, .mono_left, false⟩ rfl
  have hp : decimal_of_string (QSettings.value []
      ("Video/" ++ (decimal_environment mono_engine).file_hash "b.mp4" ++ "/parallax")
      (decimal_to_string (1 / 2))) = 1 / 2 := by
    rw [QSettings.value_of_lookup_none [] _ _ rfl, decimal_to_string_half,
      decimal_of_string_half]
  have hg : decimal_of_string (QSettings.value []
      ("Video/" ++ (decimal_environment mono_engine).file_hash "b.mp4" ++ "/ghostbust")
      (decimal_to_string (1 / 10))) = 1 / 10 := by
    rw [QSettings.value_of_lookup_none [] _ _ rfl, decimal_to_string_tenth,
      decimal_of_string_tenth]
  refine ⟨rfl, w', e1, ?_, ?_⟩
  · rw [hd, main_window.opened_data_params]
    exact hp
  · rw [hd, main_window.opened_data_params]
    exact hg

/-- C12 (amended): `main_window::open` of a file that the engine opens and that has no
per-file record returns, and afterwards `_init_data` has the stereo layout and swap the
engine detected, and its parameters are those of the initial-parameter template completed
by `set_defaults`: parallax and ghostbust are the template's, and 0 only if that is what
the template completed by `set_defaults` holds. The string encodings are assumed to give
back the detected layout and the two template values. -/
theorem main_window.open_without_record (fuel : Nat) (env : environment) (name : String)
    (names : List String) (w : main_window) (info : media_info)
    (h : env.player_open (main_window.open_data w (name :: names)) = .opened info)
    (hl : QSettings.lookup w._settings ("Video/" ++ env.file_hash name ++ "/stereo-layout")
      = none)
    (hp : QSettings.lookup w._settings ("Video/" ++ env.file_hash name ++ "/parallax")
      = none)
    (hg : QSettings.lookup w._settings ("Video/" ++ env.file_hash name ++ "/ghostbust")
      = none)
    (hcodec : env.stereo_layout_from_string
      (env.stereo_layout_to_string info.stereo_layout info.stereo_layout_swap)
      (w._init_data_template.stereo_layout, w._init_data_template.stereo_layout_swap) =
      (info.stereo_layout, info.stereo_layout_swap))
    (hpf : env.string_to_float (env.float_to_string w._init_data_template.params.parallax)
      = w._init_data_template.params.parallax)
    (hgf : env.string_to_float (env.float_to_string w._init_data_template.params.ghostbust)
      = w._init_data_template.params.ghostbust) :
    ∃ w', main_window.open (fuel + 1) env (name :: names) w = .ok w' ∧
      w'._init_data.stereo_layout = info.stereo_layout ∧
      w'._init_data.stereo_layout_swap = info.stereo_layout_swap ∧
      w'._init_data.params = env.set_defaults w._init_data_template.params := by
  obtain ⟨w', rest, e1, hd, -⟩ := main_window.open_opened fuel env name names w info h
  have hlay := main_window.opened_data_layout env w._settings
    (main_window.open_data w (name :: names)) info (env.file_hash name)
  rw [QSettings.value_of_lookup_none _ _ _ hl, main_window.open_data_layout, hcodec,
    ← hd] at hlay
  refine ⟨w', e1, congrArg Prod.fst hlay, congrArg Prod.snd hlay, ?_⟩
  rw [hd, main_window.opened_data_params, QSettings.value_of_lookup_none _ _ _ hp,
    QSettings.value_of_lookup_none _ _ _ hg, main_window.open_data_params, hpf, hgf]
  rfl

/-- Witness for C12 (amended): the window whose template holds a parallax of one half
opens `b.mp4`, which has no record. -/
theorem main_window.open_without_record_witness :
    ∃ w', main_window.open 1 (decimal_environment mono_engine) ["b.mp4"] parallax_window
        = .ok w' ∧
      w'._init_data.stereo_layout = .mono ∧
      w'._init_data.stereo_layout_swap = false ∧
      w'._init_data.params = (decimal_environment mono_engine).set_defaults
        parallax_window._init_data_template.params :=
  main_window.open_without_record 0 (decimal_environment mono_engine) "b.mp4" []
    parallax_window ⟨.mono, false, .mono_left, false⟩ rfl rfl rfl rfl (by decide)
    (by
      show decimal_of_string (decimal_to_string (1 / 2)) = 1 / 2
      rw [decimal_to_string_half, decimal_of_string_half])
    (by
      show decimal_of_string (decimal_to_string (1 / 10)) = 1 / 10
      rw [decimal_to_string_tenth, decimal_of_string_tenth])

/-! ## C13: the session key read by `main_window::open` -/

/-- C13 (counterexample): the engine detects a 2D input, the record of `b.mp4` holds the
layout `left-right`, the key `Session/2d-stereo-mode` holds `mono-right` and the key
`Session/3d-stereo-mode` holds `red-cyan-dubois`; after `main_window::open` the output mode
is the one of the 3D key. -/
theorem main_window.open_reads_key_of_record :
    (decimal_environment mono_engine).player_open
        (main_window.open_data record_window ["b.mp4"]) =
      .opened ⟨.mono, false, .mono_left, false⟩ ∧
    QSettings.lookup record_window._settings "Session/2d-stereo-mode" = some "mono-right" ∧
    QSettings.lookup record_window._settings "Session/3d-stereo-mode" =
      some "red-cyan-dubois" ∧
    (decimal_environment mono_engine).stereo_mode_from_string "mono-right"
      (.mono_left, false) = (.mono_right, false) ∧
    ∃ w', main_window.open 1 (decimal_environment mono_engine) ["b.mp4"] record_window
        = .ok w' ∧
      w'._init_data.stereo_layout = .left_right ∧
      w'._init_data.stereo_mode = .anaglyph_red_cyan_dubois := by
  obtain ⟨w', rest, e1, hd, -⟩ := main_window.open_opened 0 (decimal_environment mono_engine)
    "b.mp4" [] record_window ⟨.mono, false, .mono_left, false⟩ rfl
  refine ⟨rfl, by decide, by decide, by decide, w', e1, ?_, ?_⟩
  · rw [hd]; decide
  · rw [hd]; decide

/-- C13 (amended): `main_window::open` chooses the session-wide output-mode default by the
input layout it has just stored in `_init_data`, which is the persisted per-file layout
if the file has one and the layout the engine detected otherwise: after a successful open
the output mode and swap are decoded from the value of `Session/2d-stereo-mode` when that
layout is mono and of `Session/3d-stereo-mode` otherwise, with the engine's output mode as
the fallback. -/
theorem main_window.open_session_mode_key (fuel : Nat) (env : environment) (name : String)
    (names : List String) (w : main_window) (info : media_info)
    (h : env.player_open (main_window.open_data w (name :: names)) = .opened info) :
    ∃ w', main_window.open (fuel + 1) env (name :: names) w = .ok w' ∧
      (w'._init_data.stereo_layout, w'._init_data.stereo_layout_swap) =
        env.stereo_layout_from_string
          (QSettings.value w._settings ("Video/" ++ env.file_hash name ++ "/stereo-layout")
            (env.stereo_layout_to_string info.stereo_layout info.stereo_layout_swap))
          (w._init_data_template.stereo_layout, w._init_data_template.stereo_layout_swap) ∧
      (w'._init_data.stereo_mode, w'._init_data.stereo_mode_swap) =
        env.stereo_mode_from_string
          (QSettings.value w._settings
            (if w'._init_data.stereo_layout = .mono then "Session/2d-stereo-mode"
              else "Session/3d-stereo-mode")
            (env.stereo_mode_to_string info.stereo_mode info.stereo_mode_swap))
          (w._init_data_template.stereo_mode, w._init_data_template.stereo_mode_swap) := by
  obtain ⟨w', rest, e1, hd, -⟩ := main_window.open_opened fuel env name names w info h
  refine ⟨w', e1, ?_, ?_⟩
  · rw [hd, main_window.opened_data_layout, main_window.open_data_layout]
  · rw [hd, main_window.opened_data_mode, main_window.open_data_mode]
    rfl

/-- Witness for C13 (amended): `b.mp4` is opened in the window whose settings hold its
record and both session keys. -/
theorem main_window.open_session_mode_key_witness :
    ∃ w', main_window.open 1 (decimal_environment mono_engine) ["b.mp4"] record_window
        = .ok w' ∧
      (w'._init_data.stereo_layout, w'._init_data.stereo_layout_swap) =
        (decimal_environment mono_engine).stereo_layout_from_string
          (QSettings.value record_window._settings
            ("Video/" ++ (decimal_environment mono_engine).file_hash "b.mp4" ++
              "/stereo-layout")
            ((decimal_environment mono_engine).stereo_layout_to_string .mono false))
          (record_window._init_data_template.stereo_layout,
            record_window._init_data_template.stereo_layout_swap) ∧
      (w'._init_data.stereo_mode, w'._init_data.stereo_mode_swap) =
        (decimal_environment mono_engine).stereo_mode_from_string
          (QSettings.value record_window._settings
            (if w'._init_data.stereo_layout = .mono then "Session/2d-stereo-mode"
              else "Session/3d-stereo-mode")
            ((decimal_environment mono_engine).stereo_mode_to_string .mono_left false))
          (record_window._init_data_template.stereo_mode,
            record_window._init_data_template.stereo_mode_swap) :=
  main_window.open_session_mode_key 0 (decimal_environment mono_engine) "b.mp4" []
    record_window ⟨.mono, false, .mono_left, false⟩ rfl

/-! ## The settings written on a `play` notification -/

theorem main_window.receive_notification_play_true_settings (env : environment)
    (send_cmd : command → action) (note : notification) (w : main_window)
    (name : String) (names : List String)
    (ht : note.type = .play) (hf : note.current.flag = true)
    (hu : w._init_data.urls = name :: names) :
    ∃ w', main_window.receive_notification env send_cmd note w = .ok w' ∧
      w'._settings = QSettings.setValue (QSettings.setValue (QSettings.setValue w._settings
          ("Video/" ++ env.file_hash name ++ "/stereo-layout")
          (env.stereo_layout_to_string (main_window.play_data w).stereo_layout
            (main_window.play_data w).stereo_layout_swap))
          ("Video/" ++ env.file_hash name ++ "/audio-stream")
          (env.int_to_string (main_window.play_data w).audio_stream))
          (session_mode_key (main_window.play_data w).stereo_layout)
          (env.stereo_mode_to_string (main_window.play_data w).stereo_mode
            (main_window.play_data w).stereo_mode_swap) := by
  have hd : ({ player.close w with _init_data := main_window.play_data w } : main_window)._init_data
      = main_window.play_data w := rfl
  have h1 : main_window.receive_notification env send_cmd note w =
      (let w1 : main_window := { player.close w with _init_data := main_window.play_data w }
       let r := main_window.open_player env w1
       let w2 := if !r.1 then { r.2 with _stop_request := true } else r.2
       main_window.current_file_hash env w2 >>= fun hash =>
       let w3 := main_window.settings_setValue ("Video/" ++ hash ++ "/stereo-layout")
         (env.stereo_layout_to_string w2._init_data.stereo_layout w2._init_data.stereo_layout_swap) w2
       let w4 := main_window.settings_setValue ("Video/" ++ hash ++ "/audio-stream")
         (env.int_to_string w3._init_data.audio_stream) w3
       let w5 := main_window.settings_setValue
         (if w4._init_data.stereo_layout = .mono then "Session/2d-stereo-mode"
           else "Session/3d-stereo-mode")
         (env.stereo_mode_to_string w4._init_data.stereo_mode w4._init_data.stereo_mode_swap) w4
       in_out_widget.update env send_cmd w5._init_data true true w5 >>= fun w6 =>
       controls_widget.update send_cmd w6._init_data true true w6 >>= fun w7 =>
       .ok (main_window.timer_start (w7.emit .set_focus))) := by
    simp only [main_window.receive_notification, ht, hf, if_true]
    rfl
  rw [h1]
  clear h1
  generalize hw1 : ({ player.close w with _init_data := main_window.play_data w } : main_window)
    = w1 at hd
  have hw1m : w1._settings = w._settings := by rw [← hw1]; rfl
  clear hw1
  simp only
  generalize hw2 : (if (!(main_window.open_player env w1).1) = true then
      { (main_window.open_player env w1).2 with _stop_request := true }
    else (main_window.open_player env w1).2) = w2
  have hw2d : w2._init_data = main_window.play_data w := by
    rw [← hw2, ← hd]; split_ifs <;> simp
  have hw2set : w2._settings = w._settings := by
    rw [← hw2]; split_ifs <;> simp [hw1m]
  clear hw2
  have hu2 : w2._init_data.urls = name :: names := by rw [hw2d]; exact hu
  simp only [current_file_hash_cons env w2 name names hu2, Except.ok_bind,
    in_out_widget.update_eq, controls_widget.update_playing_eq]
  refine ⟨_, rfl, ?_⟩
  simp [hw2set, hw2d, session_mode_key]

/-! ## C14: what a `play` notification writes -/

/-- C14: on a `play` notification whose current flag is true (a file being loaded),
`main_window::receive_notification` returns and the writes to the settings store it has
made are exactly three, in this order: `Video/<hash>/stereo-layout` with the encoding of the
current input layout and swap, `Video/<hash>/audio-stream` with the current audio stream,
and one session key with the encoded output mode and swap, which is
`Session/2d-stereo-mode` if the input layout is mono and `Session/3d-stereo-mode` otherwise,
whatever the output mode. Afterwards the store holds these three values, and every other
key, the other session key among them, has the value it had. -/
theorem main_window.receive_notification_play_settings (env : environment)
    (send_cmd : command → action) (note : notification) (w : main_window)
    (name : String) (names : List String)
    (ht : note.type = .play) (hf : note.current.flag = true)
    (hu : w._init_data.urls = name :: names) :
    ∃ w', main_window.receive_notification env send_cmd note w = .ok w' ∧
      w'._init_data = main_window.play_data w ∧
      (w'.trace.drop w.trace.length).filter event.is_settings_set_value =
        [.settings_set_value ("Video/" ++ env.file_hash name ++ "/stereo-layout")
          (env.stereo_layout_to_string w'._init_data.stereo_layout
            w'._init_data.stereo_layout_swap),
         .settings_set_value ("Video/" ++ env.file_hash name ++ "/audio-stream")
          (env.int_to_string w'._init_data.audio_stream),
         .settings_set_value
          (if w'._init_data.stereo_layout = .mono then "Session/2d-stereo-mode"
            else "Session/3d-stereo-mode")
          (env.stereo_mode_to_string w'._init_data.stereo_mode
            w'._init_data.stereo_mode_swap)] ∧
      QSettings.lookup w'._settings ("Video/" ++ env.file_hash name ++ "/stereo-layout") =
        some (env.stereo_layout_to_string w'._init_data.stereo_layout
          w'._init_data.stereo_layout_swap) ∧
      QSettings.lookup w'._settings ("Video/" ++ env.file_hash name ++ "/audio-stream") =
        some (env.int_to_string w'._init_data.audio_stream) ∧
      QSettings.lookup w'._settings (session_mode_key w'._init_data.stereo_layout) =
        some (env.stereo_mode_to_string w'._init_data.stereo_mode
          w'._init_data.stereo_mode_swap) ∧
      QSettings.lookup w'._settings (other_session_mode_key w'._init_data.stereo_layout) =
        QSettings.lookup w._settings (other_session_mode_key w'._init_data.stereo_layout) ∧
      ∀ key, key ≠ "Video/" ++ env.file_hash name ++ "/stereo-layout" →
        key ≠ "Video/" ++ env.file_hash name ++ "/audio-stream" →
        key ≠ session_mode_key w'._init_data.stereo_layout →
        QSettings.lookup w'._settings key = QSettings.lookup w._settings key := by
  obtain ⟨w', e1, hd, -, -, -, -, -, htr⟩ :=
    main_window.receive_notification_play_true env send_cmd note w name names ht hf hu
  obtain ⟨w2, e2, hset⟩ :=
    main_window.receive_notification_play_true_settings env send_cmd note w name names ht hf hu
  have hw : w2 = w' := by
    have := e2.symm.trans e1
    injection this
  subst hw
  have hother : ∀ key, key ≠ "Video/" ++ env.file_hash name ++ "/stereo-layout" →
      key ≠ "Video/" ++ env.file_hash name ++ "/audio-stream" →
      key ≠ session_mode_key w2._init_data.stereo_layout →
      QSettings.lookup w2._settings key = QSettings.lookup w._settings key := by
    intro key h1 h2 h3
    rw [hset, ← hd, QSettings.lookup_setValue_other _ _ _ _ h3,
      QSettings.lookup_setValue_other _ _ _ _ h2, QSettings.lookup_setValue_other _ _ _ _ h1]
  have hne : "Video/" ++ env.file_hash name ++ "/stereo-layout" ≠
      "Video/" ++ env.file_hash name ++ "/audio-stream" := fun h =>
    absurd (video_key_inj _ _ _ h) (by decide)
  refine ⟨w2, e1, hd, ?_, ?_, ?_, ?_, ?_, hother⟩
  · rw [htr, ← hd]
    simp only [List.append_assoc, List.drop_left]
    cases env.player_open w2._init_data <;>
      simp [open_player_events, play_settings_events, event.is_settings_set_value]
  · rw [hset, ← hd,
      QSettings.lookup_setValue_other _ _ _ _
        (by rw [session_mode_key_eq]; exact video_key_ne_session _ _ _),
      QSettings.lookup_setValue_other _ _ _ _ hne, QSettings.lookup_setValue_same]
  · rw [hset, ← hd,
      QSettings.lookup_setValue_other _ _ _ _
        (by rw [session_mode_key_eq]; exact video_key_ne_session _ _ _),
      QSettings.lookup_setValue_same]
  · rw [hset, ← hd, QSettings.lookup_setValue_same]
  · refine hother _ ?_ ?_ (other_session_mode_key_ne _)
    · rw [other_session_mode_key_eq]; exact (video_key_ne_session _ _ _).symm
    · rw [other_session_mode_key_eq]; exact (video_key_ne_session _ _ _).symm

/-- Witness for C14: the stopped window holding `a.mp4` receives the notification that
playback has started. -/
theorem main_window.receive_notification_play_settings_witness :
    ∃ w', main_window.receive_notification (sample_environment mono_engine) no_send_cmd
        (notification.of_flag .play false true) stopped_window = .ok w' ∧
      w'._init_data = main_window.play_data stopped_window ∧
      (w'.trace.drop stopped_window.trace.length).filter event.is_settings_set_value =
        [.settings_set_value
          ("Video/" ++ (sample_environment mono_engine).file_hash "a.mp4" ++ "/stereo-layout")
          ((sample_environment mono_engine).stereo_layout_to_string
            w'._init_data.stereo_layout w'._init_data.stereo_layout_swap),
         .settings_set_value
          ("Video/" ++ (sample_environment mono_engine).file_hash "a.mp4" ++ "/audio-stream")
          ((sample_environment mono_engine).int_to_string w'._init_data.audio_stream),
         .settings_set_value
          (if w'._init_data.stereo_layout = .mono then "Session/2d-stereo-mode"
            else "Session/3d-stereo-mode")
          ((sample_environment mono_engine).stereo_mode_to_string w'._init_data.stereo_mode
            w'._init_data.stereo_mode_swap)] ∧
      QSettings.lookup w'._settings
          ("Video/" ++ (sample_environment mono_engine).file_hash "a.mp4" ++ "/stereo-layout")
        = some ((sample_environment mono_engine).stereo_layout_to_string
          w'._init_data.stereo_layout w'._init_data.stereo_layout_swap) ∧
      QSettings.lookup w'._settings
          ("Video/" ++ (sample_environment mono_engine).file_hash "a.mp4" ++ "/audio-stream")
        = some ((sample_environment mono_engine).int_to_string w'._init_data.audio_stream) ∧
      QSettings.lookup w'._settings (session_mode_key w'._init_data.stereo_layout) =
        some ((sample_environment mono_engine).stereo_mode_to_string w'._init_data.stereo_mode
          w'._init_data.stereo_mode_swap) ∧
      QSettings.lookup w'._settings (other_session_mode_key w'._init_data.stereo_layout) =
        QSettings.lookup stopped_window._settings
          (other_session_mode_key w'._init_data.stereo_layout) ∧
      ∀ key,
        key ≠ "Video/" ++ (sample_environment mono_engine).file_hash "a.mp4" ++
          "/stereo-layout" →
        key ≠ "Video/" ++ (sample_environment mono_engine).file_hash "a.mp4" ++
          "/audio-stream" →
        key ≠ session_mode_key w'._init_data.stereo_layout →
        QSettings.lookup w'._settings key = QSettings.lookup stopped_window._settings key :=
  main_window.receive_notification_play_settings (sample_environment mono_engine) no_send_cmd
    (notification.of_flag .play false true) stopped_window "a.mp4" [] rfl rfl rfl

/-! ## C15: when the per-file record is created -/

/-- C15 (counterexample): the settings store is empty, `main_window::open` succeeds for
`b.mp4`, and the store is still empty afterwards: no key of a record of that file
exists. -/
theorem main_window.open_creates_no_record :
    stopped_window._settings = [] ∧
    (sample_environment mono_engine).player_open
        (main_window.open_data stopped_window ["b.mp4"]) =
      .opened ⟨.mono, false, .mono_left, false⟩ ∧
    ∃ w', main_window.open 1 (sample_environment mono_engine) ["b.mp4"] stopped_window
        = .ok w' ∧
      w'._init_data.urls = ["b.mp4"] ∧
      w'._settings = [] ∧
      QSettings.lookup w'._settings "Video/sha1:b.mp4/stereo-layout" = none ∧
      QSettings.lookup w'._settings "Video/sha1:b.mp4/audio-stream" = none := by
  obtain ⟨w', rest, e1, hd, -, hset, -⟩ := main_window.open_opened 0
    (sample_environment mono_engine) "b.mp4" [] stopped_window
    ⟨.mono, false, .mono_left, false⟩ rfl
  have hs : w'._settings = [] := hset
  refine ⟨rfl, rfl, w', e1, ?_, hs, ?_, ?_⟩
  · rw [hd]; rfl
  · rw [hs]; rfl
  · rw [hs]; rfl

/-- C15 (amended): the per-file preference record is created when the opened file is first
played, not by the open: `main_window::open` of a file that the engine opens returns and
leaves every key of the settings store as it was, and when the window is then notified
that playback has started (a `play` notification whose current flag is true) the keys
`stereo-layout` and `audio-stream` of `Video/<hash>` are written, so that a record of the
file exists afterwards. -/
theorem main_window.record_created_on_play (fuel : Nat) (env : environment) (name : String)
    (names : List String) (w : main_window) (info : media_info)
    (send_cmd : command → action) (note : notification)
    (h : env.player_open (main_window.open_data w (name :: names)) = .opened info)
    (ht : note.type = .play) (hf : note.current.flag = true) :
    ∃ w1, main_window.open (fuel + 1) env (name :: names) w = .ok w1 ∧
      w1._settings = w._settings ∧
      ∃ w2, main_window.receive_notification env send_cmd note w1 = .ok w2 ∧
        QSettings.lookup w2._settings ("Video/" ++ env.file_hash name ++ "/stereo-layout") =
          some (env.stereo_layout_to_string w2._init_data.stereo_layout
            w2._init_data.stereo_layout_swap) ∧
        QSettings.lookup w2._settings ("Video/" ++ env.file_hash name ++ "/audio-stream") =
          some (env.int_to_string w2._init_data.audio_stream) := by
  obtain ⟨w1, rest, e1, hd, -, hset, -⟩ := main_window.open_opened fuel env name names w info h
  have hu : w1._init_data.urls = name :: names := by rw [hd]; rfl
  obtain ⟨w2, e2, hd2, -⟩ :=
    main_window.receive_notification_play_true env send_cmd note w1 name names ht hf hu
  obtain ⟨w3, e3, hset3⟩ :=
    main_window.receive_notification_play_true_settings env send_cmd note w1 name names
      ht hf hu
  have hw : w3 = w2 := by
    have := e3.symm.trans e2
    injection this
  subst hw
  have hne : "Video/" ++ env.file_hash name ++ "/stereo-layout" ≠
      "Video/" ++ env.file_hash name ++ "/audio-stream" := fun h =>
    absurd (video_key_inj _ _ _ h) (by decide)
  refine ⟨w1, e1, hset, w3, e2, ?_, ?_⟩
  · rw [hset3, ← hd2,
      QSettings.lookup_setValue_other _ _ _ _
        (by rw [session_mode_key_eq]; exact video_key_ne_session _ _ _),
      QSettings.lookup_setValue_other _ _ _ _ hne, QSettings.lookup_setValue_same]
  · rw [hset3, ← hd2,
      QSettings.lookup_setValue_other _ _ _ _
        (by rw [session_mode_key_eq]; exact video_key_ne_session _ _ _),
      QSettings.lookup_setValue_same]

/-- Witness for C15 (amended): the stopped window opens `b.mp4` and is then notified that
playback has started. -/
theorem main_window.record_created_on_play_witness :
    ∃ w1, main_window.open 1 (sample_environment mono_engine) ["b.mp4"] stopped_window
        = .ok w1 ∧
      w1._settings = stopped_window._settings ∧
      ∃ w2, main_window.receive_notification (sample_environment mono_engine) no_send_cmd
          (notification.of_flag .play false true) w1 = .ok w2 ∧
        QSettings.lookup w2._settings
            ("Video/" ++ (sample_environment mono_engine).file_hash "b.mp4" ++
              "/stereo-layout") =
          some ((sample_environment mono_engine).stereo_layout_to_string
            w2._init_data.stereo_layout w2._init_data.stereo_layout_swap) ∧
        QSettings.lookup w2._settings
            ("Video/" ++ (sample_environment mono_engine).file_hash "b.mp4" ++
              "/audio-stream") =
          some ((sample_environment mono_engine).int_to_string w2._init_data.audio_stream) :=
  main_window.record_created_on_play 0 (sample_environment mono_engine) "b.mp4" []
    stopped_window ⟨.mono, false, .mono_left, false⟩ no_send_cmd
    (notification.of_flag .play false true) rfl rfl rfl

/-! ## C16: `parallax` and `ghostbust` notifications at the main window -/

/-- C16: for a `parallax` (resp. `ghostbust`) notification, with a file loaded,
`main_window::receive_notification` returns; it has set `_init_data.params.parallax` (resp.
`ghostbust`) to `note.current.value` and written the key `Video/<hash>/parallax` (resp.
`Video/<hash>/ghostbust`) with that value as a string, and nothing else: every other field
of `_init_data`, every other settings key, the timer, the engine, the widgets, the
template and the stop request are as before. -/
theorem main_window.receive_notification_parallax_ghostbust (env : environment)
    (send_cmd : command → action) (note : notification) (w : main_window)
    (name : String) (names : List String)
    (hu : w._init_data.urls = name :: names) :
    (note.type = .parallax →
      ∃ w', main_window.receive_notification env send_cmd note w = .ok w' ∧
        w'._init_data = { w._init_data with
          params := { w._init_data.params with parallax := note.current.value } } ∧
        w'.trace = w.trace ++ [.settings_set_value
          ("Video/" ++ env.file_hash name ++ "/parallax")
          (env.float_to_string note.current.value)] ∧
        QSettings.lookup w'._settings ("Video/" ++ env.file_hash name ++ "/parallax") =
          some (env.float_to_string note.current.value) ∧
        (∀ key, key ≠ "Video/" ++ env.file_hash name ++ "/parallax" →
          QSettings.lookup w'._settings key = QSettings.lookup w._settings key) ∧
        w'._timer = w._timer ∧ w'._player = w._player ∧
        w'._in_out_widget = w._in_out_widget ∧ w'._controls_widget = w._controls_widget ∧
        w'._init_data_template = w._init_data_template ∧
        w'._stop_request = w._stop_request) ∧
    (note.type = .ghostbust →
      ∃ w', main_window.receive_notification env send_cmd note w = .ok w' ∧
        w'._init_data = { w._init_data with
          params := { w._init_data.params with ghostbust := note.current.value } } ∧
        w'.trace = w.trace ++ [.settings_set_value
          ("Video/" ++ env.file_hash name ++ "/ghostbust")
          (env.float_to_string note.current.value)] ∧
        QSettings.lookup w'._settings ("Video/" ++ env.file_hash name ++ "/ghostbust") =
          some (env.float_to_string note.current.value) ∧
        (∀ key, key ≠ "Video/" ++ env.file_hash name ++ "/ghostbust" →
          QSettings.lookup w'._settings key = QSettings.lookup w._settings key) ∧
        w'._timer = w._timer ∧ w'._player = w._player ∧
        w'._in_out_widget = w._in_out_widget ∧ w'._controls_widget = w._controls_widget ∧
        w'._init_data_template = w._init_data_template ∧
        w'._stop_request = w._stop_request) := by
  constructor
  · intro ht
    have hu1 : ({ w with _init_data := { w._init_data with
        params := { w._init_data.params with parallax := note.current.value } } }
        : main_window)._init_data.urls = name :: names := hu
    refine ⟨main_window.settings_setValue ("Video/" ++ env.file_hash name ++ "/parallax")
      (env.float_to_string note.current.value) { w with _init_data := { w._init_data with
        params := { w._init_data.params with parallax := note.current.value } } },
      ?_, ?_, ?_, ?_, ?_, rfl, rfl, rfl, rfl, rfl, rfl⟩
    · simp only [main_window.receive_notification, ht, reduceCtorEq, if_false, if_true]
      rw [current_file_hash_cons env _ name names hu1]
      rfl
    · rfl
    · rfl
    · exact QSettings.lookup_setValue_same _ _ _
    · intro key hk
      exact QSettings.lookup_setValue_other _ _ _ _ hk
  · intro ht
    have hu1 : ({ w with _init_data := { w._init_data with
        params := { w._init_data.params with ghostbust := note.current.value } } }
        : main_window)._init_data.urls = name :: names := hu
    refine ⟨main_window.settings_setValue ("Video/" ++ env.file_hash name ++ "/ghostbust")
      (env.float_to_string note.current.value) { w with _init_data := { w._init_data with
        params := { w._init_data.params with ghostbust := note.current.value } } },
      ?_, ?_, ?_, ?_, ?_, rfl, rfl, rfl, rfl, rfl, rfl⟩
    · simp only [main_window.receive_notification, ht, reduceCtorEq, if_false, if_true]
      rw [current_file_hash_cons env _ name names hu1]
      rfl
    · rfl
    · rfl
    · exact QSettings.lookup_setValue_same _ _ _
    · intro key hk
      exact QSettings.lookup_setValue_other _ _ _ _ hk

/-- Witness for C16: the playing window holding `a.mp4` receives a parallax and a
ghostbust notification. -/
theorem main_window.receive_notification_parallax_ghostbust_witness :
    (∃ w', main_window.receive_notification (decimal_environment mono_engine) no_send_cmd
        (notification.of_value .parallax 0 (1 / 2)) playing_window = .ok w' ∧
      w'._init_data.params.parallax = 1 / 2 ∧
      QSettings.lookup w'._settings "Video/sha1:a.mp4/parallax" = some "0.5") ∧
    (∃ w', main_window.receive_notification (decimal_environment mono_engine) no_send_cmd
        (notification.of_value .ghostbust 0 (1 / 2)) playing_window = .ok w' ∧
      w'._init_data.params.ghostbust = 1 / 2 ∧
      QSettings.lookup w'._settings "Video/sha1:a.mp4/ghostbust" = some "0.5") := by
  constructor
  · obtain ⟨w', e, hd, -, hl, -⟩ :=
      (main_window.receive_notification_parallax_ghostbust (decimal_environment mono_engine)
        no_send_cmd (notification.of_value .parallax 0 (1 / 2)) playing_window "a.mp4" []
        rfl).1 rfl
    refine ⟨w', e, by rw [hd]; rfl, ?_⟩
    rw [show "Video/sha1:a.mp4/parallax" =
      "Video/" ++ (decimal_environment mono_engine).file_hash "a.mp4" ++ "/parallax" from
      by decide, hl]
    exact congrArg some decimal_to_string_half
  · obtain ⟨w', e, hd, -, hl, -⟩ :=
      (main_window.receive_notification_parallax_ghostbust (decimal_environment mono_engine)
        no_send_cmd (notification.of_value .ghostbust 0 (1 / 2)) playing_window "a.mp4" []
        rfl).2 rfl
    refine ⟨w', e, by rw [hd]; rfl, ?_⟩
    rw [show "Video/sha1:a.mp4/ghostbust" =
      "Video/" ++ (decimal_environment mono_engine).file_hash "a.mp4" ++ "/ghostbust" from
      by decide, hl]
    exact congrArg some decimal_to_string_half

/-! ## C17: crosstalk is written when the window is closed -/

theorem main_window.closeEvent_settings (env : environment) (w : main_window) :
    (main_window.closeEvent env w)._settings =
      QSettings.setValue (QSettings.setValue (QSettings.setValue w._settings
        "Session/crosstalk_r" (env.float_to_string w._init_data.params.crosstalk_r))
        "Session/crosstalk_g" (env.float_to_string w._init_data.params.crosstalk_g))
        "Session/crosstalk_b" (env.float_to_string w._init_data.params.crosstalk_b) := rfl

theorem main_window.closeEvent_trace (env : environment) (w : main_window) :
    (main_window.closeEvent env w).trace = w.trace ++
      [.settings_set_value "Session/crosstalk_r"
          (env.float_to_string w._init_data.params.crosstalk_r),
        .settings_set_value "Session/crosstalk_g"
          (env.float_to_string w._init_data.params.crosstalk_g),
        .settings_set_value "Session/crosstalk_b"
          (env.float_to_string w._init_data.params.crosstalk_b)] := by
  simp [main_window.closeEvent]

theorem main_window.closeEvent_lookup (env : environment) (w : main_window) :
    QSettings.lookup (main_window.closeEvent env w)._settings "Session/crosstalk_r" =
      some (env.float_to_string w._init_data.params.crosstalk_r) ∧
    QSettings.lookup (main_window.closeEvent env w)._settings "Session/crosstalk_g" =
      some (env.float_to_string w._init_data.params.crosstalk_g) ∧
    QSettings.lookup (main_window.closeEvent env w)._settings "Session/crosstalk_b" =
      some (env.float_to_string w._init_data.params.crosstalk_b) := by
  rw [main_window.closeEvent_settings]
  refine ⟨?_, ?_, ?_⟩
  · rw [QSettings.lookup_setValue_other _ _ _ _ (by decide),
      QSettings.lookup_setValue_other _ _ _ _ (by decide), QSettings.lookup_setValue_same]
  · rw [QSettings.lookup_setValue_other _ _ _ _ (by decide), QSettings.lookup_setValue_same]
  · rw [QSettings.lookup_setValue_same]

/-- C17: the crosstalk preferences dialog writes no settings key, whether it is accepted
or cancelled (the settings store is as before and nothing at all is recorded in the
trace), and a cancelled dialog leaves the window as it was, the crosstalk values of
`_init_data.params` included; `main_window::closeEvent` makes exactly three writes,
`Session/crosstalk_r`, `Session/crosstalk_g` and `Session/crosstalk_b` with the current
crosstalk values of `_init_data.params` as strings, after which the store holds these
three values and every other key has the value it had; it changes nothing else. -/
theorem main_window.crosstalk_written_on_close (env : environment)
    (result : crosstalk_dialog_result) (w : main_window) :
    (main_window.preferences_crosstalk result w)._settings = w._settings ∧
    (main_window.preferences_crosstalk result w).trace = w.trace ∧
    main_window.preferences_crosstalk .rejected w = w ∧
    (main_window.closeEvent env w).trace = w.trace ++
      [.settings_set_value "Session/crosstalk_r"
          (env.float_to_string w._init_data.params.crosstalk_r),
        .settings_set_value "Session/crosstalk_g"
          (env.float_to_string w._init_data.params.crosstalk_g),
        .settings_set_value "Session/crosstalk_b"
          (env.float_to_string w._init_data.params.crosstalk_b)] ∧
    QSettings.lookup (main_window.closeEvent env w)._settings "Session/crosstalk_r" =
      some (env.float_to_string w._init_data.params.crosstalk_r) ∧
    QSettings.lookup (main_window.closeEvent env w)._settings "Session/crosstalk_g" =
      some (env.float_to_string w._init_data.params.crosstalk_g) ∧
    QSettings.lookup (main_window.closeEvent env w)._settings "Session/crosstalk_b" =
      some (env.float_to_string w._init_data.params.crosstalk_b) ∧
    (∀ key, key ≠ "Session/crosstalk_r" → key ≠ "Session/crosstalk_g" →
      key ≠ "Session/crosstalk_b" →
      QSettings.lookup (main_window.closeEvent env w)._settings key =
        QSettings.lookup w._settings key) ∧
    (main_window.closeEvent env w)._init_data = w._init_data ∧
    (main_window.closeEvent env w)._init_data_template = w._init_data_template ∧
    (main_window.closeEvent env w)._player = w._player ∧
    (main_window.closeEvent env w)._timer = w._timer := by
  refine ⟨?_, ?_, rfl, main_window.closeEvent_trace env w,
    (main_window.closeEvent_lookup env w).1, (main_window.closeEvent_lookup env w).2.1,
    (main_window.closeEvent_lookup env w).2.2, ?_, rfl, rfl, rfl, rfl⟩
  · cases result <;> rfl
  · cases result <;> rfl
  · intro key hr hg hb
    rw [main_window.closeEvent_settings, QSettings.lookup_setValue_other _ _ _ _ hb,
      QSettings.lookup_setValue_other _ _ _ _ hg, QSettings.lookup_setValue_other _ _ _ _ hr]

/-! ## C18: crosstalk and `main_window::open` -/

/-- C18 (the code at the failing input): the crosstalk dialog is accepted with 10, 20 and
30 percent in a window whose template holds crosstalk 0, which sets
`_init_data.params.crosstalk_r` to one tenth; `main_window::open` of `b.mp4` then succeeds
and afterwards `crosstalk_r` is 0 again, the value of the template, and `closeEvent`
persists `0` under `Session/crosstalk_r`, not the value of the accepted dialog. -/
theorem main_window.open_resets_crosstalk :
    (main_window.preferences_crosstalk (.accepted 10 20 30)
      stopped_window)._init_data.params.crosstalk_r = 1 / 10 ∧
    ∃ w', main_window.open 1 (decimal_environment mono_engine) ["b.mp4"]
        (main_window.preferences_crosstalk (.accepted 10 20 30) stopped_window) = .ok w' ∧
      w'._init_data.params.crosstalk_r = 0 ∧
      QSettings.lookup (main_window.closeEvent (decimal_environment mono_engine) w')._settings
        "Session/crosstalk_r" = some "0" := by
  obtain ⟨w', rest, e1, hd, -⟩ := main_window.open_opened 0 (decimal_environment mono_engine)
    "b.mp4" [] (main_window.preferences_crosstalk (.accepted 10 20 30) stopped_window)
    ⟨.mono, false, .mono_left, false⟩ rfl
  have hc : w'._init_data.params.crosstalk_r = 0 := by
    rw [hd, main_window.opened_data_params]
    rfl
  refine ⟨?_, w', e1, hc, ?_⟩
  · show ((10 : Int) : ℚ) / 100 = 1 / 10
    norm_num
  · rw [(main_window.closeEvent_lookup _ w').1, hc]
    exact congrArg some decimal_to_string_zero

/-! ## C19: `pos` notifications -/

theorem controls_widget.receive_notification_pos (send_cmd : command → action)
    (note : notification) (w : main_window) (ht : note.type = .pos) :
    controls_widget.receive_notification send_cmd note w =
      .ok (w.set_controls (controls_widget.after_pos note.current.value
        w._controls_widget)) := by
  obtain ⟨s, i, c, p, r, t, e⟩ := w
  obtain ⟨l, pl, ⟨v, down, en⟩, b1, b2, b3, b4, b5, b6, b7, b8, b9⟩ := c
  simp only [controls_widget.receive_notification, ht, controls_widget.set_lock,
    main_window.set_controls, Except.ok_bind, controls_widget.after_pos]
  cases down
  · by_cases hv : v = qBound 0 (qRound (note.current.value * 2000)) 2000
    · simp [controls_widget.seek_slider_setValue, main_window.set_controls, ← hv]
    · simp [controls_widget.seek_slider_setValue, main_window.set_controls, hv,
        controls_widget.seek_slider_changed]
  · simp

theorem controller.deliver_pos (env : environment) (send_cmd : command → action)
    (note : notification) (w : main_window) (ht : note.type = .pos) :
    controller.deliver env send_cmd note w =
      .ok (w.set_controls (controls_widget.after_pos note.current.value
        w._controls_widget)) := by
  have h1 : main_window.receive_notification env send_cmd note w = .ok w := by
    simp [main_window.receive_notification, ht]
  have h2 : in_out_widget.receive_notification env send_cmd note w = .ok w := by
    simp [in_out_widget.receive_notification, ht]
  have h4 : ∀ w1, player_qt_internal.receive_notification note w1 = .ok w1 := by
    intro w1
    simp [player_qt_internal.receive_notification, ht]
  simp only [controller.deliver, h1, h2, Except.ok_bind,
    controls_widget.receive_notification_pos send_cmd note w ht, h4]

/-- C19: a sequence of `pos` notifications delivered to `main_window`, `in_out_widget`,
`controls_widget` and `player_qt_internal` is handled without any of them calling
`send_cmd`: the delivery returns, and it returns the same window when `send_cmd` is
replaced by one that always fails. Only the controls widget has changed and nothing was
recorded in the trace; if there was a notification at all, `_lock` of the controls widget
is false afterwards. -/
theorem controller.deliver_all_pos (env : environment) (send_cmd : command → action)
    (notes : List notification) (w : main_window)
    (h : ∀ note ∈ notes, note.type = .pos) :
    ∃ w', controller.deliver_all env send_cmd notes w = .ok w' ∧
      controller.deliver_all env no_send_cmd notes w = .ok w' ∧
      w' = w.set_controls w'._controls_widget ∧
      w'.trace = w.trace ∧
      (notes ≠ [] → w'._controls_widget._lock = false) := by
  induction notes generalizing w with
  | nil => exact ⟨w, rfl, rfl, rfl, rfl, fun hn => absurd rfl hn⟩
  | cons note notes ih =>
    have ht : note.type = .pos := h note (List.mem_cons_self _ _)
    obtain ⟨w', e1, e2, hw, htr, hl⟩ :=
      ih (w.set_controls (controls_widget.after_pos note.current.value w._controls_widget))
        (fun n hn => h n (List.mem_cons_of_mem _ hn))
    refine ⟨w', ?_, ?_, ?_, ?_, ?_⟩
    · simp only [controller.deliver_all, controller.deliver_pos env send_cmd note w ht,
        Except.ok_bind, e1]
    · simp only [controller.deliver_all, controller.deliver_pos env no_send_cmd note w ht,
        Except.ok_bind, e2]
    · rw [hw]; rfl
    · rw [htr]; rfl
    · intro _
      cases notes with
      | nil =>
        simp only [controller.deliver_all] at e1
        injection e1 with e1
        rw [← e1]
        rfl
      | cons n ns => exact hl (List.cons_ne_nil _ _)

/-- Witness for C19: two `pos` notifications reach the controllers of the playing
window. -/
theorem controller.deliver_all_pos_witness :
    ∃ w', controller.deliver_all (sample_environment mono_engine)
        (controller.send_cmd 1 (sample_environment mono_engine))
        [notification.of_value .pos 0 (1 / 4), notification.of_value .pos (1 / 4) (1 / 2)]
        playing_window = .ok w' ∧
      controller.deliver_all (sample_environment mono_engine) no_send_cmd
        [notification.of_value .pos 0 (1 / 4), notification.of_value .pos (1 / 4) (1 / 2)]
        playing_window = .ok w' ∧
      w' = playing_window.set_controls w'._controls_widget ∧
      w'.trace = playing_window.trace ∧
      ([notification.of_value .pos 0 (1 / 4), notification.of_value .pos (1 / 4) (1 / 2)] ≠ []
        → w'._controls_widget._lock = false) :=
  controller.deliver_all_pos (sample_environment mono_engine)
    (controller.send_cmd 1 (sample_environment mono_engine))
    [notification.of_value .pos 0 (1 / 4), notification.of_value .pos (1 / 4) (1 / 2)]
    playing_window (by simp [notification.of_value])

/-! ## C20: the re-entrancy guard -/

/-- C20 (the code at the failing input): the controls widget of the playing window, whose
slider is at 1000 and whose `_lock` is false, receives the notification that playback has
stopped. `controls_widget::receive_notification` moves the slider to 0 with `_lock` still
false, so the slot `seek_slider_changed` sends the command `set_pos` with position 0: the
handler ends in that call of `send_cmd`, it fails when sending fails, and over the bus the
command reaches the engine. -/
theorem controls_widget.receive_notification_stop_sends :
    playing_window._controls_widget._lock = false ∧
    playing_window._controls_widget._seek_slider.value = 1000 ∧
    (∃ w1, w1._controls_widget._lock = false ∧ w1._controls_widget._seek_slider.value = 0 ∧
      ∀ send_cmd : command → action,
        controls_widget.receive_notification send_cmd (notification.of_flag .play true false)
          playing_window = send_cmd ⟨.set_pos, some 0⟩ w1) ∧
    controls_widget.receive_notification no_send_cmd (notification.of_flag .play true false)
      playing_window = .error .out_of_fuel ∧
    ∃ w', controls_widget.receive_notification
        (controller.send_cmd 1 (sample_environment mono_engine))
        (notification.of_flag .play true false) playing_window = .ok w' ∧
      w'.trace = [.player_receive_cmd ⟨.set_pos, some 0⟩] := by
  have key : ∀ send_cmd : command → action,
      controls_widget.receive_notification send_cmd (notification.of_flag .play true false)
        playing_window = send_cmd ⟨.set_pos, some 0⟩
        (playing_window.set_controls (sample_controls_widget false 0)) := by
    intro send_cmd
    simp [controls_widget.receive_notification, notification.of_flag,
      controls_widget.seek_slider_setValue, controls_widget.seek_slider_changed,
      playing_window, sample_controls_widget, main_window.set_controls, qBound]
  refine ⟨rfl, rfl, ⟨_, rfl, rfl, key⟩, ?_, ?_⟩
  · rw [key]; rfl
  · rw [key]
    exact ⟨_, rfl, rfl⟩

/-! ## The steps of the in/out widget under its lock -/

theorem in_out_widget.swap_eyes_setChecked_eq (send_cmd : command → action) (b : Bool)
    (w : main_window) (h : w._in_out_widget._lock = true) :
    in_out_widget.swap_eyes_setChecked send_cmd b w =
      .ok (w.set_in_out (w._in_out_widget.with_swap b)) := by
  unfold in_out_widget.swap_eyes_setChecked
  split_ifs with hc
  · subst hc
    rfl
  · simp [in_out_widget.swap_eyes_changed, main_window.set_in_out, h,
      in_out_widget.with_swap]

theorem in_out_widget.set_output_eq (send_cmd : command → action) (m : stereo_mode_t)
    (b : Bool) (w : main_window) (h : w._in_out_widget._lock = true) :
    in_out_widget.set_output send_cmd m b w =
      .ok (w.set_in_out (w._in_out_widget.with_output m b)) := by
  have h1 : in_out_widget.set_output send_cmd m b w =
      in_out_widget.swap_eyes_setChecked send_cmd b
        (w.set_in_out (w._in_out_widget.with_output_index (in_out_widget.output_index m))) := by
    cases m <;> rfl
  rw [h1, in_out_widget.swap_eyes_setChecked_eq send_cmd b
    (w.set_in_out (w._in_out_widget.with_output_index (in_out_widget.output_index m))) h]
  rfl

theorem in_out_widget.input_changed_eq (env : environment) (send_cmd : command → action)
    (w : main_window) (h : w._in_out_widget._lock = true) :
    in_out_widget.input_changed env send_cmd w =
      .ok (w.set_in_out (w._in_out_widget.after_input_changed env w._settings)) := by
  unfold in_out_widget.input_changed in_out_widget.after_input_changed
  simp only
  split_ifs
  · exact in_out_widget.set_output_eq send_cmd _ _ w h
  · exact in_out_widget.set_output_eq send_cmd _ _ w h
  · rfl

theorem in_out_widget.set_input_eq (env : environment) (send_cmd : command → action)
    (l : stereo_layout_t) (b : Bool) (w : main_window)
    (h : w._in_out_widget._lock = true) :
    in_out_widget.set_input env send_cmd l b w =
      .ok (w.set_in_out (w._in_out_widget.with_input env w._settings l b)) := by
  have h1 : in_out_widget.set_input env send_cmd l b w =
      (if w._in_out_widget._input_combobox.currentIndex = in_out_widget.input_index l b then
        .ok w
      else in_out_widget.input_changed env send_cmd
        (w.set_in_out (w._in_out_widget.with_input_index
          (in_out_widget.input_index l b)))) := by
    cases l <;> rfl
  rw [h1]
  unfold in_out_widget.with_input
  split_ifs
  · rfl
  · rw [in_out_widget.input_changed_eq env send_cmd
      (w.set_in_out (w._in_out_widget.with_input_index (in_out_widget.input_index l b))) h]
    rfl

theorem in_out_widget.parallax_setValue_eq (env : environment) (send_cmd : command → action)
    (v : float) (w : main_window) (h : w._in_out_widget._lock = true) :
    in_out_widget.parallax_setValue env send_cmd v w =
      .ok (w.set_in_out (w._in_out_widget.with_parallax env v)) := by
  unfold in_out_widget.parallax_setValue
  simp only
  split_ifs with hc
  · unfold in_out_widget.with_parallax
    rw [← hc]
    rfl
  · simp [in_out_widget.parallax_changed, main_window.set_in_out, h,
      in_out_widget.with_parallax]

theorem in_out_widget.ghostbust_setValue_eq (send_cmd : command → action)
    (v : Int) (w : main_window) (h : w._in_out_widget._lock = true) :
    in_out_widget.ghostbust_setValue send_cmd v w =
      .ok (w.set_in_out (w._in_out_widget.with_ghostbust v)) := by
  unfold in_out_widget.ghostbust_setValue
  simp only
  split_ifs with hc
  · unfold in_out_widget.with_ghostbust
    rw [← hc]
    rfl
  · simp [in_out_widget.ghostbust_changed, main_window.set_in_out, h,
      in_out_widget.with_ghostbust]

@[simp]
theorem in_out_widget.with_swap_lock (b : Bool) (io : in_out_widget) :
    (io.with_swap b)._lock = io._lock := rfl

@[simp]
theorem in_out_widget.with_output_lock (m : stereo_mode_t) (b : Bool) (io : in_out_widget) :
    (io.with_output m b)._lock = io._lock := rfl

@[simp]
theorem in_out_widget.with_input_index_lock (i : Fin 13) (io : in_out_widget) :
    (io.with_input_index i)._lock = io._lock := rfl

@[simp]
theorem in_out_widget.after_input_changed_lock (env : environment) (settings : QSettings)
    (io : in_out_widget) : (io.after_input_changed env settings)._lock = io._lock := by
  unfold in_out_widget.after_input_changed
  simp only
  split_ifs <;> rfl

@[simp]
theorem in_out_widget.with_input_lock (env : environment) (settings : QSettings)
    (l : stereo_layout_t) (b : Bool) (io : in_out_widget) :
    (io.with_input env settings l b)._lock = io._lock := by
  unfold in_out_widget.with_input
  split_ifs
  · rfl
  · simp

@[simp]
theorem in_out_widget.with_parallax_lock (env : environment) (v : float)
    (io : in_out_widget) : (io.with_parallax env v)._lock = io._lock := rfl

@[simp]
theorem in_out_widget.with_ghostbust_lock (v : Int) (io : in_out_widget) :
    (io.with_ghostbust v)._lock = io._lock := rfl

@[simp]
theorem in_out_widget.audio_setValue_lock (v : Int) (io : in_out_widget) :
    (in_out_widget.audio_setValue v io)._lock = io._lock := rfl

@[simp]
theorem in_out_widget.with_lock_lock (b : Bool) (io : in_out_widget) :
    (io.with_lock b)._lock = b := rfl

/-- Function `in_out_widget::update` in closed form: whatever `send_cmd` is, the call
returns, is recorded in the trace and replaces the in/out widget by `updated`. -/
theorem in_out_widget.update_updated (env : environment) (send_cmd : command → action)
    (d : player_init_data) (hv p : Bool) (w : main_window) :
    in_out_widget.update env send_cmd d hv p w =
      .ok ((w.emit (.in_out_widget_update d hv p)).set_in_out
        (w._in_out_widget.updated env w._settings d hv p)) := by
  rw [in_out_widget.update_unfold]
  have e0 : ((w.emit (.in_out_widget_update d hv p)).set_in_out
      { (w.emit (.in_out_widget_update d hv p))._in_out_widget with _lock := true }) =
      (w.emit (.in_out_widget_update d hv p)).set_in_out (w._in_out_widget.with_lock true) :=
    rfl
  rw [e0, in_out_widget.set_input_eq _ _ _ _ _ (by simp)]
  simp only [Except.ok_bind, bind_assoc, set_in_out_settings, emit_settings,
    set_in_out_in_out_widget]
  rw [in_out_widget.set_output_eq _ _ _ _ (by simp)]
  simp only [Except.ok_bind, set_in_out_in_out_widget]
  rw [in_out_widget.parallax_setValue_eq _ _ _ _ (by simp)]
  simp only [Except.ok_bind, set_in_out_in_out_widget]
  rw [in_out_widget.ghostbust_setValue_eq _ _ _ (by simp)]
  simp only [Except.ok_bind, set_in_out_in_out_widget, in_out_widget.set_lock]
  cases hv
  · rfl
  · cases p <;> rfl

/-- Function `in_out_widget::receive_notification` in closed form: whatever `send_cmd` is,
the call returns and only replaces the in/out widget. -/
theorem in_out_widget.receive_notification_eq (env : environment)
    (send_cmd : command → action) (note : notification) (w : main_window) :
    in_out_widget.receive_notification env send_cmd note w =
      .ok (w.set_in_out (w._in_out_widget.after_notification env note)) := by
  unfold in_out_widget.receive_notification in_out_widget.after_notification
  cases note.type
  · rfl
  · rfl
  · rfl
  · simp only [in_out_widget.set_lock, Except.ok_bind]
    rw [in_out_widget.swap_eyes_setChecked_eq _ _ _ rfl]
    rfl
  · simp only [in_out_widget.set_lock, Except.ok_bind]
    rw [in_out_widget.parallax_setValue_eq _ _ _ _ rfl]
    rfl
  · simp only [in_out_widget.set_lock, Except.ok_bind]
    rw [in_out_widget.ghostbust_setValue_eq _ _ _ rfl]
    rfl
  · rfl
  · rfl
  · rfl
  · rfl

/-! ## The values of the in/out widget after `update` -/

theorem in_out_widget.after_input_changed_input (env : environment) (settings : QSettings)
    (io : in_out_widget) :
    (io.after_input_changed env settings)._input_combobox = io._input_combobox := by
  unfold in_out_widget.after_input_changed
  simp only
  split_ifs <;> rfl

theorem in_out_widget.with_input_index_eq (env : environment) (settings : QSettings)
    (l : stereo_layout_t) (b : Bool) (io : in_out_widget) :
    (io.with_input env settings l b)._input_combobox.currentIndex =
      in_out_widget.input_index l b := by
  unfold in_out_widget.with_input
  split_ifs with h
  · exact h
  · rw [in_out_widget.after_input_changed_input]
    rfl

theorem in_out_widget.with_values_input (env : environment) (settings : QSettings)
    (d : player_init_data) (io : in_out_widget) :
    (io.with_values env settings d)._input_combobox.currentIndex =
      in_out_widget.input_index d.stereo_layout d.stereo_layout_swap :=
  in_out_widget.with_input_index_eq env settings d.stereo_layout d.stereo_layout_swap
    (io.with_lock true)

theorem in_out_widget.with_values_output (env : environment) (settings : QSettings)
    (d : player_init_data) (io : in_out_widget) :
    (io.with_values env settings d)._output_combobox.currentIndex =
      in_out_widget.output_index d.stereo_mode := rfl

theorem in_out_widget.with_values_swap (env : environment) (settings : QSettings)
    (d : player_init_data) (io : in_out_widget) :
    (io.with_values env settings d)._swap_eyes_button.checked = d.stereo_mode_swap := rfl

theorem in_out_widget.with_values_audio (env : environment) (settings : QSettings)
    (d : player_init_data) (io : in_out_widget) :
    (io.with_values env settings d)._audio_spinbox.value =
      qBound 1 (d.audio_stream + 1) 999 := rfl

theorem in_out_widget.with_values_parallax (env : environment) (settings : QSettings)
    (d : player_init_data) (io : in_out_widget) :
    (io.with_values env settings d)._parallax_spinbox.value =
      qBound (-1) (env.round_decimals d.params.parallax) 1 := rfl

theorem in_out_widget.with_values_ghostbust (env : environment) (settings : QSettings)
    (d : player_init_data) (io : in_out_widget) :
    (io.with_values env settings d)._ghostbust_spinbox.value =
      qBound 0 (qRound (env.float_mul d.params.ghostbust 100)) 100 := rfl

/-- After `update` the in/out widget holds the values of `with_values`, whatever the
enabled states are. -/
theorem in_out_widget.updated_values (env : environment) (settings : QSettings)
    (d : player_init_data) (hv p : Bool) (io : in_out_widget) :
    (io.updated env settings d hv p)._input_combobox.currentIndex =
      (io.with_values env settings d)._input_combobox.currentIndex ∧
    (io.updated env settings d hv p)._output_combobox.currentIndex =
      (io.with_values env settings d)._output_combobox.currentIndex ∧
    (io.updated env settings d hv p)._swap_eyes_button.checked =
      (io.with_values env settings d)._swap_eyes_button.checked ∧
    (io.updated env settings d hv p)._audio_spinbox.value =
      (io.with_values env settings d)._audio_spinbox.value ∧
    (io.updated env settings d hv p)._parallax_spinbox.value =
      (io.with_values env settings d)._parallax_spinbox.value ∧
    (io.updated env settings d hv p)._ghostbust_spinbox.value =
      (io.with_values env settings d)._ghostbust_spinbox.value ∧
    (io.updated env settings d hv p)._lock = false := by
  unfold in_out_widget.updated
  cases hv
  · exact ⟨rfl, rfl, rfl, rfl, rfl, rfl, rfl⟩
  · exact ⟨rfl, rfl, rfl, rfl, rfl, rfl, rfl⟩

theorem qBound_of_mem {α : Type} [LinearOrder α] (lo v hi : α) (h1 : lo ≤ v) (h2 : v ≤ hi) :
    qBound lo v hi = v := by
  unfold qBound
  rw [min_eq_right h2, max_eq_right h1]

theorem qRound_of_nonneg (d : float) (h : 0 ≤ d) : qRound d = Int.floor (d + 1 / 2) := by
  unfold qRound
  rw [if_pos h]

theorem qRound_intCast (v : Int) (h : 0 ≤ v) : qRound (v : ℚ) = v := by
  rw [qRound_of_nonneg _ (by exact_mod_cast h), Int.floor_eq_iff]
  constructor <;> norm_num

theorem qRound_percent (x : float) (h0 : 0 ≤ x) (h1 : x ≤ 100) :
    0 ≤ qRound x ∧ qRound x ≤ 100 := by
  rw [qRound_of_nonneg _ h0]
  constructor
  · exact Int.floor_nonneg.mpr (by positivity)
  · have h2 : x + 1 / 2 < (((100 + 1 : Int)) : ℚ) := by
      push_cast
      linarith
    exact Int.lt_add_one_iff.mp (Int.floor_lt.mpr h2)

/-! ## C21: `in_out_widget::update` mirrors the preferences -/

/-- C21: `in_out_widget::update` returns whatever `send_cmd` is, and returns the same
window when `send_cmd` is one that always fails, so it sends no command. Afterwards the
input combo box shows the item of the layout and swap of `init_data`, the output combo box
the item of its stereo mode, the swap button is checked iff its mode swap is set, and the
three spin boxes hold what `setValue` makes of `audio_stream + 1`, of `params.parallax`
and of `qRound` of the float product `params.ghostbust * 100.0f`: these values bounded to
the range of the box (and rounded to its two decimals in the parallax box), hence the
values themselves when they are in range. `_lock` is false and nothing but the in/out
widget has changed. -/
theorem in_out_widget.update_mirrors (env : environment) (send_cmd : command → action)
    (d : player_init_data) (hv p : Bool) (w : main_window) :
    ∃ w', in_out_widget.update env send_cmd d hv p w = .ok w' ∧
      in_out_widget.update env no_send_cmd d hv p w = .ok w' ∧
      w' = (w.emit (.in_out_widget_update d hv p)).set_in_out w'._in_out_widget ∧
      w'._in_out_widget._input_combobox.currentIndex =
        in_out_widget.input_index d.stereo_layout d.stereo_layout_swap ∧
      w'._in_out_widget._output_combobox.currentIndex =
        in_out_widget.output_index d.stereo_mode ∧
      w'._in_out_widget._swap_eyes_button.checked = d.stereo_mode_swap ∧
      w'._in_out_widget._audio_spinbox.value = qBound 1 (d.audio_stream + 1) 999 ∧
      w'._in_out_widget._parallax_spinbox.value =
        qBound (-1) (env.round_decimals d.params.parallax) 1 ∧
      w'._in_out_widget._ghostbust_spinbox.value =
        qBound 0 (qRound (env.float_mul d.params.ghostbust 100)) 100 ∧
      (0 ≤ d.audio_stream → d.audio_stream ≤ 998 →
        w'._in_out_widget._audio_spinbox.value = d.audio_stream + 1) ∧
      (-1 ≤ d.params.parallax → d.params.parallax ≤ 1 →
        env.round_decimals d.params.parallax = d.params.parallax →
        w'._in_out_widget._parallax_spinbox.value = d.params.parallax) ∧
      (0 ≤ env.float_mul d.params.ghostbust 100 →
        env.float_mul d.params.ghostbust 100 ≤ 100 →
        w'._in_out_widget._ghostbust_spinbox.value =
          qRound (env.float_mul d.params.ghostbust 100)) ∧
      w'._in_out_widget._lock = false := by
  obtain ⟨h1, h2, h3, h4, h5, h6, h7⟩ :=
    in_out_widget.updated_values env w._settings d hv p w._in_out_widget
  refine ⟨_, in_out_widget.update_updated env send_cmd d hv p w,
    in_out_widget.update_updated env no_send_cmd d hv p w, rfl, ?_, ?_, ?_, ?_, ?_, ?_,
    ?_, ?_, ?_, ?_⟩
  · exact h1.trans (in_out_widget.with_values_input _ _ _ _)
  · exact h2
  · exact h3
  · exact h4
  · exact h5
  · exact h6
  · intro ha hb
    refine h4.trans ?_
    rw [in_out_widget.with_values_audio]
    exact qBound_of_mem _ _ _ (by linarith) (by linarith)
  · intro ha hb hr
    refine h5.trans ?_
    rw [in_out_widget.with_values_parallax, hr]
    exact qBound_of_mem _ _ _ ha hb
  · intro ha hb
    refine h6.trans ?_
    rw [in_out_widget.with_values_ghostbust]
    exact qBound_of_mem _ _ _ (qRound_percent _ ha hb).1 (qRound_percent _ ha hb).2
  · exact h7

theorem sample_round_decimals_parallax :
    (sample_environment mono_engine).round_decimals (37 / 100) = 37 / 100 := by
  show ((Int.floor ((37 / 100 : ℚ) * 100 + 1 / 2) : Int) : ℚ) / 100 = 37 / 100
  have h : Int.floor ((37 / 100 : ℚ) * 100 + 1 / 2) = 37 := by
    rw [Int.floor_eq_iff]
    constructor <;> norm_num
  rw [h]
  norm_num

theorem sample_float_mul_half :
    (sample_environment mono_engine).float_mul (1 / 2) 100 = ((50 : Int) : ℚ) := by
  show (1 / 2 : ℚ) * 100 = ((50 : Int) : ℚ)
  norm_num

/-- Witness for C21: the widget of the stopped window is updated from the preferences of
a 3D file: side by side input (item 7), anaglyph output (item 9) with swapped eyes, audio
stream 5, parallax 0.37 and ghostbusting one half, all of them in range. -/
theorem in_out_widget.update_mirrors_witness :
    ∃ w', in_out_widget.update (sample_environment mono_engine) no_send_cmd
        mirror_init_data true false stopped_window = .ok w' ∧
      w'._in_out_widget._input_combobox.currentIndex = 7 ∧
      w'._in_out_widget._output_combobox.currentIndex = 9 ∧
      w'._in_out_widget._swap_eyes_button.checked = true ∧
      w'._in_out_widget._audio_spinbox.value = 6 ∧
      w'._in_out_widget._parallax_spinbox.value = 37 / 100 ∧
      w'._in_out_widget._ghostbust_spinbox.value = 50 ∧
      w'._in_out_widget._lock = false := by
  obtain ⟨w', e1, -, -, hi, ho, hs, -, -, -, ha, hp, hg, hl⟩ :=
    in_out_widget.update_mirrors (sample_environment mono_engine) no_send_cmd
      mirror_init_data true false stopped_window
  have h50 : qRound ((sample_environment mono_engine).float_mul
      mirror_init_data.params.ghostbust 100) = 50 := by
    show qRound ((sample_environment mono_engine).float_mul (1 / 2) 100) = 50
    rw [sample_float_mul_half]
    exact qRound_intCast 50 (by decide)
  have hm : (sample_environment mono_engine).float_mul mirror_init_data.params.ghostbust 100
      = 50 := by
    show (1 / 2 : ℚ) * 100 = 50
    norm_num
  refine ⟨w', e1, hi, ho, hs, ha (by decide) (by decide), ?_, ?_, hl⟩
  · exact hp (show (-1 : ℚ) ≤ 37 / 100 by norm_num) (show (37 / 100 : ℚ) ≤ 1 by norm_num)
      sample_round_decimals_parallax
  · rw [hg (by rw [hm]; norm_num) (by rw [hm]; norm_num), h50]

/-! ## C24: the seek slider -/

/-- C24: for a slider position `v` from 0 to 2000, the slot `seek_slider_changed` of an
unlocked controls widget whose slider is at `v` ends in `send_cmd` of `set_pos` with the
parameter `v / 2000`, which lies in `[0, 1]`; and a `pos` notification whose current value
is `v / 2000`, received while the slider is not held down, is handled without fault and
leaves the slider at exactly `v`. -/
theorem controls_widget.seek_slider_round_trip (send_cmd : command → action) (v : Int)
    (previous : float) (w : main_window) (h0 : 0 ≤ v) (h1 : v ≤ 2000) :
    (w._controls_widget._seek_slider.value = v → w._controls_widget._lock = false →
      controls_widget.seek_slider_changed send_cmd w =
        send_cmd ⟨.set_pos, some ((v : ℚ) / 2000)⟩ w) ∧
    0 ≤ (v : ℚ) / 2000 ∧ (v : ℚ) / 2000 ≤ 1 ∧
    (w._controls_widget._seek_slider.sliderDown = false →
      ∃ w', controls_widget.receive_notification send_cmd
          (notification.of_value .pos previous ((v : ℚ) / 2000)) w = .ok w' ∧
        w'._controls_widget._seek_slider.value = v) := by
  have hv0 : (0 : ℚ) ≤ (v : ℚ) := by exact_mod_cast h0
  have hv1 : (v : ℚ) ≤ 2000 := by exact_mod_cast h1
  refine ⟨?_, by positivity, ?_, ?_⟩
  · intro hv hl
    simp [controls_widget.seek_slider_changed, hl, hv]
  · rw [div_le_one (by norm_num)]
    exact hv1
  · intro hd
    refine ⟨_, controls_widget.receive_notification_pos send_cmd _ w rfl, ?_⟩
    have hr : qRound ((v : ℚ) / 2000 * 2000) = v := by
      rw [div_mul_cancel₀ _ (by norm_num : (2000 : ℚ) ≠ 0)]
      exact qRound_intCast v h0
    show (controls_widget.after_pos ((v : ℚ) / 2000) w._controls_widget)._seek_slider.value = v
    simp only [controls_widget.after_pos, hd, Bool.false_eq_true, if_false, hr]
    exact qBound_of_mem _ _ _ h0 h1

/-- Witness for C24: the slider of the playing window is at 1000 and is not held. -/
theorem controls_widget.seek_slider_round_trip_witness :
    (controls_widget.seek_slider_changed no_send_cmd playing_window =
        no_send_cmd ⟨.set_pos, some (((1000 : Int) : ℚ) / 2000)⟩ playing_window) ∧
    0 ≤ ((1000 : Int) : ℚ) / 2000 ∧ ((1000 : Int) : ℚ) / 2000 ≤ 1 ∧
    ∃ w', controls_widget.receive_notification no_send_cmd
        (notification.of_value .pos 0 (((1000 : Int) : ℚ) / 2000)) playing_window = .ok w' ∧
      w'._controls_widget._seek_slider.value = 1000 :=
  ⟨(controls_widget.seek_slider_round_trip no_send_cmd 1000 0 playing_window (by decide)
      (by decide)).1 rfl rfl,
    (controls_widget.seek_slider_round_trip no_send_cmd 1000 0 playing_window (by decide)
      (by decide)).2.1,
    (controls_widget.seek_slider_round_trip no_send_cmd 1000 0 playing_window (by decide)
      (by decide)).2.2.1,
    (controls_widget.seek_slider_round_trip no_send_cmd 1000 0 playing_window (by decide)
      (by decide)).2.2.2 rfl⟩

/-! ## C25: the audio stream index -/

theorem main_window.play_writes_audio_stream (env : environment)
    (send_cmd : command → action) (note : notification) (w : main_window)
    (name : String) (names : List String)
    (ht : note.type = .play) (hf : note.current.flag = true)
    (hu : w._init_data.urls = name :: names) :
    ∃ w', main_window.receive_notification env send_cmd note w = .ok w' ∧
      QSettings.lookup w'._settings ("Video/" ++ env.file_hash name ++ "/audio-stream") =
        some (env.int_to_string (in_out_widget.audio_stream w._in_out_widget)) := by
  obtain ⟨w', e, hset⟩ :=
    main_window.receive_notification_play_true_settings env send_cmd note w name names
      ht hf hu
  refine ⟨w', e, ?_⟩
  rw [hset, QSettings.lookup_setValue_other _ _ _ _
      (by rw [session_mode_key_eq]; exact video_key_ne_session _ _ _),
    QSettings.lookup_setValue_same]
  rfl

/-- C25: for an audio stream index `n` from 0 to 998, `in_out_widget::update` with
`init_data.audio_stream = n` returns, and afterwards the audio spin box shows `n + 1` and
`in_out_widget::audio_stream()` returns `n`; a `play` notification with current flag true
that the main window handles in that state (a file being loaded) writes `n` as a string to
`Video/<hash>/audio-stream`. -/
theorem in_out_widget.audio_stream_round_trip (env : environment)
    (send_cmd : command → action) (d : player_init_data) (hv p : Bool) (w : main_window)
    (h0 : 0 ≤ d.audio_stream) (h1 : d.audio_stream ≤ 998) :
    ∃ w', in_out_widget.update env send_cmd d hv p w = .ok w' ∧
      w'._in_out_widget._audio_spinbox.value = d.audio_stream + 1 ∧
      in_out_widget.audio_stream w'._in_out_widget = d.audio_stream ∧
      ∀ (s : command → action) (note : notification) (name : String) (names : List String),
        note.type = .play → note.current.flag = true →
        w'._init_data.urls = name :: names →
        ∃ w2, main_window.receive_notification env s note w' = .ok w2 ∧
          QSettings.lookup w2._settings ("Video/" ++ env.file_hash name ++ "/audio-stream") =
            some (env.int_to_string d.audio_stream) := by
  obtain ⟨-, -, -, h4, -⟩ :=
    in_out_widget.updated_values env w._settings d hv p w._in_out_widget
  have ha : (w._in_out_widget.updated env w._settings d hv p)._audio_spinbox.value =
      d.audio_stream + 1 := by
    rw [h4, in_out_widget.with_values_audio]
    exact qBound_of_mem _ _ _ (by linarith) (by linarith)
  have hs : in_out_widget.audio_stream (w._in_out_widget.updated env w._settings d hv p) =
      d.audio_stream := by
    unfold in_out_widget.audio_stream
    rw [ha]
    ring
  refine ⟨_, in_out_widget.update_updated env send_cmd d hv p w, ha, hs, ?_⟩
  intro s note name names ht hf hu
  obtain ⟨w2, e2, hl⟩ := main_window.play_writes_audio_stream env s note _ name names ht hf hu
  refine ⟨w2, e2, ?_⟩
  rw [hl]
  exact congrArg (fun i => some (env.int_to_string i)) hs

/-- Witness for C25: the widget of the stopped window is updated with audio stream 0. -/
theorem in_out_widget.audio_stream_round_trip_witness :
    ∃ w', in_out_widget.update (sample_environment mono_engine) no_send_cmd
        (sample_init_data ["a.mp4"]) true false stopped_window = .ok w' ∧
      w'._in_out_widget._audio_spinbox.value = (sample_init_data ["a.mp4"]).audio_stream + 1 ∧
      in_out_widget.audio_stream w'._in_out_widget =
        (sample_init_data ["a.mp4"]).audio_stream ∧
      ∀ (s : command → action) (note : notification) (name : String) (names : List String),
        note.type = .play → note.current.flag = true →
        w'._init_data.urls = name :: names →
        ∃ w2, main_window.receive_notification (sample_environment mono_engine) s note w'
            = .ok w2 ∧
          QSettings.lookup w2._settings
              ("Video/" ++ (sample_environment mono_engine).file_hash name ++ "/audio-stream")
            = some ((sample_environment mono_engine).int_to_string
              (sample_init_data ["a.mp4"]).audio_stream) :=
  in_out_widget.audio_stream_round_trip (sample_environment mono_engine) no_send_cmd
    (sample_init_data ["a.mp4"]) true false stopped_window (by decide) (by decide)

/-! ## C26: the input layout selection -/

/-- C26 (the code at the failing input): `set_input(separate, true)` selects item 2 of the
input combo box, and `input` then returns `separate` with swap false, because its case 2
assigns `stereo_layout_swap = false`; `set_input` of that pair would select item 1. So
neither the pair nor the index 2 survives the round trip. -/
theorem in_out_widget.input_loses_swap_of_separate :
    ∃ w', in_out_widget.set_input (sample_environment mono_engine) no_send_cmd .separate
        true stopped_window = .ok w' ∧
      w'._in_out_widget._input_combobox.currentIndex = 2 ∧
      in_out_widget.input w'._in_out_widget (.separate, true) = (.separate, false) ∧
      in_out_widget.input_index .separate false = 1 :=
  ⟨_, rfl, rfl, rfl, rfl⟩

/-! ## C27: the output mode selection -/

theorem in_out_widget.output_with_output (m : stereo_mode_t) (b : Bool) (io : in_out_widget)
    (old : stereo_mode_t × Bool) :
    in_out_widget.output (io.with_output m b) old = (if m = .other then .mono_left else m, b) := by
  cases m <;> rfl

theorem in_out_widget.output_index_output (io : in_out_widget) (old : stereo_mode_t × Bool) :
    in_out_widget.output_index (in_out_widget.output io old).1 =
      io._output_combobox.currentIndex := by
  obtain ⟨i1, a, ⟨⟨i, hi⟩, e⟩, s, f, c, pl, ps, gl, gs, l⟩ := io
  interval_cases i <;> rfl

/-- C27: `set_output(mode, b)` selects the item of `mode` in the output combo box and checks
the swap button iff `b`; that is all it does itself (if the button changed while the
widget is not locked, the slot of the button then sends `toggle_stereo_mode_swap`). In
the window it leaves, `output` returns `(mode, b)` for each of the 14 listed modes, and a
mode that is not listed has selected item 0, the left view. For every item of the combo
box, `set_output` of what `output` returns selects that item again. -/
theorem in_out_widget.set_output_round_trip (send_cmd : command → action)
    (m : stereo_mode_t) (b : Bool) (w : main_window) (old : stereo_mode_t × Bool) :
    (in_out_widget.set_output send_cmd m b w =
        .ok (w.set_in_out (w._in_out_widget.with_output m b)) ∨
      in_out_widget.set_output send_cmd m b w =
        send_cmd ⟨.toggle_stereo_mode_swap, none⟩
          (w.set_in_out (w._in_out_widget.with_output m b))) ∧
    (w._in_out_widget.with_output m b)._output_combobox.currentIndex =
      in_out_widget.output_index m ∧
    (w._in_out_widget.with_output m b)._swap_eyes_button.checked = b ∧
    in_out_widget.output (w._in_out_widget.with_output m b) old =
      (if m = .other then .mono_left else m, b) ∧
    in_out_widget.output_index .other = 0 ∧
    in_out_widget.output_index (in_out_widget.output w._in_out_widget old).1 =
      w._in_out_widget._output_combobox.currentIndex := by
  refine ⟨?_, rfl, rfl, in_out_widget.output_with_output m b _ old, rfl,
    in_out_widget.output_index_output _ old⟩
  have h1 : in_out_widget.set_output send_cmd m b w =
      in_out_widget.swap_eyes_setChecked send_cmd b
        (w.set_in_out (w._in_out_widget.with_output_index (in_out_widget.output_index m))) := by
    cases m <;> rfl
  rw [h1]
  unfold in_out_widget.swap_eyes_setChecked
  split_ifs with hc
  · left
    have hc1 : w._in_out_widget._swap_eyes_button.checked = b := hc
    subst hc1
    rfl
  · unfold in_out_widget.swap_eyes_changed
    split_ifs
    · right
      rfl
    · left
      rfl

/-! ## C28: the enabled states of the in/out widget -/

theorem in_out_widget.with_playing_enabled (flag : Bool) (io : in_out_widget) :
    (io.with_playing flag).selection_enabled (!flag) ∧
    (io.with_playing flag).playback_enabled flag :=
  ⟨⟨rfl, rfl, rfl⟩, ⟨rfl, rfl, rfl, rfl, rfl, rfl, rfl⟩⟩

theorem in_out_widget.disable_all_enabled (io : in_out_widget) :
    (in_out_widget.disable_all io).selection_enabled false ∧
    (in_out_widget.disable_all io).playback_enabled false :=
  ⟨⟨rfl, rfl, rfl⟩, ⟨rfl, rfl, rfl, rfl, rfl, rfl, rfl⟩⟩

theorem in_out_widget.updated_enabled (env : environment) (settings : QSettings)
    (d : player_init_data) (hv p : Bool) (io : in_out_widget) :
    (io.updated env settings d hv p).selection_enabled (hv && !p) ∧
    (io.updated env settings d hv p).playback_enabled (hv && p) := by
  unfold in_out_widget.updated
  cases hv
  · exact in_out_widget.disable_all_enabled _
  · simpa using in_out_widget.with_playing_enabled p _

theorem in_out_widget.after_notification_enabled (env : environment) (note : notification)
    (io : in_out_widget) (s p : Bool) (hs : io.selection_enabled s)
    (hp : io.playback_enabled p) :
    (io.after_notification env note).selection_enabled
      (if note.type = .play then !note.current.flag else s) ∧
    (io.after_notification env note).playback_enabled
      (if note.type = .play then note.current.flag else p) := by
  unfold in_out_widget.after_notification
  cases note.type
  · exact in_out_widget.with_playing_enabled _ _
  all_goals exact ⟨hs, hp⟩

/-- C28: the constructor of the in/out widget leaves both groups disabled. Every `update`
call returns and leaves the selection controls (input combo box, audio spin box, output
combo box) with one enabled state and the playback controls (swap eyes, fullscreen, center,
parallax label and spin box, ghostbust label and spin box) with one enabled state, not
both enabled. Every `receive_notification` call returns and keeps that invariant; after a
`play` notification the selection group is enabled iff `current.flag` is false and the
playback group iff it is true. -/
theorem in_out_widget.enabled_states (env : environment) (send_cmd : command → action)
    (d : player_init_data) (hv p : Bool) (note : notification) (w : main_window) :
    in_out_widget.construct.enabled_invariant ∧
    (∃ w', in_out_widget.update env send_cmd d hv p w = .ok w' ∧
      w'._in_out_widget.enabled_invariant) ∧
    (w._in_out_widget.enabled_invariant →
      ∃ w', in_out_widget.receive_notification env send_cmd note w = .ok w' ∧
        w'._in_out_widget.enabled_invariant) ∧
    (note.type = .play →
      ∃ w', in_out_widget.receive_notification env send_cmd note w = .ok w' ∧
        w'._in_out_widget.selection_enabled (!note.current.flag) ∧
        w'._in_out_widget.playback_enabled note.current.flag) := by
  refine ⟨?_, ?_, ?_, ?_⟩
  · exact ⟨false, false, ⟨rfl, rfl, rfl⟩, ⟨rfl, rfl, rfl, rfl, rfl, rfl, rfl⟩, by simp⟩
  · refine ⟨_, in_out_widget.update_updated env send_cmd d hv p w, hv && !p, hv && p,
      (in_out_widget.updated_enabled env _ d hv p _).1,
      (in_out_widget.updated_enabled env _ d hv p _).2, ?_⟩
    cases hv <;> cases p <;> simp
  · rintro ⟨s, q, hs, hq, hn⟩
    refine ⟨_, in_out_widget.receive_notification_eq env send_cmd note w, _, _,
      (in_out_widget.after_notification_enabled env note _ s q hs hq).1,
      (in_out_widget.after_notification_enabled env note _ s q hs hq).2, ?_⟩
    split_ifs
    · cases note.current.flag <;> simp
    · exact hn
  · intro ht
    refine ⟨_, in_out_widget.receive_notification_eq env send_cmd note w, ?_, ?_⟩
    · show (w._in_out_widget.after_notification env note).selection_enabled _
      unfold in_out_widget.after_notification
      rw [ht]
      exact (in_out_widget.with_playing_enabled _ _).1
    · show (w._in_out_widget.after_notification env note).playback_enabled _
      unfold in_out_widget.after_notification
      rw [ht]
      exact (in_out_widget.with_playing_enabled _ _).2

/-- Witness for C28: the in/out widget of the stopped window, which satisfies the
invariant, receives the notification that playback has started. -/
theorem in_out_widget.enabled_states_witness :
    stopped_window._in_out_widget.enabled_invariant ∧
    (∃ w', in_out_widget.receive_notification (sample_environment mono_engine) no_send_cmd
        (notification.of_flag .play false true) stopped_window = .ok w' ∧
      w'._in_out_widget.enabled_invariant) ∧
    (∃ w', in_out_widget.receive_notification (sample_environment mono_engine) no_send_cmd
        (notification.of_flag .play false true) stopped_window = .ok w' ∧
      w'._in_out_widget.selection_enabled
        (!(notification.of_flag .play false true).current.flag) ∧
      w'._in_out_widget.playback_enabled (notification.of_flag .play false true).current.flag) :=
  have hinv : stopped_window._in_out_widget.enabled_invariant :=
    ⟨true, false, ⟨rfl, rfl, rfl⟩, ⟨rfl, rfl, rfl, rfl, rfl, rfl, rfl⟩, by simp⟩
  ⟨hinv,
    (in_out_widget.enabled_states (sample_environment mono_engine) no_send_cmd
      (sample_init_data ["a.mp4"]) true false (notification.of_flag .play false true)
      stopped_window).2.2.1 hinv,
    (in_out_widget.enabled_states (sample_environment mono_engine) no_send_cmd
      (sample_init_data ["a.mp4"]) true false (notification.of_flag .play false true)
      stopped_window).2.2.2 rfl⟩

/-! ## C23: a notification delivered twice -/

/-- Function `controls_widget::receive_notification` with the bus as `send_cmd`: the call
returns and leaves the controls widget as `after_notification` says (the `set_pos` command
of a slider that is reset is dropped or forwarded by the internal player, which changes no
widget). -/
theorem controls_widget.receive_notification_bus_eq (notify : notification → action)
    (note : notification) (w : main_window) :
    ∃ w', controls_widget.receive_notification (player_qt_internal.receive_cmd notify) note w
        = .ok w' ∧
      w'._controls_widget = w._controls_widget.after_notification note := by
  rcases ht : note.type with _ | _ | _ | _ | _ | _ | _ | _ | _ | _
  case pos =>
    exact ⟨_, controls_widget.receive_notification_pos _ note w ht, by
      simp [controls_widget.after_notification, ht]⟩
  case play =>
    obtain ⟨s, i, c, p, r, t, e⟩ := w
    obtain ⟨l, pl, ⟨v, down, en⟩, b1, b2, b3, b4, b5, b6, b7, b8, b9⟩ := c
    simp only [controls_widget.receive_notification, controls_widget.after_notification, ht,
      controls_widget.seek_slider_setValue, controls_widget.seek_slider_changed,
      player_qt_internal.receive_cmd, main_window.set_controls, main_window.emit, qBound]
    cases note.current.flag
    · by_cases hv : v = 0
      · subst hv
        simp
      · simp [hv]
        split_ifs <;> simp
    · simp
  case pause =>
    exact ⟨_, by simp only [controls_widget.receive_notification, ht]; rfl, by
      simp [controls_widget.after_notification, ht, main_window.set_controls]⟩
  all_goals
    exact ⟨w, by simp only [controls_widget.receive_notification, ht], by
      simp [controls_widget.after_notification, ht]⟩

/-- A controls widget that has just handled a notification handles the same notification
again without any effect, whatever `send_cmd` is. -/
theorem controls_widget.receive_notification_again (send_cmd : command → action)
    (note : notification) (w : main_window) (c : controls_widget)
    (h : w._controls_widget = c.after_notification note) :
    controls_widget.receive_notification send_cmd note w = .ok w := by
  obtain ⟨s, i, c1, p, r, t, e⟩ := w
  obtain ⟨l, pl, ⟨v, down, en⟩, b1, b2, b3, b4, b5, b6, b7, b8, b9⟩ := c
  simp only at h
  subst h
  rcases ht : note.type with _ | _ | _ | _ | _ | _ | _ | _ | _ | _
  case pos =>
    rw [controls_widget.receive_notification_pos _ note _ ht]
    simp only [controls_widget.after_notification, ht, controls_widget.after_pos,
      main_window.set_controls]
    cases down <;> simp
  case play =>
    simp only [controls_widget.receive_notification, controls_widget.after_notification, ht,
      controls_widget.seek_slider_setValue, controls_widget.seek_slider_changed,
      main_window.set_controls, qBound]
    cases note.current.flag <;> simp
  case pause =>
    simp only [controls_widget.receive_notification, controls_widget.after_notification, ht,
      main_window.set_controls]
  all_goals
    simp only [controls_widget.receive_notification, ht]

theorem in_out_widget.after_notification_idem (env : environment) (note : notification)
    (io : in_out_widget) :
    (io.after_notification env note).after_notification env note =
      io.after_notification env note := by
  unfold in_out_widget.after_notification
  cases note.type <;> rfl

/-- C23: a notification delivered twice in a row to the controls widget, and to the in/out
widget, leaves the widget as one delivery does: both deliveries return and the second one
changes nothing at all, so the enabled flags, the slider, spin box and button values,
`_playing` and `_lock` are those after the first. The controls widget sends through the
bus, where the internal player receives the `set_pos` command that the slider emits when
it is reset by the first of two `play` notifications with flag false. -/
theorem receive_notification_idempotent (env : environment) (notify : notification → action)
    (send_cmd : command → action) (note : notification) (w : main_window) :
    (∃ w1, controls_widget.receive_notification (player_qt_internal.receive_cmd notify) note w
        = .ok w1 ∧
      controls_widget.receive_notification (player_qt_internal.receive_cmd notify) note w1
        = .ok w1) ∧
    (∃ w1, in_out_widget.receive_notification env send_cmd note w = .ok w1 ∧
      in_out_widget.receive_notification env send_cmd note w1 = .ok w1) := by
  constructor
  · obtain ⟨w1, e1, h1⟩ := controls_widget.receive_notification_bus_eq notify note w
    exact ⟨w1, e1, controls_widget.receive_notification_again _ note w1 _ h1⟩
  · refine ⟨_, in_out_widget.receive_notification_eq env send_cmd note w, ?_⟩
    rw [in_out_widget.receive_notification_eq env send_cmd note]
    show Except.ok ((w.set_in_out _).set_in_out
      ((w._in_out_widget.after_notification env note).after_notification env note)) = _
    rw [in_out_widget.after_notification_idem]
    rfl

/-! ## C29: an open failure at play time -/

/-- C29: if `open_player` fails while `main_window::receive_notification` handles a `play`
notification with current flag true (a file being loaded), the handler returns with
`_stop_request` set and the timer started. The next `playloop_step` then returns without
an engine step: it stops the timer, sends the `play` notification of `force_stop` with
current flag false and clears `_stop_request`; afterwards the timer is stopped, neither
the internal player nor the controls widget counts as playing and the engine is closed. -/
theorem main_window.play_failure_recovery (fuel : Nat) (env : environment)
    (send_cmd : command → action) (note : notification) (step : step_result)
    (w : main_window) (name : String) (names : List String) (what : String)
    (ht : note.type = .play) (hf : note.current.flag = true)
    (hu : w._init_data.urls = name :: names)
    (h : env.player_open (main_window.play_data w) = .threw what) :
    ∃ w1, main_window.receive_notification env send_cmd note w = .ok w1 ∧
      w1._stop_request = true ∧ w1._timer.active = true ∧
      ∃ w2, main_window.playloop_step (fuel + 1) env step w1 = .ok w2 ∧
        event.player_run_step ∉ w2.trace.drop w1.trace.length ∧
        event.notify (notification.of_flag .play false false) ∈
          w2.trace.drop w1.trace.length ∧
        w2._timer.active = false ∧ w2._stop_request = false ∧
        w2._player._playing = false ∧ w2._controls_widget._playing = false ∧
        w2._player.is_open = false := by
  obtain ⟨w1, e1, -, htm, -, -, -, hs, -⟩ :=
    main_window.receive_notification_play_true env send_cmd note w name names ht hf hu
  rw [h] at hs
  obtain ⟨w2, e2, ht2, hp2, hc2, ho2, -, -, -, -, -, rest, htr, hrest⟩ :=
    controller.notify_stop fuel env false (main_window.timer_stop w1)
  refine ⟨w1, e1, hs, htm, { w2 with _stop_request := false }, ?_, ?_, ?_, ht2, rfl, hp2, hc2,
    ho2⟩
  · simp only [main_window.playloop_step, hs, if_true, player_qt_internal.force_stop, e2,
      Except.ok_bind]
  · simp only [htr, timer_stop_trace, List.append_assoc, List.drop_left]
    rcases hrest with hr | hr <;> subst hr <;> simp
  · simp only [htr, timer_stop_trace, List.append_assoc, List.drop_left]
    simp

/-- Witness for C29: the stopped window holding `a.mp4` is told that playback has started
while the engine cannot open anything. -/
theorem main_window.play_failure_recovery_witness :
    ∃ w1, main_window.receive_notification (sample_environment failing_engine) no_send_cmd
        (notification.of_flag .play false true) stopped_window = .ok w1 ∧
      w1._stop_request = true ∧ w1._timer.active = true ∧
      ∃ w2, main_window.playloop_step 1 (sample_environment failing_engine)
          (.returned true) w1 = .ok w2 ∧
        event.player_run_step ∉ w2.trace.drop w1.trace.length ∧
        event.notify (notification.of_flag .play false false) ∈
          w2.trace.drop w1.trace.length ∧
        w2._timer.active = false ∧ w2._stop_request = false ∧
        w2._player._playing = false ∧ w2._controls_widget._playing = false ∧
        w2._player.is_open = false :=
  main_window.play_failure_recovery 0 (sample_environment failing_engine) no_send_cmd
    (notification.of_flag .play false true) (.returned true) stopped_window "a.mp4" []
    "cannot open" rfl rfl rfl rfl

/-! ## C22: `toggle_play` without a source -/

/-- With an empty source list, `main_window::receive_notification` on a `play` notification
with current flag true reaches `current_file_hash`, which reads `urls[0]`. -/
theorem main_window.receive_notification_play_true_empty (env : environment)
    (send_cmd : command → action) (note : notification) (w : main_window)
    (ht : note.type = .play) (hf : note.current.flag = true)
    (hu : w._init_data.urls = []) :
    main_window.receive_notification env send_cmd note w = .error .urls_empty := by
  have hd : (main_window.play_data w).urls = [] := hu
  have h1 : main_window.receive_notification env send_cmd note w =
      (let w1 : main_window := { player.close w with _init_data := main_window.play_data w }
       let r := main_window.open_player env w1
       let w2 := if !r.1 then { r.2 with _stop_request := true } else r.2
       main_window.current_file_hash env w2 >>= fun hash =>
       let w3 := main_window.settings_setValue ("Video/" ++ hash ++ "/stereo-layout")
         (env.stereo_layout_to_string w2._init_data.stereo_layout w2._init_data.stereo_layout_swap) w2
       let w4 := main_window.settings_setValue ("Video/" ++ hash ++ "/audio-stream")
         (env.int_to_string w3._init_data.audio_stream) w3
       let w5 := main_window.settings_setValue
         (if w4._init_data.stereo_layout = .mono then "Session/2d-stereo-mode"
           else "Session/3d-stereo-mode")
         (env.stereo_mode_to_string w4._init_data.stereo_mode w4._init_data.stereo_mode_swap) w4
       in_out_widget.update env send_cmd w5._init_data true true w5 >>= fun w6 =>
       controls_widget.update send_cmd w6._init_data true true w6 >>= fun w7 =>
       .ok (main_window.timer_start (w7.emit .set_focus))) := by
    simp only [main_window.receive_notification, ht, hf, if_true]
    rfl
  rw [h1]
  clear h1
  simp only
  have hc : ∀ w2 : main_window, w2._init_data.urls = [] →
      main_window.current_file_hash env w2 = .error .urls_empty := by
    intro w2 h2
    unfold main_window.current_file_hash
    rw [h2]
  rw [hc _ (by split_ifs <;> simpa using hd)]
  rfl

/-- After construction without files the source list is empty, nobody is playing and the
play button is disabled. -/
theorem main_window.construct_without_files (fuel : Nat) (env : environment)
    (settings : QSettings) (d : player_init_data) (hu : d.urls = []) :
    ∃ w, main_window.construct fuel env settings d = .ok w ∧
      w._init_data.urls = [] ∧ w._player._playing = false ∧
      w._controls_widget._play_button.enabled = false := by
  have hl : (main_window.load_preferences env (main_window.members settings d))._init_data.urls
      = [] := by
    unfold main_window.load_preferences
    simp only
    split_ifs <;> exact hu
  have hp : (main_window.load_preferences env (main_window.members settings d))._player._playing
      = false := by
    unfold main_window.load_preferences
    simp only
    split_ifs <;> rfl
  have hs : (main_window.load_preferences env
      (main_window.members settings d))._controls_widget._seek_slider.value = 0 := by
    unfold main_window.load_preferences
    simp only
    split_ifs <;> rfl
  have hc : main_window.construct fuel env settings d =
      (in_out_widget.update env (controller.send_cmd fuel env)
        (main_window.load_preferences env (main_window.members settings d))._init_data
        false false (main_window.load_preferences env (main_window.members settings d)) >>=
      fun w => controls_widget.update (controller.send_cmd fuel env) w._init_data false false
        w >>= fun w =>
        if 0 < d.urls.length then main_window.open fuel env d.urls w else .ok w) := rfl
  rw [hc]
  generalize main_window.load_preferences env (main_window.members settings d) = w0 at hl hp hs
  simp only [hu, List.length_nil, lt_irrefl, if_false, in_out_widget.update_updated,
    Except.ok_bind]
  have hs1 : ((w0.emit (.in_out_widget_update w0._init_data false false)).set_in_out
      (w0._in_out_widget.updated env w0._settings w0._init_data false
        false))._controls_widget._seek_slider.value = 0 := hs
  have hl1 : ((w0.emit (.in_out_widget_update w0._init_data false false)).set_in_out
      (w0._in_out_widget.updated env w0._settings w0._init_data false
        false))._init_data.urls = [] := hl
  have hp1 : ((w0.emit (.in_out_widget_update w0._init_data false false)).set_in_out
      (w0._in_out_widget.updated env w0._settings w0._init_data false
        false))._player._playing = false := hp
  generalize ((w0.emit (.in_out_widget_update w0._init_data false false)).set_in_out
      (w0._in_out_widget.updated env w0._settings w0._init_data false false)) = w1
    at hs1 hl1 hp1
  have hq : qBound (0 : Int) 0 2000 = 0 := by decide
  simp only [controls_widget.update, Bool.false_eq_true, if_false,
    controls_widget.seek_slider_setValue, hq]
  rw [if_pos (by exact hs1)]
  exact ⟨_, rfl, hl1, hp1, rfl⟩

/-- C22 (the code at the failing input): a window is constructed without files, so its
source list is empty, nobody is playing and the play button is disabled. A `toggle_play`
command that reaches `player_qt_internal::receive_cmd` in that state is answered with a
`play` notification, on which `main_window::receive_notification` calls
`current_file_hash` and reads `urls[0]` of the empty list, whether the engine could open
the (empty) input or not. -/
theorem player_qt_internal.receive_cmd_toggle_play_without_source :
    (∃ w, main_window.construct 1 (sample_environment failing_engine) []
        (sample_init_data []) = .ok w ∧
      w._init_data.urls = [] ∧ w._controls_widget._play_button.enabled = false ∧
      controller.send_cmd 1 (sample_environment failing_engine) ⟨.toggle_play, none⟩ w =
        .error .urls_empty) ∧
    (∃ w, main_window.construct 1 (sample_environment mono_engine) []
        (sample_init_data []) = .ok w ∧
      w._init_data.urls = [] ∧ w._controls_widget._play_button.enabled = false ∧
      controller.send_cmd 1 (sample_environment mono_engine) ⟨.toggle_play, none⟩ w =
        .error .urls_empty) := by
  have key : ∀ (env : environment) (w : main_window), w._init_data.urls = [] →
      w._player._playing = false →
      controller.send_cmd 1 env ⟨.toggle_play, none⟩ w = .error .urls_empty := by
    intro env w hu hp
    simp only [controller.send_cmd, player_qt_internal.receive_cmd, hp, controller.notify]
    simp only [Bool.false_eq_true, not_false_eq_true, and_self, if_true]
    rw [main_window.receive_notification_play_true_empty env _ _ _ rfl rfl (by simpa using hu)]
    rfl
  constructor
  · obtain ⟨w, e, hu, hp, hb⟩ := main_window.construct_without_files 1
      (sample_environment failing_engine) [] (sample_init_data []) rfl
    exact ⟨w, e, hu, hb, key _ w hu hp⟩
  · obtain ⟨w, e, hu, hp, hb⟩ := main_window.construct_without_files 1
      (sample_environment mono_engine) [] (sample_init_data []) rfl
    exact ⟨w, e, hu, hb, key _ w hu hp⟩

end bino
